import Mathlib

/-!
USB/IP virtual host controller: port table, control surface and attach
coordinator.

A shallow embedding of `drivers/usb/usbip/vhci_sysfs.c` (the four sysfs
attributes `status`, `nports`, `attach`, `detach`), of
`tools/usb/usbip/src/usbip_attach.c` (the attach coordinator, the import
exchange and the connection ledger) and of `detach_port` of
`tools/usb/usbip/src/usbip_detach.c`.

Conventions of the embedding:

* the two root hubs are arrays `vdev[VHCI_HC_PORTS]`; they are functions
  `Nat → vhci_device`, of which only the slots below `VHCI_HC_PORTS` are
  ever addressed by the code;
* `VHCI_HC_PORTS` is a compile-time constant of `vhci.h`; it is an explicit
  argument of every function that uses it;
* the spin locks are not modelled: every function runs to completion on the
  table it is given;
* calls that leave the file (`usbip_event_add`, `kthread_get_run`,
  `rh_port_connect`) are recorded, in program order, in a list of effects;
* a `ssize_t` result is an `Int`: the byte count on success, `-errno` on
  failure.
-/

namespace Usbip

/-! ## Constants and types declared in headers -/

/-- Error number `EINVAL` of `errno-base.h`. -/
def EINVAL : Int := 22

/-- Error number `EBUSY` of `errno-base.h`. -/
def EBUSY : Int := 16

/-- Modelled from the spec: the speed classes that the spec and the `switch`
of `attach_store` name; they are the members of `enum usb_device_speed`
(`ch9.h`, absent from the sources), numbered in the order of that
enumeration. -/
def USB_SPEED_UNKNOWN : Nat := 0
/-- See `USB_SPEED_UNKNOWN`. -/
def USB_SPEED_LOW : Nat := 1
/-- See `USB_SPEED_UNKNOWN`. -/
def USB_SPEED_FULL : Nat := 2
/-- See `USB_SPEED_UNKNOWN`. -/
def USB_SPEED_HIGH : Nat := 3
/-- See `USB_SPEED_UNKNOWN`. -/
def USB_SPEED_WIRELESS : Nat := 4
/-- See `USB_SPEED_UNKNOWN`. -/
def USB_SPEED_SUPER : Nat := 5
/-- See `USB_SPEED_UNKNOWN`. -/
def USB_SPEED_SUPER_PLUS : Nat := 6

/-- Modelled from the spec: `portCount()` is the total number of ports across
both speed classes; each of the two hubs has `VHCI_HC_PORTS` ports
(`#define VHCI_PORTS (VHCI_HC_PORTS*2)` in `vhci.h`, absent from the sources). -/
def VHCI_PORTS (VHCI_HC_PORTS : Nat) : Nat := VHCI_HC_PORTS * 2

/-- The hub speed classes (`enum hub_speed`). -/
inductive hub_speed
  | HUB_SPEED_HIGH
  | HUB_SPEED_SUPER
  deriving DecidableEq, Repr

/-- Device states (`enum usbip_device_status` of `usbip_common.h`). The
enumeration starts at 1, so that `VDEV_ST_NULL` is printed as `004`, as in
the output example at the head of `vhci_sysfs.c`. -/
inductive usbip_device_status
  | SDEV_ST_AVAILABLE
  | SDEV_ST_USED
  | SDEV_ST_ERROR
  | VDEV_ST_NULL
  | VDEV_ST_NOTASSIGNED
  | VDEV_ST_USED
  | VDEV_ST_ERROR
  deriving DecidableEq, Repr

/-- Numeric value of a device state, as `%u` prints it. -/
def usbip_device_status.code : usbip_device_status → Nat
  | .SDEV_ST_AVAILABLE => 1
  | .SDEV_ST_USED => 2
  | .SDEV_ST_ERROR => 3
  | .VDEV_ST_NULL => 4
  | .VDEV_ST_NOTASSIGNED => 5
  | .VDEV_ST_USED => 6
  | .VDEV_ST_ERROR => 7

/-- Events a virtual device can be sent (`usbip_common.h`). -/
inductive usbip_event
  | VDEV_EVENT_REMOVED
  | VDEV_EVENT_DOWN
  | VDEV_EVENT_ERROR_TCP
  | VDEV_EVENT_ERROR_MALLOC
  deriving DecidableEq, Repr

/-- The part of `struct usbip_device` that the sysfs code reads or writes.
`tcp_socket` is the `struct socket *` (here the identity of the socket
object), `none` for a null pointer. -/
structure usbip_device where
  status : usbip_device_status
  sockfd : Nat
  tcp_socket : Option Nat
  deriving DecidableEq, Repr

/-- The part of `struct vhci_device` that the sysfs code reads or writes.
`udev` stands for `vdev->udev`, kept as the device name that
`dev_name(&vdev->udev->dev)` yields, `none` for a null pointer. -/
structure vhci_device where
  udev : Option String
  devid : Nat
  speed : Nat
  ud : usbip_device
  deriving DecidableEq, Repr

/-- One root hub: `struct vhci_hcd` with its array `vdev[VHCI_HC_PORTS]`. -/
structure vhci_hcd where
  vdev : Nat → vhci_device

/-- The controller: `struct vhci` with its High-speed and Super-speed hubs. -/
structure vhci where
  vhci_hcd_hs : vhci_hcd
  vhci_hcd_ss : vhci_hcd

/-- Calls made by the sysfs code into the rest of the driver. The device a
call is about is named by its hub and its slot in that hub. -/
inductive vhci_effect
  | usbip_event_add (hub : hub_speed) (rhport : Nat) (event : usbip_event)
  | kthread_get_run (hub : hub_speed) (rhport : Nat) (name : String)
  | rh_port_connect (hub : hub_speed) (rhport : Nat) (speed : Nat)
  deriving DecidableEq, Repr

/-- Read `&vhci->vhci_hcd_<hub>->vdev[rhport]`. -/
def vhci.get (v : vhci) : hub_speed → Nat → vhci_device
  | .HUB_SPEED_HIGH, rhport => v.vhci_hcd_hs.vdev rhport
  | .HUB_SPEED_SUPER, rhport => v.vhci_hcd_ss.vdev rhport

/-- Write through the pointer `&vhci->vhci_hcd_<hub>->vdev[rhport]`. -/
def vhci.set (v : vhci) (hub : hub_speed) (rhport : Nat) (d : vhci_device) : vhci :=
  match hub with
  | .HUB_SPEED_HIGH =>
    { v with vhci_hcd_hs := { vdev := Function.update v.vhci_hcd_hs.vdev rhport d } }
  | .HUB_SPEED_SUPER =>
    { v with vhci_hcd_ss := { vdev := Function.update v.vhci_hcd_ss.vdev rhport d } }

/-! ## Formatted output -/

/-- Digit character of a value below 16, lower case as `%x` prints it. -/
def digit_char (d : Nat) : Char :=
  if d < 10 then Char.ofNat (48 + d) else Char.ofNat (87 + d)

/-- Digits of `n` in `base`, least significant first; `fuel` bounds the
number of digits and `n + 1` is always enough. -/
def digits_rev (base : Nat) : Nat → Nat → List Nat
  | 0, _ => []
  | fuel + 1, n =>
    if n < base then [n] else (n % base) :: digits_rev base fuel (n / base)

/-- Conversion `%0<width>u` (base 10) or `%0<width>x` (base 16): the digits
of `n`, padded on the left with zeros up to `width` characters. -/
def sprintf_num (base width n : Nat) : String :=
  let ds := ((digits_rev base (n + 1) n).reverse.map digit_char)
  String.mk (List.replicate (width - ds.length) '0' ++ ds)

/-- The name `dev_name(&vdev->udev->dev)`; the C code dereferences the
pointer, which the driver sets before a port becomes `VDEV_ST_USED`. -/
def dev_name (udev : Option String) : String := udev.getD ""

/-! ## `vhci_sysfs.c` -/

/-- The function `port_show_vhci`: append the line of one port to `out`. -/
def port_show_vhci (out : String) (hub : hub_speed) (port : Nat) (vdev : vhci_device) :
    String :=
  let out :=
    if hub = hub_speed.HUB_SPEED_HIGH then
      out ++ ("hs  " ++ sprintf_num 10 4 port ++ " " ++ sprintf_num 10 3 vdev.ud.status.code ++ " ")
    else
      out ++ ("ss  " ++ sprintf_num 10 4 port ++ " " ++ sprintf_num 10 3 vdev.ud.status.code ++ " ")
  let out :=
    if vdev.ud.status = usbip_device_status.VDEV_ST_USED then
      let out := out ++ (sprintf_num 10 3 vdev.speed ++ " " ++ sprintf_num 16 8 vdev.devid ++ " ")
      out ++ (sprintf_num 10 6 vdev.ud.sockfd ++ " " ++ dev_name vdev.udev)
    else
      let out := out ++ "000 00000000 "
      out ++ "000000 0-0"
  out ++ "\n"

/-- The function `status_show_vhci`: the lines of the High-speed hub, then
those of the Super-speed hub, each loop running over `0 .. VHCI_HC_PORTS-1`.
Both pointers are taken to be valid (the `WARN_ON` exit is not modelled). -/
def status_show_vhci (VHCI_HC_PORTS : Nat) (v : vhci) (out : String) : String :=
  let out := (List.range VHCI_HC_PORTS).foldl
    (fun out i => port_show_vhci out hub_speed.HUB_SPEED_HIGH i (v.vhci_hcd_hs.vdev i)) out
  (List.range VHCI_HC_PORTS).foldl
    (fun out i =>
      port_show_vhci out hub_speed.HUB_SPEED_SUPER (VHCI_HC_PORTS + i) (v.vhci_hcd_ss.vdev i))
    out

/-- The header line that `status_show` prints first. -/
def status_header : String := "hub port sta spd dev      sockfd local_busid\n"

/-- The function `status_show`: the header, then the port lines. -/
def status_show (VHCI_HC_PORTS : Nat) (v : vhci) : String :=
  status_show_vhci VHCI_HC_PORTS v status_header

/-- The function `nports_show`: `sprintf(out, "%d\n", VHCI_PORTS)`. -/
def nports_show (VHCI_HC_PORTS : Nat) (_v : vhci) : String :=
  sprintf_num 10 0 (VHCI_PORTS VHCI_HC_PORTS) ++ "\n"

/-- The function `vhci_port_disconnect` on slot `rhport` of hub `hub`:
`-EINVAL` when the slot is `VDEV_ST_NULL`, otherwise the event
`VDEV_EVENT_DOWN` is posted to the slot and the result is 0. The table is
returned as it was received: no field is assigned. -/
def vhci_port_disconnect (v : vhci) (hub : hub_speed) (rhport : Nat) :
    Int × vhci × List vhci_effect :=
  let vdev := v.get hub rhport
  if vdev.ud.status = usbip_device_status.VDEV_ST_NULL then
    (-EINVAL, v, [])
  else
    (0, v, [vhci_effect.usbip_event_add hub rhport usbip_event.VDEV_EVENT_DOWN])

/-- The function `validate_port_in_range`. -/
def validate_port_in_range (port base top : Nat) : Bool :=
  if port < base ∨ port ≥ top then false else true

/-- The `__u32` that holds an `int`: the value modulo `2^32`. -/
def u32_of_int (n : Int) : Nat := (n % (2 ^ 32 : Int)).toNat

/-- The function `detach_store`. `parsed` is what `kstrtoint(buf, 10, &port)`
delivers: `none` when it fails, the `int` it read otherwise; the value is
stored in the `__u32 port`, hence reduced modulo `2^32`. -/
def detach_store (VHCI_HC_PORTS : Nat) (v : vhci) (parsed : Option Int) (count : Nat) :
    Int × vhci × List vhci_effect :=
  match parsed with
  | none => (-EINVAL, v, [])
  | some n =>
    let port : Nat := u32_of_int n
    if ! validate_port_in_range port 0 (VHCI_PORTS VHCI_HC_PORTS) then
      (-EINVAL, v, [])
    else
      let (ret, v, effects) :=
        if port ≥ VHCI_HC_PORTS then
          vhci_port_disconnect v hub_speed.HUB_SPEED_SUPER (port - VHCI_HC_PORTS)
        else
          vhci_port_disconnect v hub_speed.HUB_SPEED_HIGH port
      if ret < 0 then
        (-EINVAL, v, effects)
      else
        ((count : Int), v, effects)

/-- The four numbers that `sscanf(buf, "%u %u %u %u", ...)` stores. -/
structure attach_request where
  port : Nat
  sockfd : Nat
  devid : Nat
  speed : Nat
  deriving DecidableEq, Repr

/-- The function `attach_store`. `parsed` is `none` when `sscanf` does not
deliver four numbers. `sockfd_lookup` is the descriptor table of the
writing process: it yields the socket a descriptor refers to, or `none`. -/
def attach_store (VHCI_HC_PORTS : Nat) (sockfd_lookup : Nat → Option Nat) (v : vhci)
    (parsed : Option attach_request) (count : Nat) : Int × vhci × List vhci_effect :=
  match parsed with
  | none => (-EINVAL, v, [])
  | some r =>
    let sel : Option (hub_speed × Nat) :=
      if r.speed = USB_SPEED_LOW ∨ r.speed = USB_SPEED_FULL ∨ r.speed = USB_SPEED_HIGH
          ∨ r.speed = USB_SPEED_WIRELESS then
        if ! validate_port_in_range r.port 0 VHCI_HC_PORTS then none
        else some (hub_speed.HUB_SPEED_HIGH, r.port)
      else if r.speed = USB_SPEED_SUPER then
        if ! validate_port_in_range r.port VHCI_HC_PORTS (VHCI_PORTS VHCI_HC_PORTS) then none
        else some (hub_speed.HUB_SPEED_SUPER, r.port - VHCI_HC_PORTS)
      else none
    match sel with
    | none => (-EINVAL, v, [])
    | some (hub, rhport) =>
      match sockfd_lookup r.sockfd with
      | none => (-EINVAL, v, [])
      | some socket =>
        let vdev := v.get hub rhport
        if vdev.ud.status ≠ usbip_device_status.VDEV_ST_NULL then
          (-EBUSY, v, [])
        else
          let vdev := { vdev with
            devid := r.devid
            speed := r.speed
            ud := { vdev.ud with
              sockfd := r.sockfd
              tcp_socket := some socket
              status := usbip_device_status.VDEV_ST_NOTASSIGNED } }
          ((count : Int), v.set hub rhport vdev,
            [vhci_effect.kthread_get_run hub rhport "vhci_rx",
             vhci_effect.kthread_get_run hub rhport "vhci_tx",
             vhci_effect.rh_port_connect hub rhport r.speed])

/-- A table in which every port is `VDEV_ST_NULL`, with no socket and
device id 0. -/
def vhci_init : vhci :=
  let d : vhci_device :=
    { udev := none, devid := 0, speed := 0,
      ud := { status := usbip_device_status.VDEV_ST_NULL, sockfd := 0, tcp_socket := none } }
  { vhci_hcd_hs := { vdev := fun _ => d }, vhci_hcd_ss := { vdev := fun _ => d } }

/-! ## The vocabulary of the control surface -/

/-- The hub class that serves a speed: Low, Full, High and Wireless devices
sit on the High-speed hub, Super-speed devices on the Super-speed hub, and
no other speed is recognised. -/
def speed_hub (speed : Nat) : Option hub_speed :=
  if speed = USB_SPEED_LOW ∨ speed = USB_SPEED_FULL ∨ speed = USB_SPEED_HIGH
      ∨ speed = USB_SPEED_WIRELESS then some hub_speed.HUB_SPEED_HIGH
  else if speed = USB_SPEED_SUPER then some hub_speed.HUB_SPEED_SUPER
  else none

/-- The port sub-range of a hub class: `0 ≤ port < VHCI_HC_PORTS` for the
High-speed hub, `VHCI_HC_PORTS ≤ port < VHCI_PORTS` for the Super-speed hub. -/
def in_subrange (VHCI_HC_PORTS : Nat) : hub_speed → Nat → Prop
  | .HUB_SPEED_HIGH, port => port < VHCI_HC_PORTS
  | .HUB_SPEED_SUPER, port => VHCI_HC_PORTS ≤ port ∧ port < VHCI_PORTS VHCI_HC_PORTS

instance (n : Nat) (h : hub_speed) (p : Nat) : Decidable (in_subrange n h p) := by
  cases h <;> unfold in_subrange <;> infer_instance

/-- The hub and slot that a port number addresses: High-speed slot `port`
below `VHCI_HC_PORTS`, Super-speed slot `port - VHCI_HC_PORTS` from there on. -/
def port_slot (VHCI_HC_PORTS port : Nat) : hub_speed × Nat :=
  if port < VHCI_HC_PORTS then (hub_speed.HUB_SPEED_HIGH, port)
  else (hub_speed.HUB_SPEED_SUPER, port - VHCI_HC_PORTS)

/-- The device behind a port number. -/
def vhci.port (v : vhci) (VHCI_HC_PORTS port : Nat) : vhci_device :=
  v.get (port_slot VHCI_HC_PORTS port).1 (port_slot VHCI_HC_PORTS port).2

/-- The line of port `port` in the status listing: what `port_show_vhci`
writes for the device behind that port number. -/
def status_line (VHCI_HC_PORTS : Nat) (v : vhci) (port : Nat) : String :=
  port_show_vhci "" (port_slot VHCI_HC_PORTS port).1 port (v.port VHCI_HC_PORTS port)

/-- A write to one of the two writable attributes, with its arguments: the
descriptor table of the writer and the parsed text for `attach`, the parsed
text for `detach`, and the byte count. -/
inductive sysfs_write
  | attach (sockfd_lookup : Nat → Option Nat) (parsed : Option attach_request) (count : Nat)
  | detach (parsed : Option Int) (count : Nat)

/-- The table after one write, accepted or rejected. -/
def sysfs_write.apply (VHCI_HC_PORTS : Nat) (v : vhci) : sysfs_write → vhci
  | .attach sockfd_lookup parsed count =>
    (attach_store VHCI_HC_PORTS sockfd_lookup v parsed count).2.1
  | .detach parsed count => (detach_store VHCI_HC_PORTS v parsed count).2.1

/-- The table after a sequence of writes, in order. -/
def run_writes (VHCI_HC_PORTS : Nat) (v : vhci) (ws : List sysfs_write) : vhci :=
  ws.foldl (fun v w => w.apply VHCI_HC_PORTS v) v

/-- The port invariant: the state is NULL if and only if no connection is
bound and the device id is 0. -/
def port_invariant (d : vhci_device) : Prop :=
  d.ud.status = usbip_device_status.VDEV_ST_NULL ↔ (d.ud.tcp_socket = none ∧ d.devid = 0)

instance (d : vhci_device) : Decidable (port_invariant d) := by
  unfold port_invariant; infer_instance

/-- A descriptor table in which descriptor 7 is the socket 100 and no other
descriptor is open. -/
def fd_table_7 : Nat → Option Nat := fun fd => if fd = 7 then some 100 else none

/-! ## `usbip_attach.c`: the attach coordinator

`import_device` drives the vhci driver library of `libsrc/vhci_driver.c`, of
which the sources hold the declarations only. The library is a parameter:
`vhci_driver_lib σ` gives, for a state of type `σ` (the library's global
`vhci_driver`, `errno` and everything behind them), what each call returns
and the state it leaves. Every call is recorded, in program order, with its
arguments and its result. -/

/-- The part of `struct usbip_usb_device` that `import_device` reads. -/
structure usbip_usb_device where
  busnum : Nat
  devnum : Nat
  speed : Nat
  deriving DecidableEq, Repr

/-- The functions of `vhci_driver.h` that `import_device` calls.
`usbip_vhci_attach_device` yields the pair of its result and of the value of
`errno` after the call. -/
structure vhci_driver_lib (σ : Type) where
  usbip_vhci_driver_open_path : String → σ → Int × σ
  usbip_vhci_driver_ix : σ → Int
  usbip_vhci_get_free_port : Nat → σ → Int × σ
  usbip_vhci_attach_device : Nat → Int → Nat → Nat → Nat → σ → (Int × Int) × σ
  usbip_vhci_refresh_device_list : σ → σ
  usbip_vhci_driver_close : σ → σ

/-- A call of `import_device` into the library, with arguments and result. -/
inductive lib_call
  | open_path (path : String) (rc : Int)
  | driver_ix (ix : Int)
  | get_free_port (speed : Nat) (port : Int)
  | attach_device (port : Nat) (sockfd : Int) (busnum devnum speed : Nat) (rc errno : Int)
  | refresh_device_list
  | driver_close
  deriving DecidableEq, Repr

/-- The `while (1)` loop of `import_device` on the controller that is open.
`fuel` bounds the number of iterations; the first component of the result is
`none` when the loop is still running after `fuel` iterations, and otherwise
the values of `port` and `rc` when the loop is left. -/
def attach_retry {σ : Type} (L : vhci_driver_lib σ) (sockfd : Int) (udev : usbip_usb_device) :
    Nat → Int → σ → Option (Int × Int) × List lib_call × σ
  | 0, _, s => (none, [], s)
  | fuel + 1, rc, s =>
    let free := L.usbip_vhci_get_free_port udev.speed s
    let port := free.1
    if port < 0 then
      (some (port, rc), [lib_call.get_free_port udev.speed port], free.2)
    else
      let att := L.usbip_vhci_attach_device (port.toNat % 256) sockfd (udev.busnum % 256)
        (udev.devnum % 256) udev.speed free.2
      let rc := att.1.1
      let errno := att.1.2
      let calls := [lib_call.get_free_port udev.speed port,
        lib_call.attach_device (port.toNat % 256) sockfd (udev.busnum % 256)
          (udev.devnum % 256) udev.speed rc errno]
      if rc ≥ 0 ∨ errno ≠ EBUSY then
        (some (port, rc), calls, att.2)
      else
        let rest := attach_retry L sockfd udev fuel rc (L.usbip_vhci_refresh_device_list att.2)
        (rest.1, calls ++ lib_call.refresh_device_list :: rest.2.1, rest.2.2)

/-- What `import_device` hands back: its result `rc` and, when it has written
them, the values of `*pvhci_ix` and `*pport`. -/
structure import_result where
  rc : Int
  out : Option (Int × Int)
  deriving DecidableEq, Repr

/-- The loop `udev_list_entry_foreach` of `import_device` over the entries
still to visit, entered with the current value of `rc`. -/
def import_loop {σ : Type} (L : vhci_driver_lib σ) (sockfd : Int) (udev : usbip_usb_device)
    (fuel : Nat) : List String → Int → σ → Option import_result × List lib_call × σ
  | [], rc, s => (some { rc := rc, out := none }, [], s)
  | path :: entries, rc, s =>
    let opened := L.usbip_vhci_driver_open_path path s
    if opened.1 < 0 then
      let rest := import_loop L sockfd udev fuel entries rc opened.2
      (rest.1, lib_call.open_path path opened.1 :: rest.2.1, rest.2.2)
    else
      let vhci_ix := L.usbip_vhci_driver_ix opened.2
      let loop := attach_retry L sockfd udev fuel rc opened.2
      let calls := lib_call.open_path path opened.1 :: lib_call.driver_ix vhci_ix :: loop.2.1
      match loop.1 with
      | none => (none, calls, loop.2.2)
      | some (port, rc) =>
        let s := L.usbip_vhci_driver_close loop.2.2
        if rc ≥ 0 then
          (some { rc := rc, out := some (vhci_ix, port) }, calls ++ [lib_call.driver_close], s)
        else
          let rest := import_loop L sockfd udev fuel entries rc s
          (rest.1, calls ++ lib_call.driver_close :: rest.2.1, rest.2.2)

/-- The function `import_device`. `enumerate` is what `vhci_enumerate()`
delivers: `none` for a null pointer, otherwise the paths of the controllers
in enumeration order (`udev_enumerate_get_list_entry` is null when there is
none). The first component of the result is `none` when a retry loop is
still running after `fuel` iterations. -/
def import_device {σ : Type} (L : vhci_driver_lib σ) (sockfd : Int) (udev : usbip_usb_device)
    (fuel : Nat) (enumerate : Option (List String)) (s : σ) :
    Option import_result × List lib_call × σ :=
  match enumerate with
  | none => (some { rc := -1, out := none }, [], s)
  | some [] => (some { rc := -1, out := none }, [], s)
  | some (path :: entries) => import_loop L sockfd udev fuel (path :: entries) (-1) s

/-- An attach call that succeeded. -/
def lib_call.attach_ok : lib_call → Bool
  | .attach_device _ _ _ _ _ rc _ => decide (0 ≤ rc)
  | _ => false

/-- An attach call that failed with `EBUSY`. -/
def lib_call.attach_busy : lib_call → Bool
  | .attach_device _ _ _ _ _ rc errno => decide (rc < 0 ∧ errno = EBUSY)
  | _ => false

/-- The path of an `open_path` call. -/
def lib_call.opened_path : lib_call → Option String
  | .open_path path _ => some path
  | _ => none

/-- The port an attach call was made for. -/
def lib_call.attach_port : lib_call → Option Nat
  | .attach_device port _ _ _ _ _ _ => some port
  | _ => none

/-- The order of the calls: `next_call a b` says that call `b` may directly
follow call `a`. A controller that cannot be opened is skipped; an open one
is asked its index, then a free port; a free port is followed by an attach
to that port; the controller is closed after "no free port" and after an
attach that succeeded or failed with an error other than `EBUSY`; an attach
that failed with `EBUSY` is followed by a refresh and a new request for a
free port; after a close the next controller is opened. -/
def next_call : lib_call → lib_call → Prop
  | .open_path _ rc, .open_path _ _ => rc < 0
  | .open_path _ rc, .driver_ix _ => 0 ≤ rc
  | .driver_ix _, .get_free_port _ _ => True
  | .get_free_port _ port, .driver_close => port < 0
  | .get_free_port _ port, .attach_device p _ _ _ _ _ _ => 0 ≤ port ∧ p = port.toNat % 256
  | .attach_device _ _ _ _ _ rc errno, .driver_close => 0 ≤ rc ∨ errno ≠ EBUSY
  | .attach_device _ _ _ _ _ rc errno, .refresh_device_list => rc < 0 ∧ errno = EBUSY
  | .refresh_device_list, .get_free_port _ _ => True
  | .driver_close, .open_path _ _ => True
  | _, _ => False

/-! ## A controller raced for by several attachers

The library functions are absent from the sources; here they are modelled on
top of the kernel table of `vhci_sysfs.c`, to follow the retry loop through
a race. -/

/-- The part of `struct usbip_imported_device` that the port search reads;
`port` is a `uint8_t`. -/
structure usbip_imported_device where
  hub : hub_speed
  port : Nat
  status : usbip_device_status
  deriving DecidableEq, Repr

/-- The controller as one attacher sees it: the port table in the kernel,
the snapshot `vhci_driver->idev[]` that the library took of it, and the
writes that other processes will have made to the controller's attributes
by the time of each of this attacher's next accesses to the kernel. -/
structure race_state where
  kernel : vhci
  idev : List usbip_imported_device
  others : List (List sysfs_write)

/-- Modelled from the spec: "refresh that controller's port snapshot": the
snapshot lists the ports `0 .. VHCI_PORTS-1` in order, each with its hub
class and the state read from the status listing. -/
def snapshot (VHCI_HC_PORTS : Nat) (v : vhci) : List usbip_imported_device :=
  (List.range (VHCI_PORTS VHCI_HC_PORTS)).map fun p =>
    { hub := (port_slot VHCI_HC_PORTS p).1, port := p % 256,
      status := (v.port VHCI_HC_PORTS p).ud.status }

/-- Modelled from the spec: the hub class whose sub-range `getFreePort`
searches for a speed: the Super-speed hub for `USB_SPEED_SUPER`, the
High-speed hub otherwise. -/
def speed_class (speed : Nat) : hub_speed :=
  if speed = USB_SPEED_SUPER then hub_speed.HUB_SPEED_SUPER else hub_speed.HUB_SPEED_HIGH

/-- Modelled from the spec: `getFreePort(speedClass)` "returns the
lowest-index NULL port within the sub-range for `speedClass`, else
`NotFound`" (the function `usbip_vhci_get_free_port` of `vhci_driver.c`,
absent from the sources); `NotFound` is `-1`. -/
def get_free_port (idev : List usbip_imported_device) (speed : Nat) : Int :=
  match idev.find? (fun d => decide (d.hub = speed_class speed) &&
      decide (d.status = usbip_device_status.VDEV_ST_NULL)) with
  | some d => (d.port : Int)
  | none => -1

/-- The other processes make their next batch of writes. -/
def race_state.interfere (VHCI_HC_PORTS : Nat) (s : race_state) : race_state :=
  match s.others with
  | [] => s
  | ws :: rest => { s with kernel := run_writes VHCI_HC_PORTS s.kernel ws, others := rest }

/-- Modelled from the spec: the library on one contended controller.
Opening takes a snapshot; `usbip_vhci_get_free_port` searches the snapshot;
`usbip_vhci_attach_device` writes `"<port> <sockfd> <devid> <speed>"` to the
attach attribute, that is, runs `attach_store` on the kernel table as the
other processes have left it, and fails with the error of that write;
`usbip_vhci_refresh_device_list` takes a new snapshot of the table as the
other processes have left it. `sockfd_lookup` is the descriptor table of the
attacher, `get_devid` the device id it makes of bus and device number and
`count` the length of the text written. -/
def race_lib (VHCI_HC_PORTS : Nat) (sockfd_lookup : Nat → Option Nat)
    (get_devid : Nat → Nat → Nat) (count : Nat) : vhci_driver_lib race_state :=
  { usbip_vhci_driver_open_path := fun _ s =>
      (0, { s with idev := snapshot VHCI_HC_PORTS s.kernel })
    usbip_vhci_driver_ix := fun _ => 0
    usbip_vhci_get_free_port := fun speed s => (get_free_port s.idev speed, s)
    usbip_vhci_attach_device := fun port sockfd busnum devnum speed s =>
      let s := s.interfere VHCI_HC_PORTS
      let res := attach_store VHCI_HC_PORTS sockfd_lookup s.kernel
        (some { port := port, sockfd := sockfd.toNat, devid := get_devid busnum devnum,
                speed := speed }) count
      (if res.1 < 0 then (-1, -res.1) else (0, 0), { s with kernel := res.2.1 })
    usbip_vhci_refresh_device_list := fun s =>
      let s := s.interfere VHCI_HC_PORTS
      { s with idev := snapshot VHCI_HC_PORTS s.kernel }
    usbip_vhci_driver_close := fun s => s }

/-- A device id made of a bus number and a device number, for the examples. -/
def demo_get_devid (busnum devnum : Nat) : Nat := busnum * 65536 + devnum

/-- A controller with 2 ports per hub, all NULL when the snapshot is taken,
on which another attacher claims port 0 just before this attacher's first
write. -/
def race_demo_state : race_state :=
  { kernel := vhci_init
    idev := snapshot 2 vhci_init
    others := [[sysfs_write.attach fd_table_7 (some ⟨0, 7, 0xCD, 3⟩) 11]] }

/-- The attacher of the examples: descriptor 7 is its socket. -/
def demo_lib : vhci_driver_lib race_state := race_lib 2 fd_table_7 demo_get_devid 12

/-! ## `usbip_attach.c`: the import exchange and the connection ledger

`query_import_device`, `record_connection` and `attach_device` call the
network helpers of `usbip_network.c` and the C library. Both are parameters
(`usbip_sys_lib σ`), like the vhci driver library, and every call is
recorded, in program order, with its arguments and its result. -/

/-- Modelled from the spec: the opcode `REQ_IMPORT` of the common header
(`OP_REQ_IMPORT` of `usbip_network.h`, absent from the sources). -/
def OP_REQ_IMPORT : Nat := 0x8003

/-- Modelled from the spec: the opcode that an import reply carries
(`OP_REP_IMPORT` of `usbip_network.h`, absent from the sources). -/
def OP_REP_IMPORT : Nat := 0x0003

/-- Modelled from the spec: the status `OK` of a reply header is 0 ("reply
`status != 0` ⇒ remote rejected"). -/
def ST_OK : Int := 0

/-- Modelled from the spec: the bus id field is 32 bytes wide
(`SYSFS_BUS_ID_SIZE` of `usbip_common.h`, absent from the sources). -/
def SYSFS_BUS_ID_SIZE : Nat := 32

/-- The constant `MAX_BUFF` of `usbip_attach.c`. -/
def MAX_BUFF : Nat := 100

/-- The constant `PATH_MAX` of `limits.h`. -/
def PATH_MAX : Nat := 4096

/-- Error number `EEXIST` of `errno-base.h`. -/
def EEXIST : Int := 17

/-- The common header of the wire protocol: `{opcode, status}`. -/
structure op_common where
  code : Nat
  status : Int
  deriving DecidableEq, Repr

/-- The payload of an import reply (`struct op_import_reply`) as
`PACK_OP_IMPORT_REPLY` leaves it: `busid` is the 32-byte field
`reply.udev.busid`, `udev` the fields of `reply.udev` that `import_device`
reads. -/
structure op_import_reply where
  busid : List Char
  udev : usbip_usb_device
  deriving DecidableEq, Repr

/-- The function `strncmp` of the C library on the bytes that start at its
two pointers: at most `n` positions are compared, the comparison stops at
the first difference and at a NUL; the end of a list counts as the NUL that
ends a C string. -/
def strncmp : List Char → List Char → Nat → Int
  | _, _, 0 => 0
  | a, b, n + 1 =>
    if a.headD (Char.ofNat 0) ≠ b.headD (Char.ofNat 0) then
      ((a.headD (Char.ofNat 0)).toNat : Int) - ((b.headD (Char.ofNat 0)).toNat : Int)
    else if a.headD (Char.ofNat 0) = Char.ofNat 0 then 0
    else strncmp a.tail b.tail n

/-- The C string that starts at a pointer, as far as `n` bytes show it: the
bytes before the first NUL, `n` of them at most. -/
def c_string (n : Nat) (bytes : List Char) : List Char :=
  (bytes.takeWhile (fun c => decide (c ≠ Char.ofNat 0))).take n

/-- The field `request.busid` after `memset` to zero and
`strncpy(request.busid, busid, SYSFS_BUS_ID_SIZE-1)`: the first 31
characters of the bus id, padded with NUL to 32 bytes. -/
def request_busid (busid : String) : List Char :=
  busid.data.take (SYSFS_BUS_ID_SIZE - 1) ++
    List.replicate (SYSFS_BUS_ID_SIZE - (busid.data.take (SYSFS_BUS_ID_SIZE - 1)).length)
      (Char.ofNat 0)

/-- The conversion `%d` of an `int`. -/
def sprintf_d (n : Int) : String :=
  if n < 0 then "-" ++ sprintf_num 10 0 n.natAbs else sprintf_num 10 0 n.toNat

/-- What `snprintf(buf, size, ...)` leaves in `buf` of the formatted text
`text`: its first `size - 1` characters. -/
def snprintf (size : Nat) (text : String) : String :=
  String.mk (text.data.take (size - 1))

/-- The network helpers and C library functions that `usbip_attach.c` calls.
`usbip_net_recv_op_common` yields its result and the status it stores;
`usbip_net_recv` its result and the payload it stores; `libc_mkdir` its
result and `errno`; `libc_stat` its result and whether `st_mode` has
`S_IFDIR`. The `libc_` functions are `close`, `mkdir`, `stat`, `open` and
`write`. -/
structure usbip_sys_lib (σ : Type) where
  usbip_net_tcp_connect : String → String → σ → Int × σ
  usbip_net_send_op_common : Int → Nat → Int → σ → Int × σ
  usbip_net_send : Int → List Char → σ → Int × σ
  usbip_net_recv_op_common : Int → Nat → σ → (Int × Int) × σ
  usbip_net_recv : Int → σ → (Int × op_import_reply) × σ
  libc_close : Int → σ → σ
  libc_mkdir : String → σ → (Int × Int) × σ
  libc_stat : String → σ → (Int × Bool) × σ
  libc_open : String → σ → Int × σ
  libc_write : Int → String → σ → Int × σ

/-- Modelled from the spec: `usbip_net_recv_op_common` (`usbip_network.c`,
absent from the sources) "reads a common reply header; `status != OK` fails".
`read_header` is the read of the header from the connection, `none` when it
cannot be read. -/
def recv_op_common {σ : Type} (read_header : Int → σ → Option op_common × σ) (sockfd : Int)
    (_code : Nat) (s : σ) : (Int × Int) × σ :=
  match (read_header sockfd s).1 with
  | none => ((-1, 0), (read_header sockfd s).2)
  | some h =>
    if h.status ≠ ST_OK then ((-1, h.status), (read_header sockfd s).2)
    else ((0, h.status), (read_header sockfd s).2)

/-- A call made by `usbip_attach.c`, with arguments and result; `vhci` wraps
the calls of `import_device` into the vhci driver library. -/
inductive attach_call
  | tcp_connect (host port : String) (sockfd : Int)
  | send_op_common (sockfd : Int) (code : Nat) (status : Int) (rc : Int)
  | send (sockfd : Int) (busid : List Char) (rc : Int)
  | recv_op_common (sockfd : Int) (rc status : Int)
  | recv (sockfd : Int) (rc : Int) (reply : op_import_reply)
  | vhci (c : lib_call)
  | libc_close (fd : Int)
  | libc_mkdir (path : String) (rc errno : Int)
  | libc_stat (path : String) (rc : Int) (is_dir : Bool)
  | libc_open (path : String) (fd : Int)
  | libc_write (fd : Int) (buf : String) (ret : Int)
  deriving DecidableEq, Repr

/-- A call into the vhci driver library. -/
def attach_call.is_vhci : attach_call → Bool
  | .vhci _ => true
  | _ => false

/-- The function `query_import_device`. `enumerate` and `fuel` are those of
`import_device`. -/
def query_import_device {σ : Type} (S : usbip_sys_lib σ) (L : vhci_driver_lib σ) (fuel : Nat)
    (enumerate : Option (List String)) (sockfd : Int) (busid : String) (s : σ) :
    Option import_result × List attach_call × σ :=
  let sent := S.usbip_net_send_op_common sockfd OP_REQ_IMPORT 0 s
  let c1 := attach_call.send_op_common sockfd OP_REQ_IMPORT 0 sent.1
  if sent.1 < 0 then
    (some { rc := -1, out := none }, [c1], sent.2)
  else
    let req := S.usbip_net_send sockfd (request_busid busid) sent.2
    let c2 := attach_call.send sockfd (request_busid busid) req.1
    if req.1 < 0 then
      (some { rc := -1, out := none }, [c1, c2], req.2)
    else
      let hdr := S.usbip_net_recv_op_common sockfd OP_REP_IMPORT req.2
      let c3 := attach_call.recv_op_common sockfd hdr.1.1 hdr.1.2
      if hdr.1.1 < 0 then
        (some { rc := -1, out := none }, [c1, c2, c3], hdr.2)
      else
        let rep := S.usbip_net_recv sockfd hdr.2
        let c4 := attach_call.recv sockfd rep.1.1 rep.1.2
        if rep.1.1 < 0 then
          (some { rc := -1, out := none }, [c1, c2, c3, c4], rep.2)
        else if strncmp rep.1.2.busid busid.data SYSFS_BUS_ID_SIZE ≠ 0 then
          (some { rc := -1, out := none }, [c1, c2, c3, c4], rep.2)
        else
          let imp := import_device L sockfd rep.1.2.udev fuel enumerate rep.2
          (imp.1, [c1, c2, c3, c4] ++ imp.2.1.map attach_call.vhci, imp.2.2)

/-- The second half of `record_connection`, from the first `snprintf` on:
the file of the port is opened (created or truncated), the record is
formatted into `buff` and written, and the file is closed. `calls` are the
calls made so far. -/
def record_connection_file {σ : Type} (S : usbip_sys_lib σ) (VHCI_STATE_PATH : String)
    (host port busid : String) (vhci_ix rhport : Int) (calls : List attach_call) (s : σ) :
    Int × List attach_call × σ :=
  let path := snprintf PATH_MAX
    (VHCI_STATE_PATH ++ "/port" ++ sprintf_d vhci_ix ++ "-" ++ sprintf_d rhport)
  let fd := S.libc_open path s
  let c3 := attach_call.libc_open path fd.1
  if fd.1 < 0 then
    (-1, calls ++ [c3], fd.2)
  else
    let buff := snprintf MAX_BUFF (host ++ " " ++ port ++ " " ++ busid ++ "\n")
    let ret := S.libc_write fd.1 buff fd.2
    let c4 := attach_call.libc_write fd.1 buff ret.1
    if ret.1 ≠ (buff.length : Int) then
      (-1, calls ++ [c3, c4, attach_call.libc_close fd.1], S.libc_close fd.1 ret.2)
    else
      (0, calls ++ [c3, c4, attach_call.libc_close fd.1], S.libc_close fd.1 ret.2)

/-- The function `record_connection`. `VHCI_STATE_PATH` is the constant of
`usbip_common.h`, absent from the sources. -/
def record_connection {σ : Type} (S : usbip_sys_lib σ) (VHCI_STATE_PATH : String)
    (host port busid : String) (vhci_ix rhport : Int) (s : σ) : Int × List attach_call × σ :=
  let made := S.libc_mkdir VHCI_STATE_PATH s
  let c1 := attach_call.libc_mkdir VHCI_STATE_PATH made.1.1 made.1.2
  if made.1.1 < 0 then
    if made.1.2 = EEXIST then
      let st := S.libc_stat VHCI_STATE_PATH made.2
      let c2 := attach_call.libc_stat VHCI_STATE_PATH st.1.1 st.1.2
      if st.1.1 < 0 then (-1, [c1, c2], st.2)
      else if ! st.1.2 then (-1, [c1, c2], st.2)
      else
        record_connection_file S VHCI_STATE_PATH host port busid vhci_ix rhport [c1, c2] st.2
    else (-1, [c1], made.2)
  else
    record_connection_file S VHCI_STATE_PATH host port busid vhci_ix rhport [c1] made.2

/-- The function `attach_device`. `usbip_port_string` is the global of
`usbip_network.c`. The first component of the result is `none` when a retry
loop of `import_device` is still running after `fuel` iterations.
`import_device` stores `*pvhci_ix` and `*pport` whenever its result is not
negative; the pair `(0, 0)` stands for the two variables left unset. -/
def attach_device {σ : Type} (S : usbip_sys_lib σ) (L : vhci_driver_lib σ)
    (VHCI_STATE_PATH usbip_port_string : String) (fuel : Nat)
    (enumerate : Option (List String)) (host busid : String) (s : σ) :
    Option Int × List attach_call × σ :=
  let conn := S.usbip_net_tcp_connect host usbip_port_string s
  let c1 := attach_call.tcp_connect host usbip_port_string conn.1
  if conn.1 < 0 then
    (some (-1), [c1], conn.2)
  else
    let q := query_import_device S L fuel enumerate conn.1 busid conn.2
    match q.1 with
    | none => (none, c1 :: q.2.1, q.2.2)
    | some res =>
      if res.rc < 0 then
        (some (-1), c1 :: q.2.1, q.2.2)
      else
        let s := S.libc_close conn.1 q.2.2
        let rec_ := record_connection S VHCI_STATE_PATH host usbip_port_string busid
          (res.out.getD (0, 0)).1 (res.out.getD (0, 0)).2 s
        if rec_.1 < 0 then
          (some (-1), c1 :: q.2.1 ++ attach_call.libc_close conn.1 :: rec_.2.1, rec_.2.2)
        else
          (some 0, c1 :: q.2.1 ++ attach_call.libc_close conn.1 :: rec_.2.1, rec_.2.2)

/-- Modelled from the spec: an export server and a C library for the
examples. The connection is descriptor 7; every send succeeds; the reply
header carries `header_status` and is read as the spec says of
`usbip_net_recv_op_common`; the reply payload is `reply`; the state directory
can be made, the file of the port is opened as descriptor 3 and every write
is complete. -/
def demo_sys (header_status : Int) (reply : op_import_reply) : usbip_sys_lib race_state :=
  { usbip_net_tcp_connect := fun _ _ s => (7, s)
    usbip_net_send_op_common := fun _ _ _ s => (0, s)
    usbip_net_send := fun _ _ s => (0, s)
    usbip_net_recv_op_common :=
      recv_op_common (fun _ s => (some { code := OP_REP_IMPORT, status := header_status }, s))
    usbip_net_recv := fun _ s => ((0, reply), s)
    libc_close := fun _ s => s
    libc_mkdir := fun _ s => ((0, 0), s)
    libc_stat := fun _ s => ((0, true), s)
    libc_open := fun _ s => (3, s)
    libc_write := fun _ buf s => ((buf.length : Int), s) }

/-- The reply payload for the device `busid`, a High-speed device 2 on bus 1:
the bus id field is the bus id padded with NUL to 32 bytes. -/
def demo_reply (busid : String) : op_import_reply :=
  { busid := request_busid busid, udev := { busnum := 1, devnum := 2, speed := 3 } }

/-- A host name of 100 characters. -/
def long_host : String := String.mk (List.replicate 100 'a')

/-! ## `usbip_detach.c` -/

/-- The functions that `detach_port` calls: those of `vhci_driver.h`, the
port list `vhci_driver->idev[0 .. nports-1]` of the controller that is open,
and `remove` and `rmdir` of the C library, whose results are not used. -/
structure usbip_detach_lib (σ : Type) where
  usbip_vhci_driver_open : σ → Int × σ
  vhci_driver_idev : σ → List usbip_imported_device
  usbip_vhci_driver_open_ix : Int → σ → Int × σ
  usbip_vhci_detach_device : Nat → σ → Int × σ
  usbip_vhci_driver_close : σ → σ
  libc_remove : String → σ → σ
  libc_rmdir : String → σ → σ

/-- A call made by `detach_port`, with arguments and result. -/
inductive detach_call
  | driver_open (rc : Int)
  | libc_remove (path : String)
  | libc_rmdir (path : String)
  | driver_open_ix (vhci_ix : Int) (rc : Int)
  | detach_device (port : Nat) (rc : Int)
  | driver_close
  deriving DecidableEq, Repr

/-- How the loop "check for invalid port" of `detach_port` is left. -/
inductive port_check
  | not_found
  | already_detached
  | attached
  deriving DecidableEq, Repr

/-- The loop "check for invalid port" of `detach_port` over the port list:
the first entry with the port number decides; `idev->port` is a `uint8_t`
compared with the `int port`. -/
def check_port : List usbip_imported_device → Int → port_check
  | [], _ => port_check.not_found
  | idev :: rest, port =>
    if (idev.port : Int) = port then
      if idev.status ≠ usbip_device_status.VDEV_ST_NULL then port_check.attached
      else port_check.already_detached
    else check_port rest port

/-- The `uint8_t` that holds an `int`: the value modulo 256. -/
def u8_of_int (n : Int) : Nat := (n % 256).toNat

/-- The function `detach_port`. `VHCI_STATE_PATH` is the constant of
`usbip_common.h`, absent from the sources. The statement under the label
`call_driver_close` is `ret = usbip_vhci_detach_device(port);`: it is reached
from both `goto`s of the port check and after the detach request of the main
path, whatever that request returned. -/
def detach_port {σ : Type} (D : usbip_detach_lib σ) (VHCI_STATE_PATH : String)
    (vhci_ix port : Int) (s : σ) : Int × List detach_call × σ :=
  let opened := D.usbip_vhci_driver_open s
  let c1 := detach_call.driver_open opened.1
  if opened.1 < 0 then
    (-1, [c1], opened.2)
  else
    match check_port (D.vhci_driver_idev opened.2) port with
    | port_check.attached =>
      let path := snprintf PATH_MAX
        (VHCI_STATE_PATH ++ "/port" ++ sprintf_d vhci_ix ++ "-" ++ sprintf_d port)
      let s1 := D.libc_remove path opened.2
      let s2 := D.libc_rmdir VHCI_STATE_PATH s1
      let ix := D.usbip_vhci_driver_open_ix vhci_ix s2
      let det := D.usbip_vhci_detach_device (u8_of_int port) ix.2
      let again := D.usbip_vhci_detach_device (u8_of_int port) det.2
      (again.1,
        [c1, detach_call.libc_remove path, detach_call.libc_rmdir VHCI_STATE_PATH,
         detach_call.driver_open_ix vhci_ix ix.1,
         detach_call.detach_device (u8_of_int port) det.1,
         detach_call.detach_device (u8_of_int port) again.1,
         detach_call.driver_close],
        D.usbip_vhci_driver_close again.2)
    | _ =>
      let again := D.usbip_vhci_detach_device (u8_of_int port) opened.2
      (again.1,
        [c1, detach_call.detach_device (u8_of_int port) again.1, detach_call.driver_close],
        D.usbip_vhci_driver_close again.2)

/-- A detach request. -/
def detach_call.is_detach : detach_call → Bool
  | .detach_device _ _ => true
  | _ => false

/-- The removal of a ledger record. -/
def detach_call.is_remove : detach_call → Bool
  | .libc_remove _ => true
  | _ => false

/-- Modelled from the spec: the library on one controller, on top of the
kernel table of `vhci_sysfs.c`. Opening takes a snapshot of the port table;
`usbip_vhci_detach_device` writes the port number to the detach attribute,
that is, runs `detach_store` on the table as the other processes have left
it, and fails when that write fails; the ledger files are not modelled. -/
def kernel_detach_lib (VHCI_HC_PORTS count : Nat) : usbip_detach_lib race_state :=
  { usbip_vhci_driver_open := fun s => (0, { s with idev := snapshot VHCI_HC_PORTS s.kernel })
    vhci_driver_idev := fun s => s.idev
    usbip_vhci_driver_open_ix := fun _ s =>
      (0, { s with idev := snapshot VHCI_HC_PORTS s.kernel })
    usbip_vhci_detach_device := fun port s =>
      let s := s.interfere VHCI_HC_PORTS
      let res := detach_store VHCI_HC_PORTS s.kernel (some (port : Int)) count
      (if res.1 < 0 then -1 else 0, { s with kernel := res.2.1 })
    usbip_vhci_driver_close := fun s => s
    libc_remove := fun _ s => s
    libc_rmdir := fun _ s => s }

/-- A controller with 2 ports per hub, all NULL, and no other process. -/
def idle_state : race_state :=
  { kernel := vhci_init, idev := snapshot 2 vhci_init, others := [] }

/-! ## Reading a log of library calls against the library -/

/-- The state in which the library is left by the call `c` made in state
`s`, provided the result recorded in `c` is the one the library gives there;
`none` when the library gives another result. -/
def lib_call.replay {σ : Type} (L : vhci_driver_lib σ) : lib_call → σ → Option σ
  | .open_path path rc, s =>
    if (L.usbip_vhci_driver_open_path path s).1 = rc then
      some (L.usbip_vhci_driver_open_path path s).2
    else none
  | .driver_ix ix, s => if L.usbip_vhci_driver_ix s = ix then some s else none
  | .get_free_port speed port, s =>
    if (L.usbip_vhci_get_free_port speed s).1 = port then
      some (L.usbip_vhci_get_free_port speed s).2
    else none
  | .attach_device port sockfd busnum devnum speed rc errno, s =>
    if (L.usbip_vhci_attach_device port sockfd busnum devnum speed s).1 = (rc, errno) then
      some (L.usbip_vhci_attach_device port sockfd busnum devnum speed s).2
    else none
  | .refresh_device_list, s => some (L.usbip_vhci_refresh_device_list s)
  | .driver_close, s => some (L.usbip_vhci_driver_close s)

/-- The state in which the library is left by the calls of a log, made one
after the other from state `s`, provided every recorded result is the one
the library gives at that point. -/
def replay_calls {σ : Type} (L : vhci_driver_lib σ) : List lib_call → σ → Option σ
  | [], s => some s
  | c :: cs, s =>
    match c.replay L s with
    | none => none
    | some s1 => replay_calls L cs s1

/-- The arguments of a call are those of the import of the device `udev`
over the connection `sockfd`: its speed for a free-port request; the
connection, the bus and device numbers as `uint8_t` and the speed for an
attach. -/
def lib_call.for_device (sockfd : Int) (udev : usbip_usb_device) : lib_call → Prop
  | .get_free_port speed _ => speed = udev.speed
  | .attach_device _ fd busnum devnum speed _ _ =>
    fd = sockfd ∧ busnum = udev.busnum % 256 ∧ devnum = udev.devnum % 256 ∧ speed = udev.speed
  | _ => True

/-- A controller that is left: the call is a close, or an open that failed. -/
def lib_call.leaves_controller : lib_call → Prop
  | .driver_close => True
  | .open_path _ rc => rc < 0
  | _ => False

/-- A call that keeps the controller that is open: neither an open nor a
close. -/
def lib_call.keeps_controller : lib_call → Prop
  | .open_path _ _ => False
  | .driver_close => False
  | _ => True

/-! ## A controller on which ports are released during the retry loop -/

/-- Modelled from the spec: `release(port)` "transitions any state back to
NULL and clears all fields" (the teardown of a session, in `vhci_hcd.c`,
absent from the sources). -/
def release (v : vhci) (hub : hub_speed) (rhport : Nat) : vhci :=
  v.set hub rhport
    { udev := none, devid := 0, speed := 0,
      ud := { status := usbip_device_status.VDEV_ST_NULL, sockfd := 0, tcp_socket := none } }

/-- Modelled from the spec: the library on a controller on which another
attacher keeps taking port 0 and losing it again: by the time of each attach
write of this attacher the other one has written its own attach request for
port 0 (High speed, its descriptor 7), and by the time of each refresh the
session on port 0 has ended and the port was released. The rest is
`race_lib`. -/
def churn_lib (VHCI_HC_PORTS : Nat) (sockfd_lookup : Nat → Option Nat)
    (get_devid : Nat → Nat → Nat) (count : Nat) : vhci_driver_lib race_state :=
  { race_lib VHCI_HC_PORTS sockfd_lookup get_devid count with
    usbip_vhci_attach_device := fun port sockfd busnum devnum speed s =>
      let kernel := (attach_store VHCI_HC_PORTS fd_table_7 s.kernel
        (some { port := 0, sockfd := 7, devid := 0xCD, speed := USB_SPEED_HIGH }) 11).2.1
      let res := attach_store VHCI_HC_PORTS sockfd_lookup kernel
        (some { port := port, sockfd := sockfd.toNat, devid := get_devid busnum devnum,
                speed := speed }) count
      (if res.1 < 0 then (-1, -res.1) else (0, 0), { s with kernel := res.2.1 })
    usbip_vhci_refresh_device_list := fun s =>
      { s with
        kernel := release s.kernel hub_speed.HUB_SPEED_HIGH 0
        idev := snapshot VHCI_HC_PORTS (release s.kernel hub_speed.HUB_SPEED_HIGH 0) } }

/-- The attacher of the examples on the controller of `churn_lib`, with 2
ports per hub. -/
def demo_churn_lib : vhci_driver_lib race_state := churn_lib 2 fd_table_7 demo_get_devid 12

/-! # Theorems -/

/-! ## Basic facts about the table -/

theorem get_set_same (v : vhci) (hub : hub_speed) (i : Nat) (d : vhci_device) :
    (v.set hub i d).get hub i = d := by
  cases hub <;> simp [vhci.set, vhci.get]

theorem get_set_other (v : vhci) (hub h : hub_speed) (i j : Nat) (d : vhci_device)
    (hne : (h, j) ≠ (hub, i)) : (v.set hub i d).get h j = v.get h j := by
  cases hub <;> cases h <;> simp [vhci.set, vhci.get, Function.update] <;>
    intro hj <;> exact absurd (by rw [hj]) hne

theorem validate_port_in_range_iff (port base top : Nat) :
    validate_port_in_range port base top = true ↔ base ≤ port ∧ port < top := by
  unfold validate_port_in_range
  split <;> simp <;> omega

/-- The target selection of `attach_store`, as one equation per case. -/
theorem attach_store_valid (n : Nat) (lk : Nat → Option Nat) (v : vhci) (r : attach_request)
    (count : Nat) (hub : hub_speed) (socket : Nat)
    (hs : speed_hub r.speed = some hub) (hp : in_subrange n hub r.port)
    (hfd : lk r.sockfd = some socket) :
    port_slot n r.port = (hub, (port_slot n r.port).2) ∧
    attach_store n lk v (some r) count =
      if (v.port n r.port).ud.status ≠ usbip_device_status.VDEV_ST_NULL then
        (-EBUSY, v, [])
      else
        ((count : Int),
          v.set hub (port_slot n r.port).2
            { v.port n r.port with
              devid := r.devid
              speed := r.speed
              ud := { (v.port n r.port).ud with
                sockfd := r.sockfd
                tcp_socket := some socket
                status := usbip_device_status.VDEV_ST_NOTASSIGNED } },
          [vhci_effect.kthread_get_run hub (port_slot n r.port).2 "vhci_rx",
           vhci_effect.kthread_get_run hub (port_slot n r.port).2 "vhci_tx",
           vhci_effect.rh_port_connect hub (port_slot n r.port).2 r.speed]) := by
  unfold speed_hub at hs
  by_cases h1 : r.speed = USB_SPEED_LOW ∨ r.speed = USB_SPEED_FULL ∨ r.speed = USB_SPEED_HIGH
      ∨ r.speed = USB_SPEED_WIRELESS
  · rw [if_pos h1] at hs
    cases hs
    have hp' : r.port < n := hp
    have hv : validate_port_in_range r.port 0 n = true :=
      (validate_port_in_range_iff _ _ _).2 ⟨Nat.zero_le _, hp'⟩
    have hslot : port_slot n r.port = (hub_speed.HUB_SPEED_HIGH, r.port) := by
      simp [port_slot, hp']
    refine ⟨by rw [hslot], ?_⟩
    simp only [attach_store, if_pos h1, hv, hfd, vhci.port, hslot]
    rfl
  · rw [if_neg h1] at hs
    by_cases h2 : r.speed = USB_SPEED_SUPER
    · rw [if_pos h2] at hs
      cases hs
      have hp' : n ≤ r.port ∧ r.port < VHCI_PORTS n := hp
      have hv : validate_port_in_range r.port n (VHCI_PORTS n) = true :=
        (validate_port_in_range_iff _ _ _).2 hp'
      have hslot : port_slot n r.port = (hub_speed.HUB_SPEED_SUPER, r.port - n) := by
        simp [port_slot, Nat.not_lt.2 hp'.1]
      refine ⟨by rw [hslot], ?_⟩
      simp only [attach_store, if_neg h1, if_pos h2, hv, hfd, vhci.port, hslot]
      rfl
    · rw [if_neg h2] at hs
      cases hs

/-- When no hub class serves the speed, or the port is outside the sub-range
of the class that does, `attach_store` stops at the parameter check. -/
theorem attach_store_invalid (n : Nat) (lk : Nat → Option Nat) (v : vhci) (r : attach_request)
    (count : Nat) (hinv : ∀ hub, speed_hub r.speed = some hub → ¬ in_subrange n hub r.port) :
    attach_store n lk v (some r) count = (-EINVAL, v, []) := by
  unfold speed_hub at hinv
  by_cases h1 : r.speed = USB_SPEED_LOW ∨ r.speed = USB_SPEED_FULL ∨ r.speed = USB_SPEED_HIGH
      ∨ r.speed = USB_SPEED_WIRELESS
  · have hp : ¬ r.port < n := hinv hub_speed.HUB_SPEED_HIGH (by rw [if_pos h1])
    have hv : validate_port_in_range r.port 0 n = false := by
      rw [← Bool.not_eq_true, validate_port_in_range_iff]
      omega
    simp only [attach_store, if_pos h1, hv]
    rfl
  · by_cases h2 : r.speed = USB_SPEED_SUPER
    · have hp : ¬ (n ≤ r.port ∧ r.port < VHCI_PORTS n) :=
        hinv hub_speed.HUB_SPEED_SUPER (by rw [if_neg h1, if_pos h2])
      have hv : validate_port_in_range r.port n (VHCI_PORTS n) = false := by
        rw [← Bool.not_eq_true, validate_port_in_range_iff]
        exact hp
      simp only [attach_store, if_neg h1, if_pos h2, hv]
      rfl
    · simp only [attach_store, if_neg h1, if_neg h2]

/-- The function `detach_store` in closed form. -/
theorem detach_store_some (n : Nat) (v : vhci) (m : Int) (count : Nat) :
    detach_store n v (some m) count =
      if u32_of_int m < VHCI_PORTS n ∧
          (v.port n (u32_of_int m)).ud.status ≠ usbip_device_status.VDEV_ST_NULL then
        ((count : Int), v,
          [vhci_effect.usbip_event_add (port_slot n (u32_of_int m)).1
            (port_slot n (u32_of_int m)).2 usbip_event.VDEV_EVENT_DOWN])
      else (-EINVAL, v, []) := by
  by_cases hr : u32_of_int m < VHCI_PORTS n
  · have hv : validate_port_in_range (u32_of_int m) 0 (VHCI_PORTS n) = true :=
      (validate_port_in_range_iff _ _ _).2 ⟨Nat.zero_le _, hr⟩
    by_cases hhi : u32_of_int m < n
    · have hslot : port_slot n (u32_of_int m) = (hub_speed.HUB_SPEED_HIGH, u32_of_int m) := by
        simp [port_slot, hhi]
      have hge : ¬ u32_of_int m ≥ n := by omega
      by_cases hst : (v.get hub_speed.HUB_SPEED_HIGH (u32_of_int m)).ud.status
          = usbip_device_status.VDEV_ST_NULL
      · simp [detach_store, hv, hge, vhci_port_disconnect, vhci.port, hslot, hst, EINVAL]
      · simp [detach_store, hv, hge, vhci_port_disconnect, vhci.port, hslot, hst, hr]
    · have hslot : port_slot n (u32_of_int m)
          = (hub_speed.HUB_SPEED_SUPER, u32_of_int m - n) := by
        simp [port_slot, hhi]
      have hge : u32_of_int m ≥ n := by omega
      by_cases hst : (v.get hub_speed.HUB_SPEED_SUPER (u32_of_int m - n)).ud.status
          = usbip_device_status.VDEV_ST_NULL
      · simp [detach_store, hv, hge, vhci_port_disconnect, vhci.port, hslot, hst, EINVAL]
      · simp [detach_store, hv, hge, vhci_port_disconnect, vhci.port, hslot, hst, hr]
  · have hv : validate_port_in_range (u32_of_int m) 0 (VHCI_PORTS n) = false := by
      rw [← Bool.not_eq_true, validate_port_in_range_iff]
      omega
    simp [detach_store, hv, hr]

theorem foldl_append_eq (acc : String) (l : List String) :
    l.foldl (fun r s => r ++ s) acc = acc ++ String.join l := by
  induction l generalizing acc with
  | nil => simp [String.join]
  | cons a l ih =>
    simp only [List.foldl_cons, String.join]
    rw [ih (acc ++ a), ih ("" ++ a), String.empty_append, String.append_assoc]

theorem join_cons (a : String) (l : List String) :
    String.join (a :: l) = a ++ String.join l := by
  simp only [String.join, List.foldl_cons]
  rw [foldl_append_eq, String.empty_append]
  rfl

theorem join_append (l₁ l₂ : List String) :
    String.join (l₁ ++ l₂) = String.join l₁ ++ String.join l₂ := by
  induction l₁ with
  | nil => simp [String.join]
  | cons a l ih => rw [List.cons_append, join_cons, join_cons, ih, String.append_assoc]

/-- What `port_show_vhci` appends does not depend on what is already in the
buffer. -/
theorem port_show_vhci_append (out : String) (hub : hub_speed) (port : Nat)
    (vdev : vhci_device) :
    port_show_vhci out hub port vdev = out ++ port_show_vhci "" hub port vdev := by
  unfold port_show_vhci
  by_cases h1 : hub = hub_speed.HUB_SPEED_HIGH <;>
    by_cases h2 : vdev.ud.status = usbip_device_status.VDEV_ST_USED <;>
    simp only [h1, h2, if_true, if_false, String.empty_append, String.append_assoc]

theorem foldl_port_show (f : Nat → String) (g : String → Nat → String)
    (hg : ∀ out i, g out i = out ++ f i) (out : String) (l : List Nat) :
    l.foldl g out = out ++ String.join (l.map f) := by
  induction l generalizing out with
  | nil => simp [String.join]
  | cons a l ih =>
    rw [List.foldl_cons, ih, hg, List.map_cons, join_cons, String.append_assoc]

/-- The status output, as the header followed by one line per port number. -/
theorem status_show_eq_lines (n : Nat) (v : vhci) :
    status_show n v
      = status_header ++ String.join ((List.range (VHCI_PORTS n)).map (status_line n v)) := by
  unfold status_show status_show_vhci
  rw [foldl_port_show
      (fun i => port_show_vhci "" hub_speed.HUB_SPEED_HIGH i (v.vhci_hcd_hs.vdev i)) _
      (fun out i => port_show_vhci_append out _ _ _),
    foldl_port_show
      (fun i => port_show_vhci "" hub_speed.HUB_SPEED_SUPER (n + i) (v.vhci_hcd_ss.vdev i)) _
      (fun out i => port_show_vhci_append out _ _ _)]
  have hr : List.range (VHCI_PORTS n) = List.range n ++ (List.range n).map (n + ·) := by
    unfold VHCI_PORTS
    rw [Nat.mul_two, List.range_add]
  rw [hr, List.map_append, join_append, String.append_assoc, List.map_map]
  congr 2
  · congr 1
    apply List.map_congr_left
    intro i hi
    have hi' : i < n := List.mem_range.1 hi
    simp [status_line, vhci.port, port_slot, hi', vhci.get]
  · congr 1
    apply List.map_congr_left
    intro i _
    simp [status_line, vhci.port, port_slot, vhci.get]

/-- A request that `attach_store` answers with the byte count passed the
parameter check, named an open descriptor and found its port NULL. -/
theorem attach_store_accepted (n : Nat) (lk : Nat → Option Nat) (v : vhci) (r : attach_request)
    (count : Nat) (hacc : (attach_store n lk v (some r) count).1 = (count : Int)) :
    ∃ hub socket, speed_hub r.speed = some hub ∧ in_subrange n hub r.port ∧
      lk r.sockfd = some socket ∧
      (v.port n r.port).ud.status = usbip_device_status.VDEV_ST_NULL := by
  have hcount : -EINVAL ≠ (count : Int) := by unfold EINVAL; omega
  have hcount' : -EBUSY ≠ (count : Int) := by unfold EBUSY; omega
  by_cases hval : ∃ hub, speed_hub r.speed = some hub ∧ in_subrange n hub r.port
  · obtain ⟨hub, hs, hp⟩ := hval
    cases hfd : lk r.sockfd with
    | none =>
      exfalso
      have hslot : (attach_store n lk v (some r) count).1 = -EINVAL := by
        unfold attach_store
        simp only [hfd]
        split
        · rfl
        · rfl
      exact hcount (hslot.symm.trans hacc)
    | some socket =>
      refine ⟨hub, socket, hs, hp, rfl, ?_⟩
      by_contra hst
      rw [(attach_store_valid n lk v r count hub socket hs hp hfd).2, if_pos hst] at hacc
      exact hcount' hacc
  · exfalso
    rw [attach_store_invalid n lk v r count (fun hub hs hp => hval ⟨hub, hs, hp⟩)] at hacc
    exact hcount hacc

theorem digits_rev_length_le (base : Nat) (hb : 2 ≤ base) :
    ∀ (fuel k n : Nat), 0 < k → n < base ^ k → (digits_rev base fuel n).length ≤ k := by
  intro fuel
  induction fuel with
  | zero => intro k n _ _; simp [digits_rev]
  | succ fuel ih =>
    intro k n hk hn
    unfold digits_rev
    split
    · simpa using hk
    · rename_i hge
      have hk2 : 2 ≤ k := by
        by_contra hlt
        have : k = 1 := by omega
        rw [this, pow_one] at hn
        exact hge hn
      have hdiv : n / base < base ^ (k - 1) := by
        rw [Nat.div_lt_iff_lt_mul (by omega)]
        calc n < base ^ k := hn
          _ = base ^ (k - 1 + 1) := by rw [Nat.sub_add_cancel (by omega)]
          _ = base ^ (k - 1) * base := by rw [pow_succ]
      have := ih (k - 1) (n / base) (by omega) hdiv
      simp only [List.length_cons]
      omega

/-- A number below `base ^ width` is printed on exactly `width` characters. -/
theorem sprintf_num_length (base width n : Nat) (hb : 2 ≤ base) (hw : 0 < width)
    (hn : n < base ^ width) : (sprintf_num base width n).length = width := by
  have h := digits_rev_length_le base hb (n + 1) width n hw hn
  simp only [sprintf_num, String.length, List.length_append, List.length_replicate,
    List.length_map, List.length_reverse]
  omega

/-- The line of a port, spelled out from the fields of the device behind it. -/
theorem status_line_eq (n : Nat) (w : vhci) (p : Nat) :
    status_line n w p =
      (if p < n then "hs  " else "ss  ") ++ sprintf_num 10 4 p ++ " "
        ++ sprintf_num 10 3 (w.port n p).ud.status.code ++ " "
        ++ (if (w.port n p).ud.status = usbip_device_status.VDEV_ST_USED then
              sprintf_num 10 3 (w.port n p).speed ++ " "
                ++ sprintf_num 16 8 (w.port n p).devid ++ " "
                ++ sprintf_num 10 6 (w.port n p).ud.sockfd ++ " "
                ++ dev_name (w.port n p).udev
            else "000 00000000 000000 0-0")
        ++ "\n" := by
  have hne : ¬ (hub_speed.HUB_SPEED_SUPER = hub_speed.HUB_SPEED_HIGH) := by decide
  by_cases hp : p < n
  · simp only [status_line, vhci.port, port_slot, hp, if_true, vhci.get, port_show_vhci,
      String.empty_append]
    split
    · simp only [String.append_assoc]
    · simp only [String.append_assoc]
      rfl
  · simp only [status_line, vhci.port, port_slot, hp, if_false, vhci.get, port_show_vhci,
      String.empty_append, hne]
    split
    · simp only [String.append_assoc]
    · simp only [String.append_assoc]
      rfl

/-- The table `attach_store` returns is the one it received, or that one with
a single slot rewritten to NOTASSIGNED with a socket bound. -/
theorem attach_store_table (n : Nat) (lk : Nat → Option Nat) (v : vhci)
    (parsed : Option attach_request) (count : Nat) :
    (attach_store n lk v parsed count).2.1 = v ∨
    ∃ hub i d, (attach_store n lk v parsed count).2.1 = v.set hub i d ∧
      d.ud.status = usbip_device_status.VDEV_ST_NOTASSIGNED ∧ d.ud.tcp_socket ≠ none := by
  cases parsed with
  | none => exact Or.inl rfl
  | some r =>
    simp only [attach_store]
    split
    · exact Or.inl rfl
    · split
      · exact Or.inl rfl
      · split
        · exact Or.inl rfl
        · exact Or.inr ⟨_, _, _, rfl, rfl, by simp⟩

/-- One write keeps the port invariant of every slot. -/
theorem apply_keeps_invariant (n : Nat) (v : vhci) (w : sysfs_write)
    (hinv : ∀ hub i, port_invariant (v.get hub i)) :
    ∀ hub i, port_invariant ((w.apply n v).get hub i) := by
  cases w with
  | detach parsed count =>
    have h : (detach_store n v parsed count).2.1 = v := by
      cases parsed with
      | none => rfl
      | some m => rw [detach_store_some]; split <;> rfl
    intro hub i
    simp only [sysfs_write.apply, h]
    exact hinv hub i
  | attach lk parsed count =>
    intro hub i
    simp only [sysfs_write.apply]
    rcases attach_store_table n lk v parsed count with h | ⟨hub', i', d, h, hd, hsock⟩
    · rw [h]; exact hinv hub i
    · rw [h]
      by_cases hsame : (hub, i) = (hub', i')
      · cases hsame
        rw [get_set_same]
        unfold port_invariant
        constructor
        · intro hnull
          rw [hd] at hnull
          cases hnull
        · intro hh
          exact absurd hh.1 hsock
      · rw [get_set_other v hub' hub i' i d hsame]
        exact hinv hub i

/-! ## The retry loop, step by step -/

theorem attach_retry_zero {σ : Type} (L : vhci_driver_lib σ) (sockfd : Int)
    (udev : usbip_usb_device) (rc : Int) (s : σ) :
    attach_retry L sockfd udev 0 rc s = (none, [], s) := rfl

/-- The loop is left when no port is free. -/
theorem attach_retry_not_found {σ : Type} (L : vhci_driver_lib σ) (sockfd : Int)
    (udev : usbip_usb_device) (fuel : Nat) (rc : Int) (s : σ)
    (h : (L.usbip_vhci_get_free_port udev.speed s).1 < 0) :
    attach_retry L sockfd udev (fuel + 1) rc s =
      (some ((L.usbip_vhci_get_free_port udev.speed s).1, rc),
        [lib_call.get_free_port udev.speed (L.usbip_vhci_get_free_port udev.speed s).1],
        (L.usbip_vhci_get_free_port udev.speed s).2) := by
  simp only [attach_retry, if_pos h]

/-- The loop is left after an attach that succeeds, or fails otherwise than
with `EBUSY`. -/
theorem attach_retry_stop {σ : Type} (L : vhci_driver_lib σ) (sockfd : Int)
    (udev : usbip_usb_device) (fuel : Nat) (rc : Int) (s : σ) (port : Int) (s1 : σ)
    (rc1 errno : Int) (s2 : σ)
    (hfree : L.usbip_vhci_get_free_port udev.speed s = (port, s1)) (hport : ¬ port < 0)
    (hatt : L.usbip_vhci_attach_device (port.toNat % 256) sockfd (udev.busnum % 256)
      (udev.devnum % 256) udev.speed s1 = ((rc1, errno), s2))
    (hstop : rc1 ≥ 0 ∨ errno ≠ EBUSY) :
    attach_retry L sockfd udev (fuel + 1) rc s =
      (some (port, rc1),
        [lib_call.get_free_port udev.speed port,
         lib_call.attach_device (port.toNat % 256) sockfd (udev.busnum % 256)
          (udev.devnum % 256) udev.speed rc1 errno], s2) := by
  simp only [attach_retry, hfree, if_neg hport, hatt, if_pos hstop]

/-- After an attach that fails with `EBUSY` the snapshot is refreshed and the
loop goes round again. -/
theorem attach_retry_again {σ : Type} (L : vhci_driver_lib σ) (sockfd : Int)
    (udev : usbip_usb_device) (fuel : Nat) (rc : Int) (s : σ) (port : Int) (s1 : σ)
    (rc1 errno : Int) (s2 : σ)
    (hfree : L.usbip_vhci_get_free_port udev.speed s = (port, s1)) (hport : ¬ port < 0)
    (hatt : L.usbip_vhci_attach_device (port.toNat % 256) sockfd (udev.busnum % 256)
      (udev.devnum % 256) udev.speed s1 = ((rc1, errno), s2))
    (hstop : ¬ (rc1 ≥ 0 ∨ errno ≠ EBUSY)) :
    attach_retry L sockfd udev (fuel + 1) rc s =
      ((attach_retry L sockfd udev fuel rc1 (L.usbip_vhci_refresh_device_list s2)).1,
        [lib_call.get_free_port udev.speed port,
         lib_call.attach_device (port.toNat % 256) sockfd (udev.busnum % 256)
          (udev.devnum % 256) udev.speed rc1 errno] ++
          lib_call.refresh_device_list ::
            (attach_retry L sockfd udev fuel rc1 (L.usbip_vhci_refresh_device_list s2)).2.1,
        (attach_retry L sockfd udev fuel rc1 (L.usbip_vhci_refresh_device_list s2)).2.2) := by
  simp only [attach_retry, hfree, if_neg hport, hatt, if_neg hstop]

/-- The calls of the retry loop: they are in order, start with a request for
a free port, open no controller; a loop that is left ends on "no free port"
or on an attach that succeeded or failed otherwise than with `EBUSY`, every
attach before that one having failed; a loop that is still running after
`fuel` iterations has been answered `EBUSY` at least `fuel` times. -/
theorem attach_retry_calls {σ : Type} (L : vhci_driver_lib σ) (sockfd : Int)
    (udev : usbip_usb_device) :
    ∀ (fuel : Nat) (rc : Int) (s : σ),
      List.Chain' next_call (attach_retry L sockfd udev fuel rc s).2.1 ∧
      (∀ y ∈ (attach_retry L sockfd udev fuel rc s).2.1.head?,
        ∃ p, y = lib_call.get_free_port udev.speed p) ∧
      (∀ c ∈ (attach_retry L sockfd udev fuel rc s).2.1, c.opened_path = none) ∧
      ((attach_retry L sockfd udev fuel rc s).1 = none →
        fuel ≤ (attach_retry L sockfd udev fuel rc s).2.1.countP lib_call.attach_busy) ∧
      (∀ port rc', (attach_retry L sockfd udev fuel rc s).1 = some (port, rc') →
        ∃ pre, (∀ c ∈ pre, c.attach_ok = false) ∧ (∀ c ∈ pre, c.opened_path = none) ∧
          ((port < 0 ∧ (rc < 0 → rc' < 0) ∧
              (attach_retry L sockfd udev fuel rc s).2.1
                = pre ++ [lib_call.get_free_port udev.speed port]) ∨
           (0 ≤ port ∧ ∃ errno, (0 ≤ rc' ∨ errno ≠ EBUSY) ∧
              (attach_retry L sockfd udev fuel rc s).2.1
                = pre ++ [lib_call.get_free_port udev.speed port,
                    lib_call.attach_device (port.toNat % 256) sockfd (udev.busnum % 256)
                      (udev.devnum % 256) udev.speed rc' errno]))) := by
  intro fuel
  induction fuel with
  | zero =>
    intro rc s
    rw [attach_retry_zero]
    refine ⟨List.chain'_nil, by simp, by simp, by simp, by simp⟩
  | succ fuel ih =>
    intro rc s
    rcases hfree : L.usbip_vhci_get_free_port udev.speed s with ⟨port, s1⟩
    by_cases hport : port < 0
    · have h' : (L.usbip_vhci_get_free_port udev.speed s).1 < 0 := by rw [hfree]; exact hport
      rw [attach_retry_not_found L sockfd udev fuel rc s h', hfree]
      refine ⟨List.chain'_singleton _, ?_, ?_, by simp, ?_⟩
      · intro y hy
        simp only [List.head?_cons, Option.mem_def, Option.some.injEq] at hy
        exact ⟨port, hy.symm⟩
      · intro c hc
        simp only [List.mem_singleton] at hc
        rw [hc]; rfl
      · intro port' rc' h
        simp only [Option.some.injEq, Prod.mk.injEq] at h
        obtain ⟨rfl, rfl⟩ := h
        exact ⟨[], by simp, by simp, Or.inl ⟨hport, fun h => h, by simp⟩⟩
    · rcases hatt : L.usbip_vhci_attach_device (port.toNat % 256) sockfd
        (udev.busnum % 256) (udev.devnum % 256) udev.speed s1 with ⟨⟨rc1, errno⟩, s2⟩
      by_cases hstop : rc1 ≥ 0 ∨ errno ≠ EBUSY
      · rw [attach_retry_stop L sockfd udev fuel rc s port s1 rc1 errno s2 hfree hport hatt hstop]
        refine ⟨?_, ?_, ?_, by simp, ?_⟩
        · rw [List.chain'_pair]
          exact ⟨by omega, rfl⟩
        · intro y hy
          simp only [List.head?_cons, Option.mem_def, Option.some.injEq] at hy
          exact ⟨port, hy.symm⟩
        · intro c hc
          simp only [List.mem_cons, List.mem_singleton, List.not_mem_nil, or_false] at hc
          rcases hc with rfl | rfl <;> rfl
        · intro port' rc' h
          simp only [Option.some.injEq, Prod.mk.injEq] at h
          obtain ⟨rfl, rfl⟩ := h
          exact ⟨[], by simp, by simp, Or.inr ⟨by omega, errno, hstop, by simp⟩⟩
      · rw [attach_retry_again L sockfd udev fuel rc s port s1 rc1 errno s2 hfree hport hatt
          hstop]
        obtain ⟨ih1, ih2, ih3, ih4, ih5⟩ := ih rc1 (L.usbip_vhci_refresh_device_list s2)
        have hbusy : rc1 < 0 ∧ errno = EBUSY := by
          constructor
          · by_contra h; exact hstop (Or.inl (by omega))
          · by_contra h; exact hstop (Or.inr h)
        have hnotok : (lib_call.attach_device (port.toNat % 256) sockfd (udev.busnum % 256)
            (udev.devnum % 256) udev.speed rc1 errno).attach_ok = false := by
          simp only [lib_call.attach_ok, decide_eq_false_iff_not]
          omega
        have hisbusy : (lib_call.attach_device (port.toNat % 256) sockfd (udev.busnum % 256)
            (udev.devnum % 256) udev.speed rc1 errno).attach_busy = true := by
          simp only [lib_call.attach_busy, decide_eq_true_eq]
          exact hbusy
        refine ⟨?_, ?_, ?_, ?_, ?_⟩
        · simp only [List.cons_append, List.nil_append]
          rw [List.chain'_cons, List.chain'_cons]
          refine ⟨⟨by omega, rfl⟩, hbusy, List.Chain'.cons' ih1 ?_⟩
          intro y hy
          obtain ⟨p, rfl⟩ := ih2 y hy
          trivial
        · intro y hy
          simp only [List.cons_append, List.head?_cons, Option.mem_def, Option.some.injEq] at hy
          exact ⟨port, hy.symm⟩
        · intro c hc
          simp only [List.cons_append, List.nil_append, List.mem_cons] at hc
          rcases hc with rfl | rfl | rfl | hc
          · rfl
          · rfl
          · rfl
          · exact ih3 c hc
        · intro hnone
          have := ih4 hnone
          simp only [List.cons_append, List.nil_append]
          rw [List.countP_cons, List.countP_cons, List.countP_cons]
          simp only [hisbusy, if_true]
          omega
        · intro port' rc' h
          obtain ⟨pre, hpre, hpre', hcases⟩ := ih5 port' rc' h
          refine ⟨[lib_call.get_free_port udev.speed port,
              lib_call.attach_device (port.toNat % 256) sockfd (udev.busnum % 256)
                (udev.devnum % 256) udev.speed rc1 errno] ++
              lib_call.refresh_device_list :: pre, ?_, ?_, ?_⟩
          · intro c hc
            simp only [List.cons_append, List.nil_append, List.mem_cons] at hc
            rcases hc with rfl | rfl | rfl | hc
            · rfl
            · exact hnotok
            · rfl
            · exact hpre c hc
          · intro c hc
            simp only [List.cons_append, List.nil_append, List.mem_cons] at hc
            rcases hc with rfl | rfl | rfl | hc
            · rfl
            · rfl
            · rfl
            · exact hpre' c hc
          · rcases hcases with ⟨hp, hrc, heq⟩ | ⟨hp, errno', hst, heq⟩
            · exact Or.inl ⟨hp, fun _ => hrc hbusy.1, by rw [heq]; simp⟩
            · exact Or.inr ⟨hp, errno', hst, by rw [heq]; simp⟩

/-! ## The loop over the controllers, step by step -/

theorem getLast?_cons_cons_one {α : Type} (a b : α) (pre : List α) (x : α) :
    (a :: b :: (pre ++ [x])).getLast? = some x := by
  have h : a :: b :: (pre ++ [x]) = (a :: b :: pre) ++ [x] := by simp
  rw [h, List.getLast?_concat]

theorem getLast?_cons_cons_two {α : Type} (a b : α) (pre : List α) (y x : α) :
    (a :: b :: (pre ++ [y, x])).getLast? = some x := by
  have h : a :: b :: (pre ++ [y, x]) = (a :: b :: pre ++ [y]) ++ [x] := by simp
  rw [h, List.getLast?_concat]

/-- A controller that cannot be opened is skipped. -/
theorem import_loop_skip {σ : Type} (L : vhci_driver_lib σ) (sockfd : Int)
    (udev : usbip_usb_device) (fuel : Nat) (path : String) (entries : List String) (rc : Int)
    (s : σ) (h : (L.usbip_vhci_driver_open_path path s).1 < 0) :
    import_loop L sockfd udev fuel (path :: entries) rc s =
      ((import_loop L sockfd udev fuel entries rc (L.usbip_vhci_driver_open_path path s).2).1,
        lib_call.open_path path (L.usbip_vhci_driver_open_path path s).1 ::
          (import_loop L sockfd udev fuel entries rc
            (L.usbip_vhci_driver_open_path path s).2).2.1,
        (import_loop L sockfd udev fuel entries rc
          (L.usbip_vhci_driver_open_path path s).2).2.2) := by
  simp only [import_loop, if_pos h]

/-- The retry loop of an open controller is still running. -/
theorem import_loop_running {σ : Type} (L : vhci_driver_lib σ) (sockfd : Int)
    (udev : usbip_usb_device) (fuel : Nat) (path : String) (entries : List String) (rc : Int)
    (s : σ) (h : ¬ (L.usbip_vhci_driver_open_path path s).1 < 0)
    (hl : (attach_retry L sockfd udev fuel rc (L.usbip_vhci_driver_open_path path s).2).1
      = none) :
    import_loop L sockfd udev fuel (path :: entries) rc s =
      (none,
        lib_call.open_path path (L.usbip_vhci_driver_open_path path s).1 ::
          lib_call.driver_ix (L.usbip_vhci_driver_ix (L.usbip_vhci_driver_open_path path s).2) ::
          (attach_retry L sockfd udev fuel rc (L.usbip_vhci_driver_open_path path s).2).2.1,
        (attach_retry L sockfd udev fuel rc (L.usbip_vhci_driver_open_path path s).2).2.2) := by
  simp only [import_loop, if_neg h, hl]

/-- The retry loop of an open controller ended on an attach that succeeded. -/
theorem import_loop_done {σ : Type} (L : vhci_driver_lib σ) (sockfd : Int)
    (udev : usbip_usb_device) (fuel : Nat) (path : String) (entries : List String) (rc : Int)
    (s : σ) (port rc1 : Int) (h : ¬ (L.usbip_vhci_driver_open_path path s).1 < 0)
    (hl : (attach_retry L sockfd udev fuel rc (L.usbip_vhci_driver_open_path path s).2).1
      = some (port, rc1)) (hrc : rc1 ≥ 0) :
    import_loop L sockfd udev fuel (path :: entries) rc s =
      (some { rc := rc1,
              out := some (L.usbip_vhci_driver_ix (L.usbip_vhci_driver_open_path path s).2,
                port) },
        (lib_call.open_path path (L.usbip_vhci_driver_open_path path s).1 ::
          lib_call.driver_ix (L.usbip_vhci_driver_ix (L.usbip_vhci_driver_open_path path s).2) ::
          (attach_retry L sockfd udev fuel rc (L.usbip_vhci_driver_open_path path s).2).2.1)
          ++ [lib_call.driver_close],
        L.usbip_vhci_driver_close
          (attach_retry L sockfd udev fuel rc (L.usbip_vhci_driver_open_path path s).2).2.2) := by
  simp only [import_loop, if_neg h, hl, if_pos hrc]

/-- The retry loop of an open controller ended without a successful attach:
the controller is closed and the next one is visited. -/
theorem import_loop_next {σ : Type} (L : vhci_driver_lib σ) (sockfd : Int)
    (udev : usbip_usb_device) (fuel : Nat) (path : String) (entries : List String) (rc : Int)
    (s : σ) (port rc1 : Int) (h : ¬ (L.usbip_vhci_driver_open_path path s).1 < 0)
    (hl : (attach_retry L sockfd udev fuel rc (L.usbip_vhci_driver_open_path path s).2).1
      = some (port, rc1)) (hrc : ¬ rc1 ≥ 0) :
    import_loop L sockfd udev fuel (path :: entries) rc s =
      ((import_loop L sockfd udev fuel entries rc1 (L.usbip_vhci_driver_close
          (attach_retry L sockfd udev fuel rc
            (L.usbip_vhci_driver_open_path path s).2).2.2)).1,
        (lib_call.open_path path (L.usbip_vhci_driver_open_path path s).1 ::
          lib_call.driver_ix (L.usbip_vhci_driver_ix (L.usbip_vhci_driver_open_path path s).2) ::
          (attach_retry L sockfd udev fuel rc (L.usbip_vhci_driver_open_path path s).2).2.1)
          ++ lib_call.driver_close ::
            (import_loop L sockfd udev fuel entries rc1 (L.usbip_vhci_driver_close
              (attach_retry L sockfd udev fuel rc
                (L.usbip_vhci_driver_open_path path s).2).2.2)).2.1,
        (import_loop L sockfd udev fuel entries rc1 (L.usbip_vhci_driver_close
          (attach_retry L sockfd udev fuel rc
            (L.usbip_vhci_driver_open_path path s).2).2.2)).2.2) := by
  simp only [import_loop, if_neg h, hl, if_neg hrc]

/-- The calls of the loop over the controllers, entered with a negative
`rc`: they are in order and open the controllers in enumeration order; a
negative result comes after every controller was visited and no attach
succeeded; a non-negative one comes from the attach that ends the calls, the
only one that succeeded, with the index of the controller it was made on and
the port of the request for a free port just before it. -/
theorem import_loop_calls {σ : Type} (L : vhci_driver_lib σ) (sockfd : Int)
    (udev : usbip_usb_device) (fuel : Nat) :
    ∀ (paths : List String) (rc : Int) (s : σ), rc < 0 →
      List.Chain' next_call (import_loop L sockfd udev fuel paths rc s).2.1 ∧
      (∀ y ∈ (import_loop L sockfd udev fuel paths rc s).2.1.head?,
        ∃ path orc, y = lib_call.open_path path orc) ∧
      ((import_loop L sockfd udev fuel paths rc s).2.1.filterMap lib_call.opened_path
        <+: paths) ∧
      ((import_loop L sockfd udev fuel paths rc s).1 = none →
        fuel ≤ (import_loop L sockfd udev fuel paths rc s).2.1.countP lib_call.attach_busy) ∧
      (∀ res, (import_loop L sockfd udev fuel paths rc s).1 = some res →
        (res.rc < 0 → res.out = none ∧
          (∀ c ∈ (import_loop L sockfd udev fuel paths rc s).2.1, c.attach_ok = false) ∧
          (import_loop L sockfd udev fuel paths rc s).2.1.filterMap lib_call.opened_path
            = paths) ∧
        (0 ≤ res.rc → ∃ before path orc ix retries port errno,
          (import_loop L sockfd udev fuel paths rc s).2.1 =
            before ++ (lib_call.open_path path orc :: lib_call.driver_ix ix :: retries) ++
              [lib_call.get_free_port udev.speed port,
               lib_call.attach_device (port.toNat % 256) sockfd (udev.busnum % 256)
                (udev.devnum % 256) udev.speed res.rc errno,
               lib_call.driver_close] ∧
          0 ≤ orc ∧ 0 ≤ port ∧
          (∀ c ∈ before ++ retries, c.attach_ok = false) ∧
          (∀ c ∈ retries, c.opened_path = none) ∧
          res.out = some (ix, port))) := by
  intro paths
  induction paths with
  | nil =>
    intro rc s hrc
    simp only [import_loop]
    refine ⟨List.chain'_nil, by simp, by simp, by simp, ?_⟩
    intro res hres
    simp only [Option.some.injEq] at hres
    subst hres
    exact ⟨fun _ => ⟨rfl, by simp, by simp⟩, fun h => absurd h (by simpa using hrc)⟩
  | cons path entries ih =>
    intro rc s hrc
    by_cases hopen : (L.usbip_vhci_driver_open_path path s).1 < 0
    · rw [import_loop_skip L sockfd udev fuel path entries rc s hopen]
      obtain ⟨i1, i2, i3, i4, i5⟩ := ih rc (L.usbip_vhci_driver_open_path path s).2 hrc
      refine ⟨?_, ?_, ?_, ?_, ?_⟩
      · refine List.Chain'.cons' i1 ?_
        intro y hy
        obtain ⟨p', o', rfl⟩ := i2 y hy
        exact hopen
      · intro y hy
        simp only [List.head?_cons, Option.mem_def, Option.some.injEq] at hy
        exact ⟨_, _, hy.symm⟩
      · simp only [List.filterMap_cons, lib_call.opened_path]
        exact (List.prefix_cons_inj path).2 i3
      · intro hnone
        have := i4 hnone
        simp only [List.countP_cons, lib_call.attach_busy]
        simpa using this
      · intro res hres
        obtain ⟨j1, j2⟩ := i5 res hres
        refine ⟨?_, ?_⟩
        · intro hneg
          obtain ⟨k1, k2, k3⟩ := j1 hneg
          refine ⟨k1, ?_, ?_⟩
          · intro c hc
            simp only [List.mem_cons] at hc
            rcases hc with rfl | hc
            · rfl
            · exact k2 c hc
          · simp only [List.filterMap_cons, lib_call.opened_path, k3]
        · intro hpos
          obtain ⟨before, path', orc, ix, retries, port, errno, e1, e2, e3, e4, e5, e6⟩ := j2 hpos
          refine ⟨lib_call.open_path path (L.usbip_vhci_driver_open_path path s).1 :: before,
            path', orc, ix, retries, port, errno, ?_, e2, e3, ?_, e5, e6⟩
          · rw [e1]; simp
          · intro c hc
            simp only [List.cons_append, List.mem_cons] at hc
            rcases hc with rfl | hc
            · rfl
            · exact e4 c hc
    · obtain ⟨r1, r2, r3, r4, r5⟩ :=
        attach_retry_calls L sockfd udev fuel rc (L.usbip_vhci_driver_open_path path s).2
      have hopen' : 0 ≤ (L.usbip_vhci_driver_open_path path s).1 := by omega
      have hchain : List.Chain' next_call
          (lib_call.open_path path (L.usbip_vhci_driver_open_path path s).1 ::
            lib_call.driver_ix
              (L.usbip_vhci_driver_ix (L.usbip_vhci_driver_open_path path s).2) ::
            (attach_retry L sockfd udev fuel rc
              (L.usbip_vhci_driver_open_path path s).2).2.1) := by
        rw [List.chain'_cons]
        refine ⟨hopen', List.Chain'.cons' r1 ?_⟩
        intro y hy
        obtain ⟨p', rfl⟩ := r2 y hy
        trivial
      have hfm : (attach_retry L sockfd udev fuel rc
          (L.usbip_vhci_driver_open_path path s).2).2.1.filterMap lib_call.opened_path = [] := by
        rw [List.filterMap_eq_nil_iff]
        exact r3
      cases hl : (attach_retry L sockfd udev fuel rc
          (L.usbip_vhci_driver_open_path path s).2).1 with
      | none =>
        rw [import_loop_running L sockfd udev fuel path entries rc s hopen hl]
        refine ⟨hchain, ?_, ?_, ?_, ?_⟩
        · intro y hy
          simp only [List.head?_cons, Option.mem_def, Option.some.injEq] at hy
          exact ⟨_, _, hy.symm⟩
        · simp only [List.filterMap_cons, lib_call.opened_path, hfm]
          exact (List.prefix_cons_inj path).2 (List.nil_prefix)
        · intro _
          have := r4 hl
          simp only [List.countP_cons, lib_call.attach_busy]
          simpa using this
        · intro res hres
          cases hres
      | some pr =>
        obtain ⟨port, rc1⟩ := pr
        obtain ⟨pre, hpre, hpre', hcases⟩ := r5 port rc1 hl
        by_cases hrc1 : rc1 ≥ 0
        · rw [import_loop_done L sockfd udev fuel path entries rc s port rc1 hopen hl hrc1]
          rcases hcases with ⟨hp, hneg, _⟩ | ⟨hp, errno, hst, heq⟩
          · exact absurd (hneg hrc) (by omega)
          · refine ⟨?_, ?_, ?_, by simp, ?_⟩
            · refine List.Chain'.append hchain (List.chain'_singleton _) ?_
              intro x hx y hy
              simp only [List.head?_cons, Option.mem_def, Option.some.injEq] at hy
              subst hy
              rw [heq, getLast?_cons_cons_two] at hx
              simp only [Option.mem_def, Option.some.injEq] at hx
              subst hx
              exact hst
            · intro y hy
              simp only [List.cons_append, List.head?_cons, Option.mem_def,
                Option.some.injEq] at hy
              exact ⟨_, _, hy.symm⟩
            · simp only [List.cons_append, List.filterMap_cons, lib_call.opened_path,
                List.filterMap_append, hfm, List.filterMap_nil, List.append_nil, List.nil_append]
              exact (List.prefix_cons_inj path).2 (List.nil_prefix)
            · intro res hres
              simp only [Option.some.injEq] at hres
              subst hres
              refine ⟨fun h => absurd h (by simpa using hrc1), fun _ => ?_⟩
              refine ⟨[], path, _, _, pre, port, errno, ?_, hopen', hp, ?_, hpre', rfl⟩
              · rw [heq]; simp
              · simpa using hpre
        · rw [import_loop_next L sockfd udev fuel path entries rc s port rc1 hopen hl hrc1]
          have hrc1' : rc1 < 0 := by omega
          obtain ⟨i1, i2, i3, i4, i5⟩ := ih rc1 (L.usbip_vhci_driver_close
            (attach_retry L sockfd udev fuel rc
              (L.usbip_vhci_driver_open_path path s).2).2.2) hrc1'
          have hallno : ∀ c ∈ (attach_retry L sockfd udev fuel rc
              (L.usbip_vhci_driver_open_path path s).2).2.1, c.attach_ok = false := by
            intro c hc
            rcases hcases with ⟨_, _, heq⟩ | ⟨_, errno, _, heq⟩
            · rw [heq] at hc
              simp only [List.mem_append, List.mem_singleton] at hc
              rcases hc with hc | rfl
              · exact hpre c hc
              · rfl
            · rw [heq] at hc
              simp only [List.mem_append, List.mem_cons, List.mem_singleton, List.not_mem_nil,
                or_false] at hc
              rcases hc with hc | rfl | rfl
              · exact hpre c hc
              · rfl
              · simp only [lib_call.attach_ok, decide_eq_false_iff_not]
                omega
          refine ⟨?_, ?_, ?_, ?_, ?_⟩
          · refine List.Chain'.append hchain (List.Chain'.cons' i1 ?_) ?_
            · intro y hy
              obtain ⟨p', o', rfl⟩ := i2 y hy
              trivial
            · intro x hx y hy
              simp only [List.head?_cons, Option.mem_def, Option.some.injEq] at hy
              subst hy
              rcases hcases with ⟨hp, _, heq⟩ | ⟨hp, errno, hst, heq⟩
              · rw [heq, getLast?_cons_cons_one] at hx
                simp only [Option.mem_def, Option.some.injEq] at hx
                subst hx
                exact hp
              · rw [heq, getLast?_cons_cons_two] at hx
                simp only [Option.mem_def, Option.some.injEq] at hx
                subst hx
                exact hst
          · intro y hy
            simp only [List.cons_append, List.head?_cons, Option.mem_def,
              Option.some.injEq] at hy
            exact ⟨_, _, hy.symm⟩
          · simp only [List.cons_append, List.filterMap_cons, lib_call.opened_path,
              List.filterMap_append, hfm, List.nil_append]
            exact (List.prefix_cons_inj path).2 i3
          · intro hnone
            have := i4 hnone
            simp only [List.cons_append, List.countP_cons, List.countP_append,
              lib_call.attach_busy]
            simp only [Bool.false_eq_true, if_false, Nat.add_zero]
            omega
          · intro res hres
            obtain ⟨j1, j2⟩ := i5 res hres
            refine ⟨?_, ?_⟩
            · intro hneg
              obtain ⟨k1, k2, k3⟩ := j1 hneg
              refine ⟨k1, ?_, ?_⟩
              · intro c hc
                simp only [List.cons_append, List.mem_cons, List.mem_append] at hc
                rcases hc with rfl | rfl | hc | rfl | hc
                · rfl
                · rfl
                · exact hallno c hc
                · rfl
                · exact k2 c hc
              · simp only [List.cons_append, List.filterMap_cons, lib_call.opened_path,
                  List.filterMap_append, hfm, List.nil_append, k3]
            · intro hpos
              obtain ⟨before, path', orc, ix, retries, port', errno, e1, e2, e3, e4, e5, e6⟩ :=
                j2 hpos
              refine ⟨(lib_call.open_path path (L.usbip_vhci_driver_open_path path s).1 ::
                  lib_call.driver_ix
                    (L.usbip_vhci_driver_ix (L.usbip_vhci_driver_open_path path s).2) ::
                  (attach_retry L sockfd udev fuel rc
                    (L.usbip_vhci_driver_open_path path s).2).2.1)
                  ++ lib_call.driver_close :: before,
                path', orc, ix, retries, port', errno, ?_, e2, e3, ?_, e5, e6⟩
              · rw [e1]; simp
              · intro c hc
                simp only [List.cons_append, List.mem_cons, List.mem_append,
                  List.append_assoc] at hc
                rcases hc with rfl | rfl | hc | rfl | hc | hc
                · rfl
                · rfl
                · exact hallno c hc
                · rfl
                · exact e4 c (List.mem_append_left _ hc)
                · exact e4 c (List.mem_append_right _ hc)

/-! ## The contended controller -/

/-- A write never turns a port that is not NULL into a NULL port. -/
theorem apply_keeps_busy (n : Nat) (v : vhci) (w : sysfs_write) (hub : hub_speed) (i : Nat)
    (h : (v.get hub i).ud.status ≠ usbip_device_status.VDEV_ST_NULL) :
    ((w.apply n v).get hub i).ud.status ≠ usbip_device_status.VDEV_ST_NULL := by
  cases w with
  | detach parsed count =>
    have hd : (detach_store n v parsed count).2.1 = v := by
      cases parsed with
      | none => rfl
      | some m => rw [detach_store_some]; split <;> rfl
    simp only [sysfs_write.apply, hd]
    exact h
  | attach lk parsed count =>
    simp only [sysfs_write.apply]
    rcases attach_store_table n lk v parsed count with ht | ⟨hub', i', d, ht, hd, _⟩
    · rw [ht]; exact h
    · rw [ht]
      by_cases hsame : (hub, i) = (hub', i')
      · cases hsame
        rw [get_set_same, hd]
        decide
      · rw [get_set_other v hub' hub i' i d hsame]
        exact h

theorem run_writes_keeps_busy (n : Nat) (ws : List sysfs_write) (v : vhci) (hub : hub_speed)
    (i : Nat) (h : (v.get hub i).ud.status ≠ usbip_device_status.VDEV_ST_NULL) :
    ((run_writes n v ws).get hub i).ud.status ≠ usbip_device_status.VDEV_ST_NULL := by
  unfold run_writes
  induction ws generalizing v with
  | nil => exact h
  | cons w ws ih =>
    rw [List.foldl_cons]
    exact ih (w.apply n v) (apply_keeps_busy n v w hub i h)

theorem interfere_keeps_busy (n : Nat) (s : race_state) (p : Nat)
    (h : (s.kernel.port n p).ud.status ≠ usbip_device_status.VDEV_ST_NULL) :
    (((s.interfere n).kernel).port n p).ud.status ≠ usbip_device_status.VDEV_ST_NULL := by
  unfold race_state.interfere
  split
  · exact h
  · exact run_writes_keeps_busy n _ s.kernel _ _ h

/-- An attach answered `-EBUSY` found its port not NULL and wrote nothing. -/
theorem attach_store_ebusy (n : Nat) (lk : Nat → Option Nat) (v : vhci) (r : attach_request)
    (count : Nat) (h : (attach_store n lk v (some r) count).1 = -EBUSY) :
    (v.port n r.port).ud.status ≠ usbip_device_status.VDEV_ST_NULL ∧
    (attach_store n lk v (some r) count).2.1 = v := by
  have hne : -EINVAL ≠ -EBUSY := by decide
  have hcount : (count : Int) ≠ -EBUSY := by unfold EBUSY; omega
  by_cases hval : ∃ hub, speed_hub r.speed = some hub ∧ in_subrange n hub r.port
  · obtain ⟨hub, hs, hp⟩ := hval
    cases hfd : lk r.sockfd with
    | none =>
      exfalso
      have hslot : (attach_store n lk v (some r) count).1 = -EINVAL := by
        unfold attach_store
        simp only [hfd]
        split
        · rfl
        · rfl
      exact hne (hslot.symm.trans h)
    | some socket =>
      rw [(attach_store_valid n lk v r count hub socket hs hp hfd).2] at h ⊢
      by_cases hst : (v.port n r.port).ud.status ≠ usbip_device_status.VDEV_ST_NULL
      · rw [if_pos hst]
        exact ⟨hst, rfl⟩
      · rw [if_neg hst] at h
        exact absurd h hcount
  · exfalso
    rw [attach_store_invalid n lk v r count (fun hub hs hp => hval ⟨hub, hs, hp⟩)] at h
    exact hne h

/-- A port that the search finds in a snapshot lies in the sub-range of the
speed's hub class and was NULL in the table the snapshot was taken of. -/
theorem get_free_port_snapshot (n : Nat) (v0 : vhci) (speed : Nat) (hn : VHCI_PORTS n ≤ 256)
    (h : ¬ get_free_port (snapshot n v0) speed < 0) :
    ∃ q : Nat, get_free_port (snapshot n v0) speed = (q : Int) ∧
      in_subrange n (speed_class speed) q ∧
      (v0.port n q).ud.status = usbip_device_status.VDEV_ST_NULL := by
  unfold get_free_port at h ⊢
  cases hf : (snapshot n v0).find? (fun d => decide (d.hub = speed_class speed) &&
      decide (d.status = usbip_device_status.VDEV_ST_NULL)) with
  | none =>
    rw [hf] at h
    exact absurd (by decide) h
  | some d =>
    have hmem := List.mem_of_find?_eq_some hf
    have hprop := List.find?_some hf
    simp only [Bool.and_eq_true, decide_eq_true_eq] at hprop
    unfold snapshot at hmem
    rw [List.mem_map] at hmem
    obtain ⟨q, hq, rfl⟩ := hmem
    have hq' : q < VHCI_PORTS n := List.mem_range.1 hq
    have hmod : q % 256 = q := Nat.mod_eq_of_lt (by omega)
    refine ⟨q, by simp only [hmod], ?_, hprop.2⟩
    have hhub : (port_slot n q).1 = speed_class speed := hprop.1
    rw [← hhub]
    unfold port_slot
    by_cases hlt : q < n
    · simp only [hlt, if_true]
      exact hlt
    · simp only [hlt, if_false]
      exact ⟨by omega, hq'⟩

/-- Pairwise different ports of one sub-range are at most `VHCI_HC_PORTS`. -/
theorem subrange_length_le (n : Nat) (hub : hub_speed) (B : List Nat) (hnd : B.Nodup)
    (hB : ∀ p ∈ B, in_subrange n hub p) : B.length ≤ n := by
  have hsub : B.toFinset ⊆ (if hub = hub_speed.HUB_SPEED_HIGH then Finset.Ico 0 n
      else Finset.Ico n (n + n)) := by
    intro p hp
    have := hB p (List.mem_toFinset.1 hp)
    cases hub with
    | HUB_SPEED_HIGH =>
      simp only [if_true, Finset.mem_Ico]
      exact ⟨Nat.zero_le _, this⟩
    | HUB_SPEED_SUPER =>
      have hne : ¬ (hub_speed.HUB_SPEED_SUPER = hub_speed.HUB_SPEED_HIGH) := by decide
      simp only [hne, if_false, Finset.mem_Ico]
      have h2 : n ≤ p ∧ p < VHCI_PORTS n := this
      unfold VHCI_PORTS at h2
      omega
  have hcard := Finset.card_le_card hsub
  rw [List.toFinset_card_of_nodup hnd] at hcard
  split at hcard
  · simpa using hcard
  · simpa using hcard

theorem in_subrange_lt (n : Nat) (hub : hub_speed) (q : Nat) (h : in_subrange n hub q) :
    q < VHCI_PORTS n := by
  cases hub with
  | HUB_SPEED_HIGH =>
    have : q < n := h
    unfold VHCI_PORTS
    omega
  | HUB_SPEED_SUPER => exact h.2

/-- The retry loop on a contended controller, entered after the ports `B`
were each tried and found in use: it is left within `fuel` iterations when
`VHCI_HC_PORTS + 1 ≤ fuel + B.length`, and the ports it tries are pairwise
different, different from those of `B`, and in the sub-range of the speed's
hub class. -/
theorem attach_retry_race (n : Nat) (lk : Nat → Option Nat) (gd : Nat → Nat → Nat)
    (count : Nat) (sockfd : Int) (udev : usbip_usb_device) (hn : VHCI_PORTS n ≤ 256) :
    ∀ (fuel : Nat) (rc : Int) (s : race_state) (v0 : vhci) (B : List Nat),
      s.idev = snapshot n v0 → B.Nodup →
      (∀ p ∈ B, in_subrange n (speed_class udev.speed) p) →
      (∀ p ∈ B, (v0.port n p).ud.status ≠ usbip_device_status.VDEV_ST_NULL) →
      (∀ p ∈ B, (s.kernel.port n p).ud.status ≠ usbip_device_status.VDEV_ST_NULL) →
      n + 1 ≤ fuel + B.length →
      (attach_retry (race_lib n lk gd count) sockfd udev fuel rc s).1 ≠ none ∧
      ((attach_retry (race_lib n lk gd count) sockfd udev fuel rc s).2.1.filterMap
        lib_call.attach_port ++ B).Nodup ∧
      (∀ p ∈ (attach_retry (race_lib n lk gd count) sockfd udev fuel rc s).2.1.filterMap
        lib_call.attach_port, in_subrange n (speed_class udev.speed) p) := by
  intro fuel
  induction fuel with
  | zero =>
    intro rc s v0 B _ hnd hsub _ _ hfuel
    exfalso
    have := subrange_length_le n _ B hnd hsub
    omega
  | succ fuel ih =>
    intro rc s v0 B hidev hnd hsub hv0 hk hfuel
    have hfree : (race_lib n lk gd count).usbip_vhci_get_free_port udev.speed s
        = (get_free_port s.idev udev.speed, s) := rfl
    by_cases hport : get_free_port s.idev udev.speed < 0
    · have h' : ((race_lib n lk gd count).usbip_vhci_get_free_port udev.speed s).1 < 0 := hport
      rw [attach_retry_not_found (race_lib n lk gd count) sockfd udev fuel rc s h']
      refine ⟨by simp, ?_, ?_⟩
      · simpa [lib_call.attach_port] using hnd
      · simp [lib_call.attach_port]
    · obtain ⟨q, hq, hqsub, hqnull⟩ :=
        get_free_port_snapshot n v0 udev.speed hn (by rw [← hidev]; exact hport)
      rw [← hidev] at hq
      have hqB : q ∉ B := fun hm => hv0 q hm hqnull
      have hq256 : q < 256 := by
        have := in_subrange_lt n _ q hqsub
        omega
      have hmod : (get_free_port s.idev udev.speed).toNat % 256 = q := by
        rw [hq, Int.toNat_ofNat]
        exact Nat.mod_eq_of_lt hq256
      have hatt : (race_lib n lk gd count).usbip_vhci_attach_device
          ((get_free_port s.idev udev.speed).toNat % 256) sockfd (udev.busnum % 256)
          (udev.devnum % 256) udev.speed s =
          (((if (attach_store n lk (s.interfere n).kernel
                (some { port := q, sockfd := sockfd.toNat,
                        devid := gd (udev.busnum % 256) (udev.devnum % 256),
                        speed := udev.speed }) count).1 < 0 then
              ((-1 : Int), -(attach_store n lk (s.interfere n).kernel
                (some { port := q, sockfd := sockfd.toNat,
                        devid := gd (udev.busnum % 256) (udev.devnum % 256),
                        speed := udev.speed }) count).1)
            else (0, 0)).1,
            (if (attach_store n lk (s.interfere n).kernel
                (some { port := q, sockfd := sockfd.toNat,
                        devid := gd (udev.busnum % 256) (udev.devnum % 256),
                        speed := udev.speed }) count).1 < 0 then
              ((-1 : Int), -(attach_store n lk (s.interfere n).kernel
                (some { port := q, sockfd := sockfd.toNat,
                        devid := gd (udev.busnum % 256) (udev.devnum % 256),
                        speed := udev.speed }) count).1)
            else (0, 0)).2),
            { s.interfere n with
              kernel := (attach_store n lk (s.interfere n).kernel
                (some { port := q, sockfd := sockfd.toNat,
                        devid := gd (udev.busnum % 256) (udev.devnum % 256),
                        speed := udev.speed }) count).2.1 }) := by
        rw [hmod]
        rfl
      generalize hres : attach_store n lk (s.interfere n).kernel
          (some { port := q, sockfd := sockfd.toNat,
                  devid := gd (udev.busnum % 256) (udev.devnum % 256),
                  speed := udev.speed }) count = res at hatt
      by_cases hstop : (if res.1 < 0 then ((-1 : Int), -res.1) else (0, 0)).1 ≥ 0 ∨
          (if res.1 < 0 then ((-1 : Int), -res.1) else (0, 0)).2 ≠ EBUSY
      · rw [attach_retry_stop (race_lib n lk gd count) sockfd udev fuel rc s _ s _ _ _ hfree
          hport hatt hstop]
        refine ⟨by simp, ?_, ?_⟩
        · simp only [List.filterMap_cons, lib_call.attach_port, List.filterMap_nil, hmod,
            List.singleton_append, List.nodup_cons]
          exact ⟨hqB, hnd⟩
        · intro p hp
          simp only [List.filterMap_cons, lib_call.attach_port, List.filterMap_nil, hmod,
            List.mem_singleton] at hp
          rw [hp]
          exact hqsub
      · rw [attach_retry_again (race_lib n lk gd count) sockfd udev fuel rc s _ s _ _ _ hfree
          hport hatt hstop]
        have hneg : res.1 < 0 := by
          by_contra hge
          rw [if_neg hge] at hstop
          exact hstop (Or.inl (by decide))
        rw [if_pos hneg] at hstop
        have hebusy : res.1 = -EBUSY := by
          have : ¬ (-res.1 ≠ EBUSY) := fun h => hstop (Or.inr h)
          have h2 : -res.1 = EBUSY := by
            by_contra h
            exact this h
          omega
        rw [← hres] at hebusy
        obtain ⟨hbusy, hsame⟩ := attach_store_ebusy n lk _ _ count hebusy
        rw [hres] at hsame
        have hbusy' : (((s.interfere n).kernel).port n q).ud.status
            ≠ usbip_device_status.VDEV_ST_NULL := hbusy
        have hrefresh : (race_lib n lk gd count).usbip_vhci_refresh_device_list
            { s.interfere n with kernel := res.2.1 } =
            { (race_state.interfere n { s.interfere n with kernel := res.2.1 }) with
              idev := snapshot n
                (race_state.interfere n { s.interfere n with kernel := res.2.1 }).kernel } := rfl
        rw [hrefresh, hsame]
        have hall : ∀ p ∈ q :: B,
            ((race_state.interfere n { s.interfere n with kernel := (s.interfere n).kernel }
              ).kernel.port n p).ud.status ≠ usbip_device_status.VDEV_ST_NULL := by
          intro p hp
          apply interfere_keeps_busy
          simp only [List.mem_cons] at hp
          rcases hp with rfl | hp
          · exact hbusy'
          · exact interfere_keeps_busy n s p (hk p hp)
        obtain ⟨ih1, ih2, ih3⟩ := ih (if res.1 < 0 then ((-1 : Int), -res.1) else (0, 0)).1
          { (race_state.interfere n { s.interfere n with kernel := (s.interfere n).kernel }) with
            idev := snapshot n
              (race_state.interfere n
                { s.interfere n with kernel := (s.interfere n).kernel }).kernel }
          (race_state.interfere n { s.interfere n with kernel := (s.interfere n).kernel }).kernel
          (q :: B) rfl (List.nodup_cons.2 ⟨hqB, hnd⟩)
          (by
            intro p hp
            simp only [List.mem_cons] at hp
            rcases hp with rfl | hp
            · exact hqsub
            · exact hsub p hp)
          hall hall (by simp only [List.length_cons]; omega)
        refine ⟨ih1, ?_, ?_⟩
        · simp only [List.cons_append, List.nil_append, List.filterMap_cons,
            lib_call.attach_port, hmod]
          exact List.nodup_middle.1 ih2
        · intro p hp
          simp only [List.cons_append, List.nil_append, List.filterMap_cons,
            lib_call.attach_port, hmod, List.mem_cons] at hp
          rcases hp with rfl | hp
          · exact hqsub
          · exact ih3 p hp

/-! ## The log is what the library answers -/

theorem replay_calls_append {σ : Type} (L : vhci_driver_lib σ) (a b : List lib_call) (s : σ) :
    replay_calls L (a ++ b) s = (replay_calls L a s).bind (replay_calls L b) := by
  induction a generalizing s with
  | nil => rfl
  | cons c cs ih =>
    simp only [List.cons_append, replay_calls]
    cases c.replay L s with
    | none => rfl
    | some s1 => exact ih s1

/-- The calls of the retry loop, made one after the other from the state in
which the loop is entered, get from the library the results that the log
records and leave it in the state that the loop returns; their arguments are
those of the device that is imported. -/
theorem attach_retry_replay {σ : Type} (L : vhci_driver_lib σ) (sockfd : Int)
    (udev : usbip_usb_device) :
    ∀ (fuel : Nat) (rc : Int) (s : σ),
      replay_calls L (attach_retry L sockfd udev fuel rc s).2.1 s
        = some (attach_retry L sockfd udev fuel rc s).2.2 ∧
      ∀ c ∈ (attach_retry L sockfd udev fuel rc s).2.1, c.for_device sockfd udev := by
  intro fuel
  induction fuel with
  | zero =>
    intro rc s
    rw [attach_retry_zero]
    exact ⟨rfl, by simp⟩
  | succ fuel ih =>
    intro rc s
    rcases hfree : L.usbip_vhci_get_free_port udev.speed s with ⟨port, s1⟩
    by_cases hport : port < 0
    · have h' : (L.usbip_vhci_get_free_port udev.speed s).1 < 0 := by rw [hfree]; exact hport
      rw [attach_retry_not_found L sockfd udev fuel rc s h', hfree]
      refine ⟨?_, ?_⟩
      · simp only [replay_calls, lib_call.replay, hfree, if_true]
      · intro c hc
        simp only [List.mem_singleton] at hc
        rw [hc]
        exact rfl
    · rcases hatt : L.usbip_vhci_attach_device (port.toNat % 256) sockfd
        (udev.busnum % 256) (udev.devnum % 256) udev.speed s1 with ⟨⟨rc1, errno⟩, s2⟩
      have hargs : ∀ c ∈ [lib_call.get_free_port udev.speed port,
          lib_call.attach_device (port.toNat % 256) sockfd (udev.busnum % 256)
            (udev.devnum % 256) udev.speed rc1 errno], c.for_device sockfd udev := by
        intro c hc
        simp only [List.mem_cons, List.mem_singleton, List.not_mem_nil, or_false] at hc
        rcases hc with rfl | rfl
        · exact rfl
        · exact ⟨rfl, rfl, rfl, rfl⟩
      by_cases hstop : rc1 ≥ 0 ∨ errno ≠ EBUSY
      · rw [attach_retry_stop L sockfd udev fuel rc s port s1 rc1 errno s2 hfree hport hatt hstop]
        refine ⟨?_, hargs⟩
        simp only [replay_calls, lib_call.replay, hfree, hatt, if_true]
      · rw [attach_retry_again L sockfd udev fuel rc s port s1 rc1 errno s2 hfree hport hatt
          hstop]
        obtain ⟨ih1, ih2⟩ := ih rc1 (L.usbip_vhci_refresh_device_list s2)
        refine ⟨?_, ?_⟩
        · simp only [List.cons_append, List.nil_append, replay_calls, lib_call.replay, hfree,
            hatt, if_true]
          exact ih1
        · intro c hc
          simp only [List.cons_append, List.nil_append, List.mem_cons] at hc
          rcases hc with rfl | rfl | rfl | hc
          · exact rfl
          · exact ⟨rfl, rfl, rfl, rfl⟩
          · exact True.intro
          · exact ih2 c hc

/-- The calls of the loop over the controllers, made one after the other
from the state in which the loop is entered, get from the library the
results that the log records and leave it in the state that the loop
returns; their arguments are those of the device that is imported. -/
theorem import_loop_replay {σ : Type} (L : vhci_driver_lib σ) (sockfd : Int)
    (udev : usbip_usb_device) (fuel : Nat) :
    ∀ (paths : List String) (rc : Int) (s : σ),
      replay_calls L (import_loop L sockfd udev fuel paths rc s).2.1 s
        = some (import_loop L sockfd udev fuel paths rc s).2.2 ∧
      ∀ c ∈ (import_loop L sockfd udev fuel paths rc s).2.1, c.for_device sockfd udev := by
  intro paths
  induction paths with
  | nil =>
    intro rc s
    simp only [import_loop]
    exact ⟨rfl, by simp⟩
  | cons path entries ih =>
    intro rc s
    by_cases hopen : (L.usbip_vhci_driver_open_path path s).1 < 0
    · rw [import_loop_skip L sockfd udev fuel path entries rc s hopen]
      obtain ⟨i1, i2⟩ := ih rc (L.usbip_vhci_driver_open_path path s).2
      refine ⟨?_, ?_⟩
      · simp only [replay_calls, lib_call.replay, if_true]
        exact i1
      · intro c hc
        simp only [List.mem_cons] at hc
        rcases hc with rfl | hc
        · exact True.intro
        · exact i2 c hc
    · obtain ⟨r1, r2⟩ :=
        attach_retry_replay L sockfd udev fuel rc (L.usbip_vhci_driver_open_path path s).2
      have hhead : replay_calls L
          (lib_call.open_path path (L.usbip_vhci_driver_open_path path s).1 ::
            lib_call.driver_ix
              (L.usbip_vhci_driver_ix (L.usbip_vhci_driver_open_path path s).2) ::
            (attach_retry L sockfd udev fuel rc
              (L.usbip_vhci_driver_open_path path s).2).2.1) s
          = some (attach_retry L sockfd udev fuel rc
              (L.usbip_vhci_driver_open_path path s).2).2.2 := by
        simp only [replay_calls, lib_call.replay, if_true]
        exact r1
      have hargs : ∀ c ∈ lib_call.open_path path (L.usbip_vhci_driver_open_path path s).1 ::
            lib_call.driver_ix
              (L.usbip_vhci_driver_ix (L.usbip_vhci_driver_open_path path s).2) ::
            (attach_retry L sockfd udev fuel rc
              (L.usbip_vhci_driver_open_path path s).2).2.1, c.for_device sockfd udev := by
        intro c hc
        simp only [List.mem_cons] at hc
        rcases hc with rfl | rfl | hc
        · exact True.intro
        · exact True.intro
        · exact r2 c hc
      cases hl : (attach_retry L sockfd udev fuel rc
          (L.usbip_vhci_driver_open_path path s).2).1 with
      | none =>
        rw [import_loop_running L sockfd udev fuel path entries rc s hopen hl]
        exact ⟨hhead, hargs⟩
      | some pr =>
        obtain ⟨port, rc1⟩ := pr
        by_cases hrc1 : rc1 ≥ 0
        · rw [import_loop_done L sockfd udev fuel path entries rc s port rc1 hopen hl hrc1]
          refine ⟨?_, ?_⟩
          · rw [replay_calls_append, hhead]
            rfl
          · intro c hc
            rcases List.mem_append.1 hc with hc | hc
            · exact hargs c hc
            · simp only [List.mem_singleton] at hc
              rw [hc]
              exact True.intro
        · rw [import_loop_next L sockfd udev fuel path entries rc s port rc1 hopen hl hrc1]
          obtain ⟨i1, i2⟩ := ih rc1 (L.usbip_vhci_driver_close
            (attach_retry L sockfd udev fuel rc
              (L.usbip_vhci_driver_open_path path s).2).2.2)
          refine ⟨?_, ?_⟩
          · rw [replay_calls_append, hhead]
            simp only [Option.some_bind, replay_calls, lib_call.replay]
            exact i1
          · intro c hc
            rcases List.mem_append.1 hc with hc | hc
            · exact hargs c hc
            · rcases List.mem_cons.1 hc with rfl | hc
              · exact True.intro
              · exact i2 c hc

/-- A negative result of the loop over the controllers comes with a log
that ends on a controller that is left: on a close, or on an open that
failed. -/
theorem import_loop_last {σ : Type} (L : vhci_driver_lib σ) (sockfd : Int)
    (udev : usbip_usb_device) (fuel : Nat) :
    ∀ (paths : List String) (rc : Int) (s : σ) (res : import_result),
      (import_loop L sockfd udev fuel paths rc s).1 = some res → res.rc < 0 →
      ∀ x ∈ (import_loop L sockfd udev fuel paths rc s).2.1.getLast?,
        x.leaves_controller := by
  intro paths
  induction paths with
  | nil =>
    intro rc s res _ _ x hx
    simp only [import_loop, List.getLast?_nil, Option.mem_def] at hx
    cases hx
  | cons path entries ih =>
    intro rc s res hres hneg x hx
    by_cases hopen : (L.usbip_vhci_driver_open_path path s).1 < 0
    · rw [import_loop_skip L sockfd udev fuel path entries rc s hopen] at hres hx
      have i := ih rc (L.usbip_vhci_driver_open_path path s).2 res hres hneg
      cases hrest : (import_loop L sockfd udev fuel entries rc
          (L.usbip_vhci_driver_open_path path s).2).2.1 with
      | nil =>
        simp only [hrest, List.getLast?_singleton, Option.mem_def, Option.some.injEq] at hx
        subst hx
        exact hopen
      | cons y ys =>
        simp only [hrest, List.getLast?_cons_cons] at hx
        rw [hrest] at i
        exact i x hx
    · cases hl : (attach_retry L sockfd udev fuel rc
          (L.usbip_vhci_driver_open_path path s).2).1 with
      | none =>
        rw [import_loop_running L sockfd udev fuel path entries rc s hopen hl] at hres
        cases hres
      | some pr =>
        obtain ⟨port, rc1⟩ := pr
        by_cases hrc1 : rc1 ≥ 0
        · rw [import_loop_done L sockfd udev fuel path entries rc s port rc1 hopen hl hrc1]
            at hres
          simp only [Option.some.injEq] at hres
          subst hres
          exact absurd hneg (by simpa using hrc1)
        · rw [import_loop_next L sockfd udev fuel path entries rc s port rc1 hopen hl hrc1]
            at hres hx
          have i := ih rc1 _ res hres hneg
          cases hrest : (import_loop L sockfd udev fuel entries rc1
              (L.usbip_vhci_driver_close (attach_retry L sockfd udev fuel rc
                (L.usbip_vhci_driver_open_path path s).2).2.2)).2.1 with
          | nil =>
            rw [hrest, List.getLast?_append_cons] at hx
            simp only [List.getLast?_singleton, Option.mem_def, Option.some.injEq] at hx
            subst hx
            exact True.intro
          | cons y ys =>
            rw [hrest, List.getLast?_append_cons, List.getLast?_cons_cons] at hx
            rw [hrest] at i
            exact i x hx

/-! ## The rounds of the retry loop -/

/-- A retry loop that is left began with a request for a free port. -/
theorem attach_retry_head {σ : Type} (L : vhci_driver_lib σ) (sockfd : Int)
    (udev : usbip_usb_device) (fuel : Nat) (rc : Int) (s : σ)
    (h : (attach_retry L sockfd udev fuel rc s).1 ≠ none) :
    ∃ p, (attach_retry L sockfd udev fuel rc s).2.1[0]?
      = some (lib_call.get_free_port udev.speed p) := by
  cases fuel with
  | zero =>
    rw [attach_retry_zero] at h
    exact absurd rfl h
  | succ fuel =>
    rcases hfree : L.usbip_vhci_get_free_port udev.speed s with ⟨port, s1⟩
    by_cases hport : port < 0
    · have h' : (L.usbip_vhci_get_free_port udev.speed s).1 < 0 := by rw [hfree]; exact hport
      rw [attach_retry_not_found L sockfd udev fuel rc s h']
      exact ⟨_, rfl⟩
    · rcases hatt : L.usbip_vhci_attach_device (port.toNat % 256) sockfd
        (udev.busnum % 256) (udev.devnum % 256) udev.speed s1 with ⟨⟨rc1, errno⟩, s2⟩
      by_cases hstop : rc1 ≥ 0 ∨ errno ≠ EBUSY
      · rw [attach_retry_stop L sockfd udev fuel rc s port s1 rc1 errno s2 hfree hport hatt hstop]
        exact ⟨_, rfl⟩
      · rw [attach_retry_again L sockfd udev fuel rc s port s1 rc1 errno s2 hfree hport hatt
          hstop]
        exact ⟨_, rfl⟩

/-- The rounds of the retry loop: no call opens or closes a controller; an
attach that failed with `EBUSY` is directly followed by a refresh, and, in a
loop that is left, the refresh by a new request for a free port for the same
speed. -/
theorem attach_retry_rounds {σ : Type} (L : vhci_driver_lib σ) (sockfd : Int)
    (udev : usbip_usb_device) :
    ∀ (fuel : Nat) (rc : Int) (s : σ),
      (∀ c ∈ (attach_retry L sockfd udev fuel rc s).2.1, c.keeps_controller) ∧
      ∀ (i : Nat) (c : lib_call), (attach_retry L sockfd udev fuel rc s).2.1[i]? = some c →
        c.attach_busy = true →
        (attach_retry L sockfd udev fuel rc s).2.1[i + 1]?
          = some lib_call.refresh_device_list ∧
        ((attach_retry L sockfd udev fuel rc s).1 ≠ none →
          ∃ p, (attach_retry L sockfd udev fuel rc s).2.1[i + 2]?
            = some (lib_call.get_free_port udev.speed p)) := by
  intro fuel
  induction fuel with
  | zero =>
    intro rc s
    rw [attach_retry_zero]
    exact ⟨by simp, by simp⟩
  | succ fuel ih =>
    intro rc s
    rcases hfree : L.usbip_vhci_get_free_port udev.speed s with ⟨port, s1⟩
    by_cases hport : port < 0
    · have h' : (L.usbip_vhci_get_free_port udev.speed s).1 < 0 := by rw [hfree]; exact hport
      rw [attach_retry_not_found L sockfd udev fuel rc s h']
      refine ⟨?_, ?_⟩
      · intro c hc
        simp only [List.mem_singleton] at hc
        rw [hc]
        exact True.intro
      · intro i c hi hbusy
        cases i with
        | zero =>
          simp only [List.getElem?_cons_zero, Option.some.injEq] at hi
          subst hi
          cases hbusy
        | succ i => simp at hi
    · rcases hatt : L.usbip_vhci_attach_device (port.toNat % 256) sockfd
        (udev.busnum % 256) (udev.devnum % 256) udev.speed s1 with ⟨⟨rc1, errno⟩, s2⟩
      by_cases hstop : rc1 ≥ 0 ∨ errno ≠ EBUSY
      · rw [attach_retry_stop L sockfd udev fuel rc s port s1 rc1 errno s2 hfree hport hatt hstop]
        refine ⟨?_, ?_⟩
        · intro c hc
          simp only [List.mem_cons, List.mem_singleton, List.not_mem_nil, or_false] at hc
          rcases hc with rfl | rfl <;> exact True.intro
        · intro i c hi hbusy
          cases i with
          | zero =>
            simp only [List.getElem?_cons_zero, Option.some.injEq] at hi
            subst hi
            cases hbusy
          | succ i =>
            cases i with
            | zero =>
              simp only [List.getElem?_cons_succ, List.getElem?_cons_zero,
                Option.some.injEq] at hi
              subst hi
              simp only [lib_call.attach_busy, decide_eq_true_eq] at hbusy
              rcases hstop with h1 | h1
              · omega
              · exact absurd hbusy.2 h1
            | succ i => simp at hi
      · rw [attach_retry_again L sockfd udev fuel rc s port s1 rc1 errno s2 hfree hport hatt
          hstop]
        obtain ⟨ih1, ih2⟩ := ih rc1 (L.usbip_vhci_refresh_device_list s2)
        refine ⟨?_, ?_⟩
        · intro c hc
          simp only [List.cons_append, List.nil_append, List.mem_cons] at hc
          rcases hc with rfl | rfl | rfl | hc
          · exact True.intro
          · exact True.intro
          · exact True.intro
          · exact ih1 c hc
        · intro i c hi hbusy
          simp only [List.cons_append, List.nil_append] at hi ⊢
          cases i with
          | zero =>
            simp only [List.getElem?_cons_zero, Option.some.injEq] at hi
            subst hi
            cases hbusy
          | succ i =>
            cases i with
            | zero =>
              refine ⟨by simp, fun hne => ?_⟩
              obtain ⟨p, hp⟩ := attach_retry_head L sockfd udev fuel rc1 _ hne
              exact ⟨p, by simpa using hp⟩
            | succ i =>
              cases i with
              | zero =>
                simp only [List.getElem?_cons_succ, List.getElem?_cons_zero,
                  Option.some.injEq] at hi
                subst hi
                cases hbusy
              | succ i =>
                simp only [List.getElem?_cons_succ] at hi ⊢
                exact ih2 i c hi hbusy

/-! ## A controller whose port 0 is taken and released again and again -/

/-- After the other attacher's request for port 0, port 0 is not NULL,
whether the request was granted or the port was held already. -/
theorem churn_port_taken (k : vhci) :
    (((attach_store 2 fd_table_7 k
        (some { port := 0, sockfd := 7, devid := 0xCD, speed := USB_SPEED_HIGH }) 11).2.1).port
      2 0).ud.status ≠ usbip_device_status.VDEV_ST_NULL := by
  have h := (attach_store_valid 2 fd_table_7 k
    { port := 0, sockfd := 7, devid := 0xCD, speed := USB_SPEED_HIGH } 11
    hub_speed.HUB_SPEED_HIGH 100 (by decide) (by decide) rfl).2
  rw [h]
  by_cases hst : (k.port 2 0).ud.status ≠ usbip_device_status.VDEV_ST_NULL
  · rw [if_pos hst]
    exact hst
  · rw [if_neg hst]
    simp [vhci.port, port_slot, get_set_same]

/-- The snapshot taken after port 0 was released offers port 0. -/
theorem get_free_port_released (k : vhci) :
    get_free_port (snapshot 2 (release k hub_speed.HUB_SPEED_HIGH 0)) 3 = 0 := by
  have hst : ((release k hub_speed.HUB_SPEED_HIGH 0).port 2 0).ud.status
      = usbip_device_status.VDEV_ST_NULL := by
    simp [vhci.port, port_slot, release, get_set_same]
  have hr : List.range (VHCI_PORTS 2) = [0, 1, 2, 3] := by decide
  unfold get_free_port snapshot
  rw [hr]
  simp [List.find?, hst, speed_class, port_slot, USB_SPEED_SUPER]

/-- One round of the retry loop on the controller of `churn_lib`: the
snapshot offers port 0, the other attacher has taken it by the time of the
attach, which fails with `EBUSY`, and the port is released again before the
refresh, whose snapshot offers port 0 once more. -/
theorem attach_retry_churn_step (fuel : Nat) (rc : Int) (s : race_state)
    (h : get_free_port s.idev 3 = 0) :
    ∃ s2 : race_state, get_free_port s2.idev 3 = 0 ∧
      (attach_retry demo_churn_lib 7 ⟨1, 2, 3⟩ (fuel + 1) rc s).1 =
        (attach_retry demo_churn_lib 7 ⟨1, 2, 3⟩ fuel (-1) s2).1 ∧
      (attach_retry demo_churn_lib 7 ⟨1, 2, 3⟩ (fuel + 1) rc s).2.1 =
        lib_call.get_free_port 3 0 :: lib_call.attach_device 0 7 1 2 3 (-1) 16 ::
          lib_call.refresh_device_list ::
            (attach_retry demo_churn_lib 7 ⟨1, 2, 3⟩ fuel (-1) s2).2.1 := by
  have hfree : demo_churn_lib.usbip_vhci_get_free_port
      (usbip_usb_device.mk 1 2 3).speed s = (0, s) := by
    show (get_free_port s.idev 3, s) = (0, s)
    rw [h]
  have hbusy : attach_store 2 fd_table_7
      (attach_store 2 fd_table_7 s.kernel
        (some { port := 0, sockfd := 7, devid := 0xCD, speed := USB_SPEED_HIGH }) 11).2.1
      (some { port := 0, sockfd := 7, devid := demo_get_devid 1 2, speed := 3 }) 12
      = (-EBUSY,
          (attach_store 2 fd_table_7 s.kernel
            (some { port := 0, sockfd := 7, devid := 0xCD, speed := USB_SPEED_HIGH }) 11).2.1,
          []) := by
    rw [(attach_store_valid 2 fd_table_7 _
      { port := 0, sockfd := 7, devid := demo_get_devid 1 2, speed := 3 } 12
      hub_speed.HUB_SPEED_HIGH 100 (by decide) (by decide) rfl).2,
      if_pos (churn_port_taken s.kernel)]
  have hatt : demo_churn_lib.usbip_vhci_attach_device ((0 : Int).toNat % 256) 7
      ((usbip_usb_device.mk 1 2 3).busnum % 256) ((usbip_usb_device.mk 1 2 3).devnum % 256)
      (usbip_usb_device.mk 1 2 3).speed s
      = ((-1, 16), { s with kernel :=
          (attach_store 2 fd_table_7 s.kernel
            (some { port := 0, sockfd := 7, devid := 0xCD, speed := USB_SPEED_HIGH })
            11).2.1 }) := by
    have e : demo_churn_lib.usbip_vhci_attach_device ((0 : Int).toNat % 256) 7
        ((usbip_usb_device.mk 1 2 3).busnum % 256) ((usbip_usb_device.mk 1 2 3).devnum % 256)
        (usbip_usb_device.mk 1 2 3).speed s
        = (if (attach_store 2 fd_table_7
              (attach_store 2 fd_table_7 s.kernel
                (some { port := 0, sockfd := 7, devid := 0xCD, speed := USB_SPEED_HIGH })
                11).2.1
              (some { port := 0, sockfd := 7, devid := demo_get_devid 1 2, speed := 3 })
              12).1 < 0
            then (-1, -(attach_store 2 fd_table_7
              (attach_store 2 fd_table_7 s.kernel
                (some { port := 0, sockfd := 7, devid := 0xCD, speed := USB_SPEED_HIGH })
                11).2.1
              (some { port := 0, sockfd := 7, devid := demo_get_devid 1 2, speed := 3 })
              12).1)
            else (0, 0),
           { s with kernel := (attach_store 2 fd_table_7
              (attach_store 2 fd_table_7 s.kernel
                (some { port := 0, sockfd := 7, devid := 0xCD, speed := USB_SPEED_HIGH })
                11).2.1
              (some { port := 0, sockfd := 7, devid := demo_get_devid 1 2, speed := 3 })
              12).2.1 }) := rfl
    rw [e, hbusy]
    rfl
  refine ⟨demo_churn_lib.usbip_vhci_refresh_device_list { s with kernel :=
      (attach_store 2 fd_table_7 s.kernel
        (some { port := 0, sockfd := 7, devid := 0xCD, speed := USB_SPEED_HIGH }) 11).2.1 },
    get_free_port_released _, ?_, ?_⟩
  · rw [attach_retry_again demo_churn_lib 7 ⟨1, 2, 3⟩ fuel rc s 0 s (-1) 16 _ hfree
      (by decide) hatt (by decide)]
  · rw [attach_retry_again demo_churn_lib 7 ⟨1, 2, 3⟩ fuel rc s 0 s (-1) 16 _ hfree
      (by decide) hatt (by decide)]
    rfl

/-- On the controller of `churn_lib` the retry loop is still running after
any number of rounds, each of which tried port 0. -/
theorem attach_retry_churn_rounds :
    ∀ (fuel : Nat) (rc : Int) (s : race_state), get_free_port s.idev 3 = 0 →
      (attach_retry demo_churn_lib 7 ⟨1, 2, 3⟩ fuel rc s).1 = none ∧
      (attach_retry demo_churn_lib 7 ⟨1, 2, 3⟩ fuel rc s).2.1.filterMap lib_call.attach_port
        = List.replicate fuel 0 := by
  intro fuel
  induction fuel with
  | zero =>
    intro rc s _
    exact ⟨rfl, rfl⟩
  | succ fuel ih =>
    intro rc s h
    obtain ⟨s2, h2, e1, e2⟩ := attach_retry_churn_step fuel rc s h
    obtain ⟨i1, i2⟩ := ih (-1) s2 h2
    refine ⟨by rw [e1]; exact i1, ?_⟩
    rw [e2]
    simp only [List.filterMap_cons, lib_call.attach_port, i2, List.replicate_succ]

/-! ## The retry inside `import_device` -/

/-- In a run of the loop over the controllers that returns, an attach that
failed with `EBUSY` is directly followed by a refresh and a new request for
a free port for the same speed. -/
theorem import_loop_retry {σ : Type} (L : vhci_driver_lib σ) (sockfd : Int)
    (udev : usbip_usb_device) (fuel : Nat) (paths : List String) (rc : Int) (s : σ)
    (hrc : rc < 0) (hret : (import_loop L sockfd udev fuel paths rc s).1 ≠ none)
    (a : List lib_call) (c : lib_call) (b : List lib_call)
    (hdec : (import_loop L sockfd udev fuel paths rc s).2.1 = a ++ c :: b)
    (hbusy : c.attach_busy = true) :
    ∃ p b', b = lib_call.refresh_device_list :: lib_call.get_free_port udev.speed p :: b' := by
  obtain ⟨i1, _, _, _, i5⟩ := import_loop_calls L sockfd udev fuel paths rc s hrc
  obtain ⟨_, k2⟩ := import_loop_replay L sockfd udev fuel paths rc s
  have k3 := import_loop_last L sockfd udev fuel paths rc s
  have hlast : ∀ x ∈ (import_loop L sockfd udev fuel paths rc s).2.1.getLast?,
      x.leaves_controller := by
    cases hr : (import_loop L sockfd udev fuel paths rc s).1 with
    | none => exact absurd hr hret
    | some res =>
      by_cases hneg : res.rc < 0
      · exact k3 res hr hneg
      · obtain ⟨before, path, orc, ix, retries, port, errno, e1, _⟩ :=
          (i5 res hr).2 (by omega)
        intro x hx
        rw [e1, List.getLast?_append_cons, List.getLast?_cons_cons,
          List.getLast?_cons_cons, List.getLast?_singleton] at hx
        simp only [Option.mem_def, Option.some.injEq] at hx
        subst hx
        exact True.intro
  rw [hdec] at i1 k2 hlast
  cases c with
  | attach_device port fd busnum devnum speed arc errno =>
    simp only [lib_call.attach_busy, decide_eq_true_eq] at hbusy
    cases b with
    | nil =>
      have := hlast _ (by rw [List.getLast?_append_cons, List.getLast?_singleton]; rfl)
      exact this.elim
    | cons y b1 =>
      have hc := (List.chain'_cons.1 (List.Chain'.right_of_append i1)).1
      cases y with
      | refresh_device_list =>
        cases b1 with
        | nil =>
          have := hlast _ (by
            rw [List.getLast?_append_cons, List.getLast?_cons_cons, List.getLast?_singleton]
            rfl)
          exact this.elim
        | cons z b2 =>
          have hc2 := (List.chain'_cons.1
            (List.chain'_cons.1 (List.Chain'.right_of_append i1)).2).1
          cases z with
          | get_free_port sp p =>
            have hsp : sp = udev.speed := k2 (lib_call.get_free_port sp p) (by simp)
            subst hsp
            exact ⟨p, b2, rfl⟩
          | open_path _ _ => exact hc2.elim
          | driver_ix _ => exact hc2.elim
          | attach_device _ _ _ _ _ _ _ => exact hc2.elim
          | refresh_device_list => exact hc2.elim
          | driver_close => exact hc2.elim
      | driver_close =>
        have hc' : 0 ≤ arc ∨ errno ≠ EBUSY := hc
        rcases hc' with h | h
        · omega
        · exact absurd hbusy.2 h
      | open_path _ _ => exact hc.elim
      | driver_ix _ => exact hc.elim
      | get_free_port _ _ => exact hc.elim
      | attach_device _ _ _ _ _ _ _ => exact hc.elim
  | open_path _ _ => cases hbusy
  | driver_ix _ => cases hbusy
  | get_free_port _ _ => cases hbusy
  | refresh_device_list => cases hbusy
  | driver_close => cases hbusy

/-! ## Attach -/

/-- C1: an attach request with a recognised speed, a port inside that
speed's sub-range and a valid connection id, addressed to a port whose state
is not NULL, fails with `-EBUSY`; the table returned is the table received
(no field of any port is written) and no call leaves the function. -/
theorem attach_store_busy_no_write (n : Nat) (lk : Nat → Option Nat) (v : vhci)
    (r : attach_request) (count : Nat) (hub : hub_speed) (socket : Nat)
    (hs : speed_hub r.speed = some hub) (hp : in_subrange n hub r.port)
    (hfd : lk r.sockfd = some socket)
    (hst : (v.port n r.port).ud.status ≠ usbip_device_status.VDEV_ST_NULL) :
    attach_store n lk v (some r) count = (-EBUSY, v, []) := by
  rw [(attach_store_valid n lk v r count hub socket hs hp hfd).2, if_pos hst]

theorem attach_store_busy_no_write_witness :
    speed_hub 3 = some hub_speed.HUB_SPEED_HIGH ∧
    in_subrange 8 hub_speed.HUB_SPEED_HIGH 3 ∧
    fd_table_7 7 = some 100 ∧
    ((attach_store 8 fd_table_7 vhci_init (some ⟨3, 7, 0xAB, 3⟩) 11).2.1.port 8 3).ud.status
      ≠ usbip_device_status.VDEV_ST_NULL ∧
    attach_store 8 fd_table_7
        (attach_store 8 fd_table_7 vhci_init (some ⟨3, 7, 0xAB, 3⟩) 11).2.1
        (some ⟨3, 7, 0xCD, 2⟩) 11
      = (-EBUSY, (attach_store 8 fd_table_7 vhci_init (some ⟨3, 7, 0xAB, 3⟩) 11).2.1, []) :=
  ⟨by decide, by decide, by decide, by decide,
    attach_store_busy_no_write 8 fd_table_7
      (attach_store 8 fd_table_7 vhci_init (some ⟨3, 7, 0xAB, 3⟩) 11).2.1
      ⟨3, 7, 0xCD, 2⟩ 11 hub_speed.HUB_SPEED_HIGH 100
      (by decide) (by decide) (by decide) (by decide)⟩

/-- C2: an attach request with a recognised speed, a port inside that
speed's sub-range and a valid connection id, addressed to a port whose state
is NULL, returns the byte count; afterwards the addressed port is
NOTASSIGNED with the request's device id, speed and descriptor and with the
socket bound, and every other slot of both hubs is as before. -/
theorem attach_store_claims_null_port (n : Nat) (lk : Nat → Option Nat) (v : vhci)
    (r : attach_request) (count : Nat) (hub : hub_speed) (socket : Nat)
    (hs : speed_hub r.speed = some hub) (hp : in_subrange n hub r.port)
    (hfd : lk r.sockfd = some socket)
    (hst : (v.port n r.port).ud.status = usbip_device_status.VDEV_ST_NULL) :
    (attach_store n lk v (some r) count).1 = (count : Int) ∧
    ((attach_store n lk v (some r) count).2.1.port n r.port).ud.status
      = usbip_device_status.VDEV_ST_NOTASSIGNED ∧
    ((attach_store n lk v (some r) count).2.1.port n r.port).devid = r.devid ∧
    ((attach_store n lk v (some r) count).2.1.port n r.port).speed = r.speed ∧
    ((attach_store n lk v (some r) count).2.1.port n r.port).ud.sockfd = r.sockfd ∧
    ((attach_store n lk v (some r) count).2.1.port n r.port).ud.tcp_socket = some socket ∧
    (∀ h i, (h, i) ≠ port_slot n r.port →
      (attach_store n lk v (some r) count).2.1.get h i = v.get h i) := by
  obtain ⟨hslot, heq⟩ := attach_store_valid n lk v r count hub socket hs hp hfd
  have hst' : ¬ (v.port n r.port).ud.status ≠ usbip_device_status.VDEV_ST_NULL :=
    fun h => h hst
  rw [heq, if_neg hst']
  have hget : ∀ d, ((v.set hub (port_slot n r.port).2 d).port n r.port) = d := by
    intro d
    unfold vhci.port
    rw [hslot]
    exact get_set_same v hub _ d
  refine ⟨rfl, ?_, ?_, ?_, ?_, ?_, ?_⟩
  · simp only [hget]
  · simp only [hget]
  · simp only [hget]
  · simp only [hget]
  · simp only [hget]
  · intro h i hne
    rw [hslot] at hne
    exact get_set_other v hub h _ i _ hne

theorem attach_store_claims_null_port_witness :
    speed_hub 5 = some hub_speed.HUB_SPEED_SUPER ∧
    in_subrange 8 hub_speed.HUB_SPEED_SUPER 11 ∧
    fd_table_7 7 = some 100 ∧
    (vhci_init.port 8 11).ud.status = usbip_device_status.VDEV_ST_NULL ∧
    (attach_store 8 fd_table_7 vhci_init (some ⟨11, 7, 0xAB, 5⟩) 12).1 = 12 ∧
    ((attach_store 8 fd_table_7 vhci_init (some ⟨11, 7, 0xAB, 5⟩) 12).2.1.port 8 11).ud.status
      = usbip_device_status.VDEV_ST_NOTASSIGNED ∧
    ((attach_store 8 fd_table_7 vhci_init (some ⟨11, 7, 0xAB, 5⟩) 12).2.1.port 8 11).devid
      = 0xAB :=
  have h := attach_store_claims_null_port 8 fd_table_7 vhci_init ⟨11, 7, 0xAB, 5⟩ 12
    hub_speed.HUB_SPEED_SUPER 100 (by decide) (by decide) (by decide) (by decide)
  ⟨by decide, by decide, by decide, by decide, h.1, h.2.1, h.2.2.1⟩

/-- C3 (as amended): for an attach request with a valid connection id,
`attach_store` fails with `-EINVAL` exactly when the speed is none of the five
recognised ones (Low, Full, High, Wireless on the High-speed hub, Super on
the Super-speed hub) or the port is outside the sub-range of the speed's hub;
such a request is answered `-EINVAL` whatever the descriptor table and the
port states are, so it never yields `-EBUSY`, and it writes nothing. -/
theorem attach_store_einval_iff (n : Nat) (lk : Nat → Option Nat) (v : vhci)
    (r : attach_request) (count : Nat) (socket : Nat) (hfd : lk r.sockfd = some socket) :
    ((attach_store n lk v (some r) count).1 = -EINVAL ↔
      ¬ (((r.speed = USB_SPEED_LOW ∨ r.speed = USB_SPEED_FULL ∨ r.speed = USB_SPEED_HIGH
            ∨ r.speed = USB_SPEED_WIRELESS) ∧ r.port < n)
          ∨ (r.speed = USB_SPEED_SUPER ∧ n ≤ r.port ∧ r.port < VHCI_PORTS n))) ∧
    (¬ (((r.speed = USB_SPEED_LOW ∨ r.speed = USB_SPEED_FULL ∨ r.speed = USB_SPEED_HIGH
            ∨ r.speed = USB_SPEED_WIRELESS) ∧ r.port < n)
          ∨ (r.speed = USB_SPEED_SUPER ∧ n ≤ r.port ∧ r.port < VHCI_PORTS n)) →
      ∀ (lk' : Nat → Option Nat) (v' : vhci),
        attach_store n lk' v' (some r) count = (-EINVAL, v', [])) := by
  have key : ∀ hub, speed_hub r.speed = some hub → in_subrange n hub r.port →
      (((r.speed = USB_SPEED_LOW ∨ r.speed = USB_SPEED_FULL ∨ r.speed = USB_SPEED_HIGH
            ∨ r.speed = USB_SPEED_WIRELESS) ∧ r.port < n)
          ∨ (r.speed = USB_SPEED_SUPER ∧ n ≤ r.port ∧ r.port < VHCI_PORTS n)) := by
    intro hub hs hp
    unfold speed_hub at hs
    by_cases h1 : r.speed = USB_SPEED_LOW ∨ r.speed = USB_SPEED_FULL
        ∨ r.speed = USB_SPEED_HIGH ∨ r.speed = USB_SPEED_WIRELESS
    · rw [if_pos h1] at hs
      cases hs
      exact Or.inl ⟨h1, hp⟩
    · rw [if_neg h1] at hs
      by_cases h2 : r.speed = USB_SPEED_SUPER
      · rw [if_pos h2] at hs
        cases hs
        exact Or.inr ⟨h2, hp⟩
      · rw [if_neg h2] at hs
        cases hs
  have inv : ¬ (((r.speed = USB_SPEED_LOW ∨ r.speed = USB_SPEED_FULL
            ∨ r.speed = USB_SPEED_HIGH ∨ r.speed = USB_SPEED_WIRELESS) ∧ r.port < n)
          ∨ (r.speed = USB_SPEED_SUPER ∧ n ≤ r.port ∧ r.port < VHCI_PORTS n)) →
      ∀ (lk' : Nat → Option Nat) (v' : vhci),
        attach_store n lk' v' (some r) count = (-EINVAL, v', []) := by
    intro hno lk' v'
    exact attach_store_invalid n lk' v' r count (fun hub hs hp => hno (key hub hs hp))
  refine ⟨⟨?_, fun hno => by rw [inv hno lk v]⟩, inv⟩
  intro hres hval
  have hex : ∃ hub, speed_hub r.speed = some hub ∧ in_subrange n hub r.port := by
    rcases hval with ⟨h1, hp⟩ | ⟨h2, hp⟩
    · exact ⟨hub_speed.HUB_SPEED_HIGH, by unfold speed_hub; rw [if_pos h1], hp⟩
    · refine ⟨hub_speed.HUB_SPEED_SUPER, ?_, hp⟩
      have h1 : ¬ (r.speed = USB_SPEED_LOW ∨ r.speed = USB_SPEED_FULL
          ∨ r.speed = USB_SPEED_HIGH ∨ r.speed = USB_SPEED_WIRELESS) := by
        rw [h2]; decide
      unfold speed_hub
      rw [if_neg h1, if_pos h2]
  obtain ⟨hub, hs, hp⟩ := hex
  rw [(attach_store_valid n lk v r count hub socket hs hp hfd).2] at hres
  split at hres
  · have hb : -EBUSY = -EINVAL := hres
    exact absurd hb (by decide)
  · have : (count : Int) = -EINVAL := hres
    unfold EINVAL at this
    omega

theorem attach_store_einval_iff_witness :
    fd_table_7 7 = some 100 ∧
    (attach_store 8 fd_table_7 vhci_init (some ⟨8, 7, 0xAB, 3⟩) 11).1 = -EINVAL ∧
    (attach_store 8 fd_table_7 vhci_init (some ⟨3, 7, 0xAB, 6⟩) 11).1 = -EINVAL :=
  ⟨by decide,
    (attach_store_einval_iff 8 fd_table_7 vhci_init ⟨8, 7, 0xAB, 3⟩ 11 100 (by decide)).1.2
      (by decide),
    (attach_store_einval_iff 8 fd_table_7 vhci_init ⟨3, 7, 0xAB, 6⟩ 11 100 (by decide)).1.2
      (by decide)⟩

/-- With the five speeds of the `switch`, each on the hub of its class, the
characterisation of `-EINVAL` holds for every request with the open
descriptor 7 on the table with 8 ports per hub, all NULL. -/
theorem attach_store_five_speeds_fit :
    ∃ (S : Finset Nat) (hub : Nat → hub_speed), S.card = 5 ∧
      ∀ r : attach_request, r.sockfd = 7 →
        ((attach_store 8 fd_table_7 vhci_init (some r) 11).1 = -EINVAL ↔
          (r.speed ∉ S ∨ ¬ in_subrange 8 (hub r.speed) r.port)) := by
  refine ⟨{1, 2, 3, 4, 5}, speed_class, by decide, ?_⟩
  intro r hfd
  have hlk : fd_table_7 r.sockfd = some 100 := by rw [hfd]; decide
  have hnull : (vhci_init.port 8 r.port).ud.status = usbip_device_status.VDEV_ST_NULL := by
    unfold vhci.port port_slot
    split <;> rfl
  have hclass : ∀ hub, speed_hub r.speed = some hub →
      r.speed ∈ ({1, 2, 3, 4, 5} : Finset Nat) ∧ hub = speed_class r.speed := by
    intro hub hs
    unfold speed_hub at hs
    simp only [USB_SPEED_LOW, USB_SPEED_FULL, USB_SPEED_HIGH, USB_SPEED_WIRELESS,
      USB_SPEED_SUPER] at hs
    simp only [speed_class, USB_SPEED_SUPER, Finset.mem_insert, Finset.mem_singleton]
    split at hs
    · rename_i h1
      cases hs
      refine ⟨by omega, ?_⟩
      have : ¬ r.speed = 5 := by omega
      rw [if_neg this]
    · split at hs
      · rename_i h2
        cases hs
        exact ⟨by omega, by rw [if_pos h2]⟩
      · cases hs
  have hmem : r.speed ∈ ({1, 2, 3, 4, 5} : Finset Nat) →
      speed_hub r.speed = some (speed_class r.speed) := by
    intro hm
    simp only [Finset.mem_insert, Finset.mem_singleton] at hm
    rcases hm with h | h | h | h | h <;> rw [h] <;> decide
  constructor
  · intro hres
    by_contra hcon
    have hcon' : r.speed ∈ ({1, 2, 3, 4, 5} : Finset Nat) ∧
        in_subrange 8 (speed_class r.speed) r.port := by
      constructor
      · by_contra h; exact hcon (Or.inl h)
      · by_contra h; exact hcon (Or.inr h)
    rw [(attach_store_valid 8 fd_table_7 vhci_init r 11 (speed_class r.speed) 100
      (hmem hcon'.1) hcon'.2 hlk).2, if_neg (fun h => h hnull)] at hres
    have h11 : ((11 : Nat) : Int) = -EINVAL := hres
    exact absurd h11 (by decide)
  · intro hbad
    rw [attach_store_invalid 8 fd_table_7 vhci_init r 11]
    intro hub hs hp
    obtain ⟨hm, rfl⟩ := hclass hub hs
    rcases hbad with h | h
    · exact h hm
    · exact h hp

/-- C3, counterexample to "the four recognised speed classes": whatever set
of four speeds is taken as the recognised ones, and whatever hub class each
speed is given, "for every request with a valid connection id, `-EINVAL`
exactly when the speed is not in the set or the port is outside its hub's
sub-range" fails on the table with 8 ports per hub, all NULL, with the open
descriptor 7, because the five requests (port 0, speed 1 Low), (port 0,
speed 2 Full), (port 0, speed 3 High), (port 0, speed 4 Wireless) and (port
8, speed 5 Super) are all accepted. With five speeds the same statement
holds (`attach_store_five_speeds_fit`). -/
theorem attach_store_not_four_speeds :
    ¬ ∃ (S : Finset Nat) (hub : Nat → hub_speed), S.card = 4 ∧
      ∀ r : attach_request, r.sockfd = 7 →
        ((attach_store 8 fd_table_7 vhci_init (some r) 11).1 = -EINVAL ↔
          (r.speed ∉ S ∨ ¬ in_subrange 8 (hub r.speed) r.port)) := by
  rintro ⟨S, hub, hcard, h⟩
  have acc : ∀ r : attach_request, r.sockfd = 7 →
      (attach_store 8 fd_table_7 vhci_init (some r) 11).1 ≠ -EINVAL → r.speed ∈ S := by
    intro r hfd hr
    by_contra hn
    exact hr ((h r hfd).2 (Or.inl hn))
  have h1 : 1 ∈ S := acc ⟨0, 7, 0xAB, 1⟩ rfl (by decide)
  have h2 : 2 ∈ S := acc ⟨0, 7, 0xAB, 2⟩ rfl (by decide)
  have h3 : 3 ∈ S := acc ⟨0, 7, 0xAB, 3⟩ rfl (by decide)
  have h4 : 4 ∈ S := acc ⟨0, 7, 0xAB, 4⟩ rfl (by decide)
  have h5 : 5 ∈ S := acc ⟨8, 7, 0xAB, 5⟩ rfl (by decide)
  have hsub : ({1, 2, 3, 4, 5} : Finset Nat) ⊆ S := by
    intro x hx
    simp only [Finset.mem_insert, Finset.mem_singleton] at hx
    rcases hx with rfl | rfl | rfl | rfl | rfl <;> assumption
  have hle := Finset.card_le_card hsub
  have h5c : ({1, 2, 3, 4, 5} : Finset Nat).card = 5 := by decide
  omega

/-! ## Detach -/

/-- C4: `detach_store` returns the table it received (no field of any port
changes, whatever the input); when it succeeds (result = byte count) it has
posted exactly one event, `VDEV_EVENT_DOWN`, to the slot of the requested
port (High-speed slot `p` below `VHCI_HC_PORTS`, Super-speed slot
`p - VHCI_HC_PORTS` otherwise); when it fails (`-EINVAL`) it has posted
nothing; and on a port whose state is NULL it fails and changes nothing. -/
theorem detach_store_frame (n : Nat) (v : vhci) (parsed : Option Int) (count : Nat) :
    (detach_store n v parsed count).2.1 = v ∧
    (((detach_store n v parsed count).1 = (count : Int) ∧
        ∃ m, parsed = some m ∧ (detach_store n v parsed count).2.2 =
          [vhci_effect.usbip_event_add (port_slot n (u32_of_int m)).1
            (port_slot n (u32_of_int m)).2 usbip_event.VDEV_EVENT_DOWN]) ∨
      ((detach_store n v parsed count).1 = -EINVAL ∧
        (detach_store n v parsed count).2.2 = [])) ∧
    (∀ m, parsed = some m →
      (v.port n (u32_of_int m)).ud.status = usbip_device_status.VDEV_ST_NULL →
      detach_store n v parsed count = (-EINVAL, v, [])) := by
  cases parsed with
  | none => exact ⟨rfl, Or.inr ⟨rfl, rfl⟩, fun m hm => by cases hm⟩
  | some m =>
    rw [detach_store_some]
    by_cases hc : u32_of_int m < VHCI_PORTS n ∧
        (v.port n (u32_of_int m)).ud.status ≠ usbip_device_status.VDEV_ST_NULL
    · rw [if_pos hc]
      refine ⟨rfl, Or.inl ⟨rfl, m, rfl, rfl⟩, ?_⟩
      intro m' hm' hst
      cases hm'
      exact absurd hst hc.2
    · rw [if_neg hc]
      exact ⟨rfl, Or.inr ⟨rfl, rfl⟩, fun _ _ _ => rfl⟩

/-- C5 (as amended): `detach_store` has two results only. It fails with
`-EINVAL` exactly when the port text is malformed, or the port is outside
`0 ≤ port < VHCI_PORTS`, or the port is in range and its state is NULL; it
returns the byte count exactly when the port is in range and its state is
not NULL. (`int_ok`: the number read by `kstrtoint` is an `int`.) -/
theorem detach_store_result (n : Nat) (v : vhci) (parsed : Option Int) (count : Nat)
    (hn : (VHCI_PORTS n : Int) ≤ 2 ^ 31)
    (int_ok : ∀ m, parsed = some m → -(2 ^ 31 : Int) ≤ m ∧ m < 2 ^ 31) :
    ((detach_store n v parsed count).1 = -EINVAL ↔
      (parsed = none ∨ ∃ m, parsed = some m ∧
        (m < 0 ∨ (VHCI_PORTS n : Int) ≤ m ∨
          (0 ≤ m ∧ m < VHCI_PORTS n ∧
            (v.port n m.toNat).ud.status = usbip_device_status.VDEV_ST_NULL)))) ∧
    ((detach_store n v parsed count).1 = (count : Int) ↔
      ∃ m, parsed = some m ∧ 0 ≤ m ∧ m < VHCI_PORTS n ∧
        (v.port n m.toNat).ud.status ≠ usbip_device_status.VDEV_ST_NULL) ∧
    ((detach_store n v parsed count).1 = -EINVAL ∨
      (detach_store n v parsed count).1 = (count : Int)) := by
  have hcount : (count : Int) ≠ -EINVAL := by unfold EINVAL; omega
  cases parsed with
  | none =>
    refine ⟨⟨fun _ => Or.inl rfl, fun _ => rfl⟩, ⟨fun h => ?_, fun h => ?_⟩, Or.inl rfl⟩
    · exact absurd h.symm hcount
    · obtain ⟨m, hm, _⟩ := h
      cases hm
  | some m =>
    obtain ⟨hlo, hhi⟩ := int_ok m rfl
    have hu : (m < 0 → VHCI_PORTS n ≤ u32_of_int m) ∧ (0 ≤ m → u32_of_int m = m.toNat) := by
      unfold u32_of_int
      constructor <;> intro _ <;> omega
    rw [detach_store_some]
    by_cases hc : u32_of_int m < VHCI_PORTS n ∧
        (v.port n (u32_of_int m)).ud.status ≠ usbip_device_status.VDEV_ST_NULL
    · rw [if_pos hc]
      have hpos : 0 ≤ m := by
        by_contra hneg
        have := hu.1 (by omega)
        omega
      have heq := hu.2 hpos
      rw [heq] at hc
      refine ⟨⟨fun h => absurd h hcount, ?_⟩, ⟨fun _ => ⟨m, rfl, hpos, by omega, hc.2⟩,
        fun _ => rfl⟩, Or.inr rfl⟩
      rintro (h | ⟨m', hm', h⟩)
      · cases h
      · cases hm'
        rcases h with h | h | ⟨_, _, h⟩
        · omega
        · omega
        · exact absurd h hc.2
    · rw [if_neg hc]
      refine ⟨⟨fun _ => Or.inr ⟨m, rfl, ?_⟩, fun _ => rfl⟩, ⟨fun h => absurd h.symm hcount, ?_⟩,
        Or.inl rfl⟩
      · by_cases hneg : m < 0
        · exact Or.inl hneg
        · have hpos : 0 ≤ m := by omega
          have heq := hu.2 hpos
          rw [heq] at hc
          by_cases hge : (VHCI_PORTS n : Int) ≤ m
          · exact Or.inr (Or.inl hge)
          · refine Or.inr (Or.inr ⟨hpos, by omega, ?_⟩)
            by_contra hst
            exact hc ⟨by omega, hst⟩
      · rintro ⟨m', hm', hpos, hlt, hst⟩
        cases hm'
        have heq := hu.2 hpos
        rw [heq] at hc
        exact (hc ⟨by omega, hst⟩).elim

theorem detach_store_result_witness :
    ((VHCI_PORTS 8 : Nat) : Int) ≤ 2 ^ 31 ∧
    (detach_store 8 (attach_store 8 fd_table_7 vhci_init (some ⟨3, 7, 0xAB, 3⟩) 11).2.1
      (some 3) 2).1 = 2 ∧
    (detach_store 8 vhci_init (some 3) 2).1 = -EINVAL :=
  ⟨by decide,
    (detach_store_result 8 (attach_store 8 fd_table_7 vhci_init (some ⟨3, 7, 0xAB, 3⟩) 11).2.1
      (some 3) 2 (by decide) (by intro m hm; cases hm; decide)).2.1.2
        ⟨3, rfl, by decide, by decide, by decide⟩,
    (detach_store_result 8 vhci_init (some 3) 2 (by decide)
      (by intro m hm; cases hm; decide)).1.2
        (Or.inr ⟨3, rfl, Or.inr (Or.inr ⟨by decide, by decide, by decide⟩)⟩)⟩

/-- C5, counterexample to "InvalidArgument and NotConnected are distinct":
with 8 ports per hub and every port NULL, detaching port 3 (in range, not
connected), detaching port 99 (out of range) and a malformed port text give
the same result `-EINVAL`, and none of them posts an event. -/
theorem detach_store_not_connected_is_einval :
    (detach_store 8 vhci_init (some 3) 2).1 = -EINVAL ∧
    (detach_store 8 vhci_init (some 99) 2).1 = -EINVAL ∧
    (detach_store 8 vhci_init none 2).1 = -EINVAL ∧
    (detach_store 8 vhci_init (some 3) 2).1 = (detach_store 8 vhci_init (some 99) 2).1 ∧
    (detach_store 8 vhci_init (some 3) 2).1 = (detach_store 8 vhci_init none 2).1 ∧
    (detach_store 8 vhci_init (some 3) 2).2.2 = (detach_store 8 vhci_init none 2).2.2 := by
  decide

/-! ## Status -/

/-- C7: the status output is the header line followed by the lines of the
ports `0 .. VHCI_PORTS-1`, in increasing order of port number, one line per
port: there are `VHCI_PORTS` of them, the lines of the ports below
`VHCI_HC_PORTS` carry the tag `hs` and the state of the High-speed slot of
that number, those from `VHCI_HC_PORTS` on carry the tag `ss` and the state of
Super-speed slot `port - VHCI_HC_PORTS`; `nports_show` prints `VHCI_PORTS`,
the number of those lines, for every table. -/
theorem status_show_lines (n : Nat) (v : vhci) :
    status_show n v
      = status_header ++ String.join ((List.range (VHCI_PORTS n)).map (status_line n v)) ∧
    ((List.range (VHCI_PORTS n)).map (status_line n v)).length = VHCI_PORTS n ∧
    (∀ p, p < n → status_line n v p =
      "hs  " ++ sprintf_num 10 4 p ++ " "
        ++ sprintf_num 10 3 (v.vhci_hcd_hs.vdev p).ud.status.code ++ " "
        ++ (if (v.vhci_hcd_hs.vdev p).ud.status = usbip_device_status.VDEV_ST_USED then
              sprintf_num 10 3 (v.vhci_hcd_hs.vdev p).speed ++ " "
                ++ sprintf_num 16 8 (v.vhci_hcd_hs.vdev p).devid ++ " "
                ++ sprintf_num 10 6 (v.vhci_hcd_hs.vdev p).ud.sockfd ++ " "
                ++ dev_name (v.vhci_hcd_hs.vdev p).udev
            else "000 00000000 000000 0-0")
        ++ "\n") ∧
    (∀ p, n ≤ p → p < VHCI_PORTS n → status_line n v p =
      "ss  " ++ sprintf_num 10 4 p ++ " "
        ++ sprintf_num 10 3 (v.vhci_hcd_ss.vdev (p - n)).ud.status.code ++ " "
        ++ (if (v.vhci_hcd_ss.vdev (p - n)).ud.status = usbip_device_status.VDEV_ST_USED then
              sprintf_num 10 3 (v.vhci_hcd_ss.vdev (p - n)).speed ++ " "
                ++ sprintf_num 16 8 (v.vhci_hcd_ss.vdev (p - n)).devid ++ " "
                ++ sprintf_num 10 6 (v.vhci_hcd_ss.vdev (p - n)).ud.sockfd ++ " "
                ++ dev_name (v.vhci_hcd_ss.vdev (p - n)).udev
            else "000 00000000 000000 0-0")
        ++ "\n") ∧
    (∀ v' : vhci, nports_show n v' = sprintf_num 10 0 (VHCI_PORTS n) ++ "\n") := by
  refine ⟨status_show_eq_lines n v, by simp, ?_, ?_, fun _ => rfl⟩
  · intro p hp
    simp only [status_line, vhci.port, port_slot, hp, if_true, vhci.get, port_show_vhci,
      String.empty_append]
    split
    · simp only [String.append_assoc]
    · simp only [String.append_assoc]
      rfl
  · intro p hp _
    have hp' : ¬ p < n := by omega
    simp only [status_line, vhci.port, port_slot, hp', if_false, vhci.get, port_show_vhci,
      String.empty_append]
    have hne : ¬ (hub_speed.HUB_SPEED_SUPER = hub_speed.HUB_SPEED_HIGH) := by decide
    simp only [hne, if_false]
    split
    · simp only [String.append_assoc]
    · simp only [String.append_assoc]
      rfl

/-- C6 (as amended): after an accepted attach request (port `p`, descriptor
`c`, device id `d`, speed `s`) the line of port `p` in the status output
shows state NOTASSIGNED (005) with the speed, device id and descriptor
fields all zero and the bus id `0-0`; once the port is USED (006) with the
fields that attach stored, the line shows the speed `s`, the device id `d` in
hexadecimal padded to 8 digits (exactly 8 for a 32-bit device id), the
descriptor `c` in decimal padded to 6 digits (exactly 6 below 1000000) and
the device name. In both cases the line is entry `p` of the list of lines
that follows the header. -/
theorem attach_then_status (n : Nat) (lk : Nat → Option Nat) (v : vhci) (r : attach_request)
    (count : Nat) (hacc : (attach_store n lk v (some r) count).1 = (count : Int)) :
    status_line n (attach_store n lk v (some r) count).2.1 r.port =
      (if r.port < n then "hs  " else "ss  ") ++ sprintf_num 10 4 r.port
        ++ " 005 000 00000000 000000 0-0\n" ∧
    (∀ (w : vhci) (name : String),
      w.port n r.port =
        { (attach_store n lk v (some r) count).2.1.port n r.port with
          udev := some name
          ud := { ((attach_store n lk v (some r) count).2.1.port n r.port).ud with
            status := usbip_device_status.VDEV_ST_USED } } →
      status_line n w r.port =
        (if r.port < n then "hs  " else "ss  ") ++ sprintf_num 10 4 r.port ++ " 006 "
          ++ sprintf_num 10 3 r.speed ++ " " ++ sprintf_num 16 8 r.devid ++ " "
          ++ sprintf_num 10 6 r.sockfd ++ " " ++ name ++ "\n") ∧
    (∀ w : vhci,
      status_show n w
        = status_header ++ String.join ((List.range (VHCI_PORTS n)).map (status_line n w)) ∧
      ((List.range (VHCI_PORTS n)).map (status_line n w))[r.port]?
        = some (status_line n w r.port)) ∧
    (r.devid < 2 ^ 32 → (sprintf_num 16 8 r.devid).length = 8) ∧
    (r.sockfd < 10 ^ 6 → (sprintf_num 10 6 r.sockfd).length = 6) := by
  obtain ⟨hub, socket, hs, hp, hfd, hst⟩ := attach_store_accepted n lk v r count hacc
  obtain ⟨hslot, heq⟩ := attach_store_valid n lk v r count hub socket hs hp hfd
  have hst' : ¬ (v.port n r.port).ud.status ≠ usbip_device_status.VDEV_ST_NULL :=
    fun h => h hst
  rw [heq, if_neg hst']
  have hget : ∀ d, ((v.set hub (port_slot n r.port).2 d).port n r.port) = d := by
    intro d
    unfold vhci.port
    rw [hslot]
    exact get_set_same v hub _ d
  have hrange : r.port < VHCI_PORTS n := by
    cases hub with
    | HUB_SPEED_HIGH =>
      have : r.port < n := hp
      unfold VHCI_PORTS
      omega
    | HUB_SPEED_SUPER => exact hp.2
  refine ⟨?_, ?_, ?_, ?_, ?_⟩
  · rw [status_line_eq]
    simp only [hget]
    have hnu : ¬ (usbip_device_status.VDEV_ST_NOTASSIGNED = usbip_device_status.VDEV_ST_USED) := by
      decide
    simp only [hnu, if_false, String.append_assoc]
    rfl
  · intro w name hw
    rw [status_line_eq, hw]
    simp only [hget, if_true, String.append_assoc, dev_name, Option.getD_some]
    rfl
  · intro w
    refine ⟨status_show_eq_lines n w, ?_⟩
    rw [List.getElem?_map, List.getElem?_range hrange]
    rfl
  · intro hd
    exact sprintf_num_length 16 8 r.devid (by decide) (by decide) (by simpa using hd)
  · intro hc
    exact sprintf_num_length 10 6 r.sockfd (by decide) (by decide) (by simpa using hc)

theorem attach_then_status_witness :
    (attach_store 8 fd_table_7 vhci_init (some ⟨3, 7, 0xAB, 3⟩) 11).1 = 11 ∧
    status_line 8
        ((attach_store 8 fd_table_7 vhci_init (some ⟨3, 7, 0xAB, 3⟩) 11).2.1.set
          hub_speed.HUB_SPEED_HIGH 3
          { udev := some "1-2.3", devid := 0xAB, speed := 3,
            ud := { status := usbip_device_status.VDEV_ST_USED, sockfd := 7,
                    tcp_socket := some 100 } }) 3
      = "hs  0003 006 003 000000ab 000007 1-2.3\n" :=
  ⟨by decide,
    ((attach_then_status 8 fd_table_7 vhci_init ⟨3, 7, 0xAB, 3⟩ 11 (by decide)).2.1
      ((attach_store 8 fd_table_7 vhci_init (some ⟨3, 7, 0xAB, 3⟩) 11).2.1.set
          hub_speed.HUB_SPEED_HIGH 3
          { udev := some "1-2.3", devid := 0xAB, speed := 3,
            ud := { status := usbip_device_status.VDEV_ST_USED, sockfd := 7,
                    tcp_socket := some 100 } })
      "1-2.3" (by decide)).trans (by decide)⟩

set_option maxRecDepth 20000 in
/-- C6, counterexample: on the table with 8 ports per hub, all NULL, the
request attach(port=3, connId=7, deviceId=0xAB, speed=HIGH) is accepted and
leaves port 3 NOTASSIGNED holding device id 0xAB and descriptor 7, yet the
status read that follows shows for port 3 the device id `00000000` and the
descriptor `000000`, not `000000ab` and `000007`. -/
theorem status_hides_notassigned_fields :
    (attach_store 8 fd_table_7 vhci_init (some ⟨3, 7, 0xAB, 3⟩) 11).1 = 11 ∧
    ((attach_store 8 fd_table_7 vhci_init (some ⟨3, 7, 0xAB, 3⟩) 11).2.1.port 8 3).ud.status
      = usbip_device_status.VDEV_ST_NOTASSIGNED ∧
    ((attach_store 8 fd_table_7 vhci_init (some ⟨3, 7, 0xAB, 3⟩) 11).2.1.port 8 3).devid
      = 0xAB ∧
    status_line 8 (attach_store 8 fd_table_7 vhci_init (some ⟨3, 7, 0xAB, 3⟩) 11).2.1 3
      = "hs  0003 005 000 00000000 000000 0-0\n" ∧
    status_show 2 (attach_store 2 fd_table_7 vhci_init (some ⟨1, 7, 0xAB, 3⟩) 11).2.1
      = "hub port sta spd dev      sockfd local_busid\n"
        ++ "hs  0000 004 000 00000000 000000 0-0\n"
        ++ "hs  0001 005 000 00000000 000000 0-0\n"
        ++ "ss  0002 004 000 00000000 000000 0-0\n"
        ++ "ss  0003 004 000 00000000 000000 0-0\n" := by
  decide

/-! ## The port invariant -/

/-- C8: from a table in which every port is NULL with no connection and
device id 0, any finite sequence of `attach_store` and `detach_store` calls,
accepted or rejected, with any arguments, leads to a table in which every
slot of both hubs satisfies: state NULL if and only if no connection is bound
and the device id is 0. -/
theorem port_invariant_reachable (n : Nat) (v0 : vhci) (ws : List sysfs_write)
    (h0 : ∀ hub i, (v0.get hub i).ud.status = usbip_device_status.VDEV_ST_NULL ∧
      (v0.get hub i).ud.tcp_socket = none ∧ (v0.get hub i).devid = 0) :
    ∀ hub i, port_invariant ((run_writes n v0 ws).get hub i) := by
  have hinv0 : ∀ hub i, port_invariant (v0.get hub i) := by
    intro hub i
    obtain ⟨h1, h2, h3⟩ := h0 hub i
    exact ⟨fun _ => ⟨h2, h3⟩, fun _ => h1⟩
  clear h0
  unfold run_writes
  induction ws generalizing v0 with
  | nil => exact hinv0
  | cons w ws ih =>
    rw [List.foldl_cons]
    exact ih (w.apply n v0) (apply_keeps_invariant n v0 w hinv0)

theorem port_invariant_reachable_witness :
    (∀ hub i, (vhci_init.get hub i).ud.status = usbip_device_status.VDEV_ST_NULL ∧
      (vhci_init.get hub i).ud.tcp_socket = none ∧ (vhci_init.get hub i).devid = 0) ∧
    port_invariant ((run_writes 8 vhci_init
      [sysfs_write.attach fd_table_7 (some ⟨3, 7, 0, 3⟩) 10,
       sysfs_write.detach (some 3) 2,
       sysfs_write.attach fd_table_7 (some ⟨3, 7, 0xAB, 3⟩) 11,
       sysfs_write.detach (some 4) 2]).get hub_speed.HUB_SPEED_HIGH 3) ∧
    ((run_writes 8 vhci_init
      [sysfs_write.attach fd_table_7 (some ⟨3, 7, 0, 3⟩) 10,
       sysfs_write.detach (some 3) 2,
       sysfs_write.attach fd_table_7 (some ⟨3, 7, 0xAB, 3⟩) 11,
       sysfs_write.detach (some 4) 2]).get hub_speed.HUB_SPEED_HIGH 3).ud.status
      = usbip_device_status.VDEV_ST_NOTASSIGNED :=
  ⟨fun hub i => by cases hub <;> exact ⟨rfl, rfl, rfl⟩,
    port_invariant_reachable 8 vhci_init _
      (fun hub i => by cases hub <;> exact ⟨rfl, rfl, rfl⟩) hub_speed.HUB_SPEED_HIGH 3,
    by decide⟩

/-! ## The attach coordinator -/

/-- C9: whatever the library answers, the calls of `import_device` are in
order (`next_call`): the controllers are opened in enumeration order, one
that cannot be opened is skipped, an open one is left for the next when no
port is free or an attach fails otherwise than with `EBUSY`, and is asked
again after `EBUSY`. When `import_device` returns, its result is non-negative
exactly when some attach succeeded; then the calls end with that attach, no
earlier attach succeeded, and it hands back the index of the controller the
attach was made on, which is entry number "controllers opened before" of the
enumeration, and the port that the request for a free port just before the
attach returned. A negative result comes with every controller of the
enumeration visited and left: the last call is a close, or an open that
failed. `import_device` returns unless a retry loop is answered `EBUSY`
`fuel` times, for every `fuel`. The calls are calls to the library `L`: made
one after the other from the state `s`, each has the result `L` gives at that
point and they leave `L` in the state returned; the first one opens a
controller, and every free-port request and attach carries the connection and
the device of the import. -/
theorem import_device_first_success {σ : Type} (L : vhci_driver_lib σ) (sockfd : Int)
    (udev : usbip_usb_device) (fuel : Nat) (enumerate : Option (List String)) (s : σ)
    (r : Option import_result) (calls : List lib_call) (s' : σ)
    (h : import_device L sockfd udev fuel enumerate s = (r, calls, s')) :
    List.Chain' next_call calls ∧
    (calls.filterMap lib_call.opened_path <+: enumerate.getD []) ∧
    (r = none → fuel ≤ calls.countP lib_call.attach_busy) ∧
    (∀ res, r = some res →
      (0 ≤ res.rc ↔ ∃ c ∈ calls, c.attach_ok = true) ∧
      (res.rc < 0 → res.out = none ∧
        (enumerate ≠ none → calls.filterMap lib_call.opened_path = enumerate.getD []) ∧
        (∀ x ∈ calls.getLast?, x.leaves_controller)) ∧
      (0 ≤ res.rc → ∃ before path orc ix retries port errno,
        calls =
          before ++ (lib_call.open_path path orc :: lib_call.driver_ix ix :: retries) ++
            [lib_call.get_free_port udev.speed port,
             lib_call.attach_device (port.toNat % 256) sockfd (udev.busnum % 256)
              (udev.devnum % 256) udev.speed res.rc errno,
             lib_call.driver_close] ∧
        0 ≤ orc ∧ 0 ≤ port ∧
        (∀ c ∈ before ++ retries, c.attach_ok = false) ∧
        (∀ c ∈ retries, c.opened_path = none) ∧
        (enumerate.getD [])[(before.filterMap lib_call.opened_path).length]? = some path ∧
        res.out = some (ix, port))) ∧
    replay_calls L calls s = some s' ∧
    (∀ y ∈ calls.head?, ∃ path orc, y = lib_call.open_path path orc) ∧
    (∀ c ∈ calls, c.for_device sockfd udev) := by
  cases enumerate with
  | none =>
    simp only [import_device, Prod.mk.injEq] at h
    obtain ⟨rfl, rfl, rfl⟩ := h
    refine ⟨List.chain'_nil, by simp, by simp, ?_, rfl, by simp, by simp⟩
    intro res hres
    simp only [Option.some.injEq] at hres
    subst hres
    exact ⟨by simp, fun _ => ⟨rfl, fun hne => absurd rfl hne, by simp⟩,
      fun hpos => absurd hpos (by simp)⟩
  | some paths =>
    cases paths with
    | nil =>
      simp only [import_device, Prod.mk.injEq] at h
      obtain ⟨rfl, rfl, rfl⟩ := h
      refine ⟨List.chain'_nil, by simp, by simp, ?_, rfl, by simp, by simp⟩
      intro res hres
      simp only [Option.some.injEq] at hres
      subst hres
      exact ⟨by simp, fun _ => ⟨rfl, fun _ => by simp, by simp⟩,
        fun hpos => absurd hpos (by simp)⟩
    | cons path entries =>
      have hl : import_loop L sockfd udev fuel (path :: entries) (-1) s = (r, calls, s') := h
      obtain ⟨i1, i2, i3, i4, i5⟩ :=
        import_loop_calls L sockfd udev fuel (path :: entries) (-1) s (by decide)
      obtain ⟨k1, k2⟩ := import_loop_replay L sockfd udev fuel (path :: entries) (-1) s
      have k3 := import_loop_last L sockfd udev fuel (path :: entries) (-1) s
      rw [hl] at i1 i2 i3 i4 i5 k1 k2 k3
      dsimp only at i1 i2 i3 i4 i5 k1 k2 k3
      simp only [Option.getD_some]
      refine ⟨i1, i3, i4, ?_, k1, i2, k2⟩
      intro res hres
      obtain ⟨j1, j2⟩ := i5 res hres
      refine ⟨⟨?_, ?_⟩,
        fun hneg => ⟨(j1 hneg).1, fun _ => (j1 hneg).2.2, k3 res hres hneg⟩, ?_⟩
      · intro hpos
        obtain ⟨before, path', orc, ix, retries, port, errno, e1, _⟩ := j2 hpos
        refine ⟨lib_call.attach_device (port.toNat % 256) sockfd (udev.busnum % 256)
          (udev.devnum % 256) udev.speed res.rc errno, ?_, ?_⟩
        · rw [e1]; simp
        · simp only [lib_call.attach_ok, decide_eq_true_eq]
          exact hpos
      · rintro ⟨c, hc, hok⟩
        by_contra hneg
        have := (j1 (by omega)).2.1 c hc
        rw [this] at hok
        cases hok
      · intro hpos
        obtain ⟨before, path', orc, ix, retries, port, errno, e1, e2, e3, e4, e5, e6⟩ := j2 hpos
        refine ⟨before, path', orc, ix, retries, port, errno, e1, e2, e3, e4, e5, ?_, e6⟩
        have hfm : retries.filterMap lib_call.opened_path = [] := by
          rw [List.filterMap_eq_nil_iff]
          exact e5
        rw [e1] at i3
        simp only [List.filterMap_append, List.filterMap_cons, lib_call.opened_path, hfm,
          List.filterMap_nil, List.append_nil] at i3
        obtain ⟨t, ht⟩ := i3
        rw [← ht, List.append_assoc, List.getElem?_append_right (Nat.le_refl _)]
        simp

theorem import_device_first_success_witness :
    import_device demo_lib 7 ⟨1, 2, 3⟩ 3 (some ["vhci_hcd.0"]) race_demo_state
      = ((import_device demo_lib 7 ⟨1, 2, 3⟩ 3 (some ["vhci_hcd.0"]) race_demo_state).1,
         (import_device demo_lib 7 ⟨1, 2, 3⟩ 3 (some ["vhci_hcd.0"]) race_demo_state).2.1,
         (import_device demo_lib 7 ⟨1, 2, 3⟩ 3 (some ["vhci_hcd.0"]) race_demo_state).2.2) ∧
    (import_device demo_lib 7 ⟨1, 2, 3⟩ 3 (some ["vhci_hcd.0"]) race_demo_state).1
      = some { rc := 0, out := some (0, 1) } ∧
    (import_device demo_lib 7 ⟨1, 2, 3⟩ 3 (some ["vhci_hcd.0"]) race_demo_state).2.1
      = [lib_call.open_path "vhci_hcd.0" 0, lib_call.driver_ix 0,
         lib_call.get_free_port 3 0, lib_call.attach_device 0 7 1 2 3 (-1) 16,
         lib_call.refresh_device_list,
         lib_call.get_free_port 3 1, lib_call.attach_device 1 7 1 2 3 0 0,
         lib_call.driver_close] ∧
    List.Chain' next_call
      (import_device demo_lib 7 ⟨1, 2, 3⟩ 3 (some ["vhci_hcd.0"]) race_demo_state).2.1 :=
  ⟨rfl, by decide, by decide,
    (import_device_first_success demo_lib 7 ⟨1, 2, 3⟩ 3 (some ["vhci_hcd.0"]) race_demo_state
      _ _ _ rfl).1⟩

/-- C10 (as amended): in every retry loop, whatever the library answers, the
calls are calls to the library, each with the result the library gives at
that point, for the device of the import; the loop begins with a request for
a free port, and no call opens or closes a controller; an attach that fails
with `EBUSY` is directly followed by a refresh, and the refresh by a new
request for a free port, also in the calls of a run of `import_device` that
returns; the loop has no bound of its own: it is still running after `fuel`
rounds only if it was answered `EBUSY` `fuel` times, and when it is left the
last call is a request for a free port answered "none", or an attach that
succeeded or failed otherwise than with `EBUSY`. On a
controller raced for by other attachers, where no port is released meanwhile
(the others only write to the attach and detach attributes) and every
refresh reads the table as it is, with at most 256 ports and a snapshot taken
of the controller at some earlier time, the loop is left within
`VHCI_HC_PORTS + 1` rounds; the ports it tries to attach are pairwise
different and all in the sub-range of the speed's hub class, so that it makes
at most one attach attempt per port of that sub-range, `VHCI_HC_PORTS` at
most. -/
theorem attach_retry_bounded (n : Nat) (lk : Nat → Option Nat) (gd : Nat → Nat → Nat)
    (count : Nat) (sockfd : Int) (udev : usbip_usb_device) (rc : Int) (s : race_state)
    (v0 : vhci) (fuel : Nat)
    (hn : VHCI_PORTS n ≤ 256) (hidev : s.idev = snapshot n v0) (hfuel : n + 1 ≤ fuel) :
    (∃ port rc', (attach_retry (race_lib n lk gd count) sockfd udev fuel rc s).1
      = some (port, rc')) ∧
    ((attach_retry (race_lib n lk gd count) sockfd udev fuel rc s).2.1.filterMap
      lib_call.attach_port).Nodup ∧
    (∀ p ∈ (attach_retry (race_lib n lk gd count) sockfd udev fuel rc s).2.1.filterMap
      lib_call.attach_port, in_subrange n (speed_class udev.speed) p) ∧
    ((attach_retry (race_lib n lk gd count) sockfd udev fuel rc s).2.1.filterMap
      lib_call.attach_port).length ≤ n ∧
    (∀ (σ : Type) (L : vhci_driver_lib σ) (fuel' : Nat) (rc' : Int) (s' : σ),
      List.Chain' next_call (attach_retry L sockfd udev fuel' rc' s').2.1 ∧
      (∀ c ∈ (attach_retry L sockfd udev fuel' rc' s').2.1, c.opened_path = none) ∧
      (∀ c ∈ (attach_retry L sockfd udev fuel' rc' s').2.1, c.keeps_controller) ∧
      (∀ y ∈ (attach_retry L sockfd udev fuel' rc' s').2.1.head?,
        ∃ p, y = lib_call.get_free_port udev.speed p) ∧
      replay_calls L (attach_retry L sockfd udev fuel' rc' s').2.1 s'
        = some (attach_retry L sockfd udev fuel' rc' s').2.2 ∧
      (∀ c ∈ (attach_retry L sockfd udev fuel' rc' s').2.1, c.for_device sockfd udev) ∧
      (∀ (i : Nat) (c : lib_call),
        (attach_retry L sockfd udev fuel' rc' s').2.1[i]? = some c → c.attach_busy = true →
        (attach_retry L sockfd udev fuel' rc' s').2.1[i + 1]?
          = some lib_call.refresh_device_list ∧
        ((attach_retry L sockfd udev fuel' rc' s').1 ≠ none →
          ∃ p, (attach_retry L sockfd udev fuel' rc' s').2.1[i + 2]?
            = some (lib_call.get_free_port udev.speed p))) ∧
      ((attach_retry L sockfd udev fuel' rc' s').1 = none →
        fuel' ≤ (attach_retry L sockfd udev fuel' rc' s').2.1.countP lib_call.attach_busy) ∧
      (∀ port rc'', (attach_retry L sockfd udev fuel' rc' s').1 = some (port, rc'') →
        ∃ pre, (∀ c ∈ pre, c.attach_ok = false) ∧ (∀ c ∈ pre, c.opened_path = none) ∧
          ((port < 0 ∧ (rc' < 0 → rc'' < 0) ∧
              (attach_retry L sockfd udev fuel' rc' s').2.1
                = pre ++ [lib_call.get_free_port udev.speed port]) ∨
           (0 ≤ port ∧ ∃ errno, (0 ≤ rc'' ∨ errno ≠ EBUSY) ∧
              (attach_retry L sockfd udev fuel' rc' s').2.1
                = pre ++ [lib_call.get_free_port udev.speed port,
                    lib_call.attach_device (port.toNat % 256) sockfd (udev.busnum % 256)
                      (udev.devnum % 256) udev.speed rc'' errno])))) ∧
    (∀ (σ : Type) (L : vhci_driver_lib σ) (fuel' : Nat) (enumerate : Option (List String))
      (s' : σ) (a : List lib_call) (c : lib_call) (b : List lib_call),
      (import_device L sockfd udev fuel' enumerate s').1 ≠ none →
      (import_device L sockfd udev fuel' enumerate s').2.1 = a ++ c :: b →
      c.attach_busy = true →
      ∃ p b', b = lib_call.refresh_device_list :: lib_call.get_free_port udev.speed p :: b')
    := by
  obtain ⟨h1, h2, h3⟩ := attach_retry_race n lk gd count sockfd udev hn fuel rc s v0 []
    hidev List.nodup_nil (by simp) (by simp) (by simp) (by simpa using hfuel)
  rw [List.append_nil] at h2
  refine ⟨?_, h2, h3, subrange_length_le n _ _ h2 h3, ?_, ?_⟩
  · cases hr : (attach_retry (race_lib n lk gd count) sockfd udev fuel rc s).1 with
    | none => exact absurd hr h1
    | some pr => exact ⟨pr.1, pr.2, rfl⟩
  · intro σ L fuel' rc' s'
    obtain ⟨r1, r2, r3, r4, r5⟩ := attach_retry_calls L sockfd udev fuel' rc' s'
    obtain ⟨p1, p2⟩ := attach_retry_replay L sockfd udev fuel' rc' s'
    obtain ⟨q1, q2⟩ := attach_retry_rounds L sockfd udev fuel' rc' s'
    exact ⟨r1, r3, q1, r2, p1, p2, q2, r4, r5⟩
  · intro σ L fuel' enumerate s' a c b hret hdec hbusy
    cases enumerate with
    | none =>
      have hnil : ([] : List lib_call) = a ++ c :: b := hdec
      simp at hnil
    | some paths =>
      cases paths with
      | nil =>
        have hnil : ([] : List lib_call) = a ++ c :: b := hdec
        simp at hnil
      | cons path entries =>
        exact import_loop_retry L sockfd udev fuel' (path :: entries) (-1) s' (by decide)
          hret a c b hdec hbusy

theorem attach_retry_bounded_witness :
    VHCI_PORTS 2 ≤ 256 ∧ race_demo_state.idev = snapshot 2 vhci_init ∧
    (attach_retry (race_lib 2 fd_table_7 demo_get_devid 12) 7 ⟨1, 2, 3⟩ 3 (-1)
      race_demo_state).1 = some (1, 0) ∧
    ((attach_retry (race_lib 2 fd_table_7 demo_get_devid 12) 7 ⟨1, 2, 3⟩ 3 (-1)
      race_demo_state).2.1.filterMap lib_call.attach_port) = [0, 1] ∧
    ((attach_retry (race_lib 2 fd_table_7 demo_get_devid 12) 7 ⟨1, 2, 3⟩ 3 (-1)
      race_demo_state).2.1.filterMap lib_call.attach_port).length ≤ 2 :=
  ⟨by decide, rfl, by decide, by decide,
    (attach_retry_bounded 2 fd_table_7 demo_get_devid 12 7 ⟨1, 2, 3⟩ (-1) race_demo_state
      vhci_init 3 (by decide) rfl (by decide)).2.2.2.1⟩

/-- C10, counterexample to "for every controller this retry loop
terminates": on a controller with 2 ports per hub, all NULL at first, another
attacher has taken port 0 by the time of each attach of this one, and the
port is released again by the time of each refresh. Every round asks for a
free port, gets port 0, is answered `EBUSY`, refreshes and starts again: no
number of rounds ends the loop, and after `fuel` rounds port 0 was tried
`fuel` times. -/
theorem attach_retry_churn_never_ends :
    (¬ ∃ fuel : Nat,
      (attach_retry demo_churn_lib 7 ⟨1, 2, 3⟩ fuel (-1) idle_state).1 ≠ none) ∧
    ∀ fuel : Nat,
      (attach_retry demo_churn_lib 7 ⟨1, 2, 3⟩ fuel (-1) idle_state).2.1.filterMap
        lib_call.attach_port = List.replicate fuel 0 := by
  have h0 : get_free_port idle_state.idev 3 = 0 := by decide
  refine ⟨?_, fun fuel => (attach_retry_churn_rounds fuel (-1) idle_state h0).2⟩
  rintro ⟨fuel, h⟩
  exact h (attach_retry_churn_rounds fuel (-1) idle_state h0).1

/-! ## The import exchange -/

/-- The function `strncmp` answers 0 exactly when the two C strings are the
same within `n` bytes. -/
theorem strncmp_eq_zero_iff (n : Nat) :
    ∀ a b : List Char, strncmp a b n = 0 ↔ c_string n a = c_string n b := by
  induction n with
  | zero => intro a b; simp [strncmp, c_string]
  | succ n ih =>
    intro a b
    have hdiff : ∀ x y : Char, x ≠ y → ((x.toNat : Int) - (y.toNat : Int)) ≠ 0 := by
      intro x y hxy h
      apply hxy
      have h2 : x.toNat = y.toNat := by omega
      exact Char.ext (UInt32.ext h2)
    cases a with
    | nil =>
      cases b with
      | nil => simp [strncmp, c_string]
      | cons y b =>
        by_cases hy : y = Char.ofNat 0
        · subst hy
          simp [strncmp, c_string]
        · have hne : (Char.ofNat 0) ≠ y := fun h => hy h.symm
          simp only [strncmp, List.headD_nil, List.headD_cons, hne, ne_eq, not_false_eq_true,
            if_true, c_string, List.takeWhile_nil, List.take_nil]
          constructor
          · intro h; exact absurd h (hdiff _ _ hne)
          · intro h
            simp [List.takeWhile_cons, hy] at h
    | cons x a =>
      cases b with
      | nil =>
        by_cases hx : x = Char.ofNat 0
        · subst hx
          simp [strncmp, c_string]
        · simp only [strncmp, List.headD_nil, List.headD_cons, hx, ne_eq, not_false_eq_true,
            if_true, c_string, List.takeWhile_nil, List.take_nil]
          constructor
          · intro h; exact absurd h (hdiff _ _ hx)
          · intro h
            simp [List.takeWhile_cons, hx] at h
      | cons y b =>
        by_cases hxy : x = y
        · subst hxy
          by_cases hx : x = Char.ofNat 0
          · subst hx
            simp [strncmp, c_string]
          · simp only [strncmp, List.headD_cons, ne_eq, not_true_eq_false, if_false, hx,
              List.tail_cons, ih a b, c_string, List.takeWhile_cons, decide_not,
              decide_False, Bool.not_false, if_true, List.take_succ_cons, List.cons.injEq,
              true_and]
        · simp only [strncmp, List.headD_cons, ne_eq, hxy, not_false_eq_true, if_true, c_string]
          constructor
          · intro h; exact absurd h (hdiff _ _ hxy)
          · intro h
            exfalso
            by_cases hx : x = Char.ofNat 0 <;> by_cases hy : y = Char.ofNat 0
            · exact hxy (hx.trans hy.symm)
            · simp [List.takeWhile_cons, hx, hy] at h
            · simp [List.takeWhile_cons, hx, hy] at h
            · simp [List.takeWhile_cons, hx, hy] at h
              exact hxy h.1

/-- The function `query_import_device` after the four steps of the
exchange, as one equation per way out. -/
theorem query_import_device_eq {σ : Type} (S : usbip_sys_lib σ) (L : vhci_driver_lib σ)
    (fuel : Nat) (enumerate : Option (List String)) (sockfd : Int) (busid : String) (s : σ)
    (rc1 : Int) (s1 : σ) (rc2 : Int) (s2 : σ) (rc3 status : Int) (s3 : σ) (rc4 : Int)
    (reply : op_import_reply) (s4 : σ)
    (h1 : S.usbip_net_send_op_common sockfd OP_REQ_IMPORT 0 s = (rc1, s1))
    (h2 : S.usbip_net_send sockfd (request_busid busid) s1 = (rc2, s2))
    (h3 : S.usbip_net_recv_op_common sockfd OP_REP_IMPORT s2 = ((rc3, status), s3))
    (h4 : S.usbip_net_recv sockfd s3 = ((rc4, reply), s4)) :
    query_import_device S L fuel enumerate sockfd busid s =
      if rc1 < 0 then
        (some { rc := -1, out := none },
          [attach_call.send_op_common sockfd OP_REQ_IMPORT 0 rc1], s1)
      else if rc2 < 0 then
        (some { rc := -1, out := none },
          [attach_call.send_op_common sockfd OP_REQ_IMPORT 0 rc1,
           attach_call.send sockfd (request_busid busid) rc2], s2)
      else if rc3 < 0 then
        (some { rc := -1, out := none },
          [attach_call.send_op_common sockfd OP_REQ_IMPORT 0 rc1,
           attach_call.send sockfd (request_busid busid) rc2,
           attach_call.recv_op_common sockfd rc3 status], s3)
      else if rc4 < 0 ∨ strncmp reply.busid busid.data SYSFS_BUS_ID_SIZE ≠ 0 then
        (some { rc := -1, out := none },
          [attach_call.send_op_common sockfd OP_REQ_IMPORT 0 rc1,
           attach_call.send sockfd (request_busid busid) rc2,
           attach_call.recv_op_common sockfd rc3 status,
           attach_call.recv sockfd rc4 reply], s4)
      else
        ((import_device L sockfd reply.udev fuel enumerate s4).1,
          [attach_call.send_op_common sockfd OP_REQ_IMPORT 0 rc1,
           attach_call.send sockfd (request_busid busid) rc2,
           attach_call.recv_op_common sockfd rc3 status,
           attach_call.recv sockfd rc4 reply] ++
            (import_device L sockfd reply.udev fuel enumerate s4).2.1.map attach_call.vhci,
          (import_device L sockfd reply.udev fuel enumerate s4).2.2) := by
  simp only [query_import_device, h1, h2, h3, h4]
  by_cases c1 : rc1 < 0
  · simp only [c1, if_true]
  · by_cases c2 : rc2 < 0
    · simp only [c1, c2, if_true, if_false]
    · by_cases c3 : rc3 < 0
      · simp only [c1, c2, c3, if_true, if_false]
      · by_cases c4 : rc4 < 0
        · simp only [c1, c2, c3, c4, if_true, if_false, true_or]
        · by_cases c5 : strncmp reply.busid busid.data SYSFS_BUS_ID_SIZE ≠ 0
          · rw [if_neg c1, if_neg c2, if_neg c3, if_neg c4, if_pos c5, if_neg c1, if_neg c2,
              if_neg c3, if_pos (Or.inr c5)]
          · rw [if_neg c1, if_neg c2, if_neg c3, if_neg c4, if_neg c5, if_neg c1, if_neg c2,
              if_neg c3, if_neg (fun h => h.elim c4 c5)]

/-- C11: `query_import_device` invokes `import_device` only after the whole
exchange succeeded. When the send of the header or of the request fails, the
reply header is not accepted (which, for a header read as the spec says,
includes every status other than OK), the reply payload cannot be read, or
the bus id of the reply is not the requested one as C strings within the 32
bytes of the field, the result is `-1`, no port and no controller index is
handed back, and no call is made into the vhci driver library: no request
for a free port, no attach. Otherwise the result, the calls and the state are
those of the four steps followed by `import_device`. -/
theorem query_import_device_no_claim {σ : Type} (S : usbip_sys_lib σ) (L : vhci_driver_lib σ)
    (fuel : Nat) (enumerate : Option (List String)) (sockfd : Int) (busid : String) (s : σ)
    (rc1 : Int) (s1 : σ) (rc2 : Int) (s2 : σ) (rc3 status : Int) (s3 : σ) (rc4 : Int)
    (reply : op_import_reply) (s4 : σ)
    (h1 : S.usbip_net_send_op_common sockfd OP_REQ_IMPORT 0 s = (rc1, s1))
    (h2 : S.usbip_net_send sockfd (request_busid busid) s1 = (rc2, s2))
    (h3 : S.usbip_net_recv_op_common sockfd OP_REP_IMPORT s2 = ((rc3, status), s3))
    (h4 : S.usbip_net_recv sockfd s3 = ((rc4, reply), s4)) :
    ((rc1 < 0 ∨ rc2 < 0 ∨ rc3 < 0 ∨ rc4 < 0 ∨
        c_string SYSFS_BUS_ID_SIZE reply.busid ≠ c_string SYSFS_BUS_ID_SIZE busid.data) →
      (query_import_device S L fuel enumerate sockfd busid s).1
        = some { rc := -1, out := none } ∧
      (∀ c ∈ (query_import_device S L fuel enumerate sockfd busid s).2.1,
        c.is_vhci = false) ∧
      (query_import_device S L fuel enumerate sockfd busid s).2.1 <+:
        [attach_call.send_op_common sockfd OP_REQ_IMPORT 0 rc1,
         attach_call.send sockfd (request_busid busid) rc2,
         attach_call.recv_op_common sockfd rc3 status,
         attach_call.recv sockfd rc4 reply]) ∧
    (∀ (read_header : Int → σ → Option op_common × σ) (h : op_common),
      S.usbip_net_recv_op_common = recv_op_common read_header →
      (read_header sockfd s2).1 = some h → h.status ≠ ST_OK → rc3 < 0 ∧ status = h.status) ∧
    (¬ (rc1 < 0 ∨ rc2 < 0 ∨ rc3 < 0 ∨ rc4 < 0 ∨
        c_string SYSFS_BUS_ID_SIZE reply.busid ≠ c_string SYSFS_BUS_ID_SIZE busid.data) →
      query_import_device S L fuel enumerate sockfd busid s =
        ((import_device L sockfd reply.udev fuel enumerate s4).1,
          [attach_call.send_op_common sockfd OP_REQ_IMPORT 0 rc1,
           attach_call.send sockfd (request_busid busid) rc2,
           attach_call.recv_op_common sockfd rc3 status,
           attach_call.recv sockfd rc4 reply] ++
            (import_device L sockfd reply.udev fuel enumerate s4).2.1.map attach_call.vhci,
          (import_device L sockfd reply.udev fuel enumerate s4).2.2)) := by
  have hcmp : strncmp reply.busid busid.data SYSFS_BUS_ID_SIZE ≠ 0 ↔
      c_string SYSFS_BUS_ID_SIZE reply.busid ≠ c_string SYSFS_BUS_ID_SIZE busid.data :=
    not_congr (strncmp_eq_zero_iff _ _ _)
  rw [query_import_device_eq S L fuel enumerate sockfd busid s rc1 s1 rc2 s2 rc3 status s3 rc4
    reply s4 h1 h2 h3 h4]
  refine ⟨?_, ?_, ?_⟩
  · intro hfail
    by_cases c1 : rc1 < 0
    · rw [if_pos c1]
      refine ⟨rfl, ?_, ?_⟩
      · intro c hc
        simp only [List.mem_singleton] at hc
        rw [hc]; rfl
      · exact ⟨_, rfl⟩
    · rw [if_neg c1]
      by_cases c2 : rc2 < 0
      · rw [if_pos c2]
        refine ⟨rfl, ?_, ?_⟩
        · intro c hc
          simp only [List.mem_cons, List.mem_singleton, List.not_mem_nil, or_false] at hc
          rcases hc with rfl | rfl <;> rfl
        · exact ⟨_, rfl⟩
      · rw [if_neg c2]
        by_cases c3 : rc3 < 0
        · rw [if_pos c3]
          refine ⟨rfl, ?_, ?_⟩
          · intro c hc
            simp only [List.mem_cons, List.mem_singleton, List.not_mem_nil, or_false] at hc
            rcases hc with rfl | rfl | rfl <;> rfl
          · exact ⟨_, rfl⟩
        · rw [if_neg c3]
          have c45 : rc4 < 0 ∨ strncmp reply.busid busid.data SYSFS_BUS_ID_SIZE ≠ 0 := by
            rcases hfail with h | h | h | h | h
            · exact absurd h c1
            · exact absurd h c2
            · exact absurd h c3
            · exact Or.inl h
            · exact Or.inr (hcmp.2 h)
          rw [if_pos c45]
          refine ⟨rfl, ?_, List.prefix_refl _⟩
          intro c hc
          simp only [List.mem_cons, List.mem_singleton, List.not_mem_nil, or_false] at hc
          rcases hc with rfl | rfl | rfl | rfl <;> rfl
  · intro read_header h hS hread hstatus
    rw [hS] at h3
    simp only [recv_op_common, hread, hstatus, ne_eq, not_false_eq_true, if_true,
      Prod.mk.injEq] at h3
    obtain ⟨⟨r, st⟩, _⟩ := h3
    exact ⟨by rw [← r]; decide, st.symm⟩
  · intro hok
    have c1 : ¬ rc1 < 0 := fun h => hok (Or.inl h)
    have c2 : ¬ rc2 < 0 := fun h => hok (Or.inr (Or.inl h))
    have c3 : ¬ rc3 < 0 := fun h => hok (Or.inr (Or.inr (Or.inl h)))
    have c45 : ¬ (rc4 < 0 ∨ strncmp reply.busid busid.data SYSFS_BUS_ID_SIZE ≠ 0) := by
      rintro (h | h)
      · exact hok (Or.inr (Or.inr (Or.inr (Or.inl h))))
      · exact hok (Or.inr (Or.inr (Or.inr (Or.inr (hcmp.1 h)))))
    rw [if_neg c1, if_neg c2, if_neg c3, if_neg c45]

theorem query_import_device_no_claim_witness :
    (demo_sys 1 (demo_reply "1-2.3")).usbip_net_send_op_common 7 OP_REQ_IMPORT 0
      race_demo_state = (0, race_demo_state) ∧
    (demo_sys 1 (demo_reply "1-2.3")).usbip_net_send 7 (request_busid "1-2.3")
      race_demo_state = (0, race_demo_state) ∧
    (demo_sys 1 (demo_reply "1-2.3")).usbip_net_recv_op_common 7 OP_REP_IMPORT
      race_demo_state = ((-1, 1), race_demo_state) ∧
    (demo_sys 1 (demo_reply "1-2.3")).usbip_net_recv 7 race_demo_state
      = ((0, demo_reply "1-2.3"), race_demo_state) ∧
    (query_import_device (demo_sys 1 (demo_reply "1-2.3")) demo_lib 3 (some ["vhci_hcd.0"]) 7
      "1-2.3" race_demo_state).1 = some { rc := -1, out := none } ∧
    (∀ c ∈ (query_import_device (demo_sys 1 (demo_reply "1-2.3")) demo_lib 3
      (some ["vhci_hcd.0"]) 7 "1-2.3" race_demo_state).2.1, c.is_vhci = false) :=
  have h := (query_import_device_no_claim (demo_sys 1 (demo_reply "1-2.3")) demo_lib 3
    (some ["vhci_hcd.0"]) 7 "1-2.3" race_demo_state 0 race_demo_state 0 race_demo_state (-1) 1
    race_demo_state 0 (demo_reply "1-2.3") race_demo_state rfl rfl rfl rfl).1
    (Or.inr (Or.inr (Or.inl (by decide))))
  ⟨rfl, rfl, rfl, rfl, h.1, h.2.1⟩

/-! ## The connection of `attach_device` -/

/-- When the import exchange fails, `attach_device` returns `-1` right
after `query_import_device`: its calls are the connect followed by those of
the exchange. -/
theorem attach_device_query_failed {σ : Type} (S : usbip_sys_lib σ) (L : vhci_driver_lib σ)
    (VHCI_STATE_PATH usbip_port_string : String) (fuel : Nat)
    (enumerate : Option (List String)) (host busid : String) (s : σ) (res : import_result)
    (hconn : ¬ (S.usbip_net_tcp_connect host usbip_port_string s).1 < 0)
    (hq : (query_import_device S L fuel enumerate
      (S.usbip_net_tcp_connect host usbip_port_string s).1 busid
      (S.usbip_net_tcp_connect host usbip_port_string s).2).1 = some res)
    (hrc : res.rc < 0) :
    attach_device S L VHCI_STATE_PATH usbip_port_string fuel enumerate host busid s =
      (some (-1),
        attach_call.tcp_connect host usbip_port_string
            (S.usbip_net_tcp_connect host usbip_port_string s).1 ::
          (query_import_device S L fuel enumerate
            (S.usbip_net_tcp_connect host usbip_port_string s).1 busid
            (S.usbip_net_tcp_connect host usbip_port_string s).2).2.1,
        (query_import_device S L fuel enumerate
          (S.usbip_net_tcp_connect host usbip_port_string s).1 busid
          (S.usbip_net_tcp_connect host usbip_port_string s).2).2.2) := by
  simp only [attach_device, if_neg hconn, hq, if_pos hrc]

/-- The calls of `query_import_device` never close a descriptor. -/
theorem query_import_device_no_close {σ : Type} (S : usbip_sys_lib σ) (L : vhci_driver_lib σ)
    (fuel : Nat) (enumerate : Option (List String)) (sockfd : Int) (busid : String) (s : σ) :
    ∀ c ∈ (query_import_device S L fuel enumerate sockfd busid s).2.1,
      ∀ fd, c ≠ attach_call.libc_close fd := by
  rcases h1 : S.usbip_net_send_op_common sockfd OP_REQ_IMPORT 0 s with ⟨rc1, s1⟩
  rcases h2 : S.usbip_net_send sockfd (request_busid busid) s1 with ⟨rc2, s2⟩
  rcases h3 : S.usbip_net_recv_op_common sockfd OP_REP_IMPORT s2 with ⟨⟨rc3, status⟩, s3⟩
  rcases h4 : S.usbip_net_recv sockfd s3 with ⟨⟨rc4, reply⟩, s4⟩
  rw [query_import_device_eq S L fuel enumerate sockfd busid s rc1 s1 rc2 s2 rc3 status s3 rc4
    reply s4 h1 h2 h3 h4]
  intro c hc fd hfd
  subst hfd
  split at hc
  · simp at hc
  · split at hc
    · simp at hc
    · split at hc
      · simp at hc
      · split at hc
        · simp at hc
        · simp at hc

/-- Whatever the libraries answer: when the import exchange fails,
`attach_device` returns `-1` and none of its calls closes a descriptor. -/
theorem attach_device_failure_keeps_connection {σ : Type} (S : usbip_sys_lib σ)
    (L : vhci_driver_lib σ) (VHCI_STATE_PATH usbip_port_string : String) (fuel : Nat)
    (enumerate : Option (List String)) (host busid : String) (s : σ) (res : import_result)
    (hconn : ¬ (S.usbip_net_tcp_connect host usbip_port_string s).1 < 0)
    (hq : (query_import_device S L fuel enumerate
      (S.usbip_net_tcp_connect host usbip_port_string s).1 busid
      (S.usbip_net_tcp_connect host usbip_port_string s).2).1 = some res)
    (hrc : res.rc < 0) :
    (attach_device S L VHCI_STATE_PATH usbip_port_string fuel enumerate host busid s).1
      = some (-1) ∧
    ∀ c ∈ (attach_device S L VHCI_STATE_PATH usbip_port_string fuel enumerate host busid s).2.1,
      ∀ fd, c ≠ attach_call.libc_close fd := by
  rw [attach_device_query_failed S L VHCI_STATE_PATH usbip_port_string fuel enumerate host busid
    s res hconn hq hrc]
  refine ⟨rfl, ?_⟩
  intro c hc fd
  simp only [List.mem_cons] at hc
  rcases hc with rfl | hc
  · intro h; cases h
  · exact query_import_device_no_close S L fuel enumerate _ busid _ c hc fd

set_option maxRecDepth 20000 in
/-- C12, at the failing input: the server answers the request for bus id
`1-2.3` with a reply for bus id `9-9`. `attach_device` connects (descriptor
7), runs the exchange, and returns `-1` after the payload was read, without a
`close` of descriptor 7: the connection is still open when it returns. On the
path where the reply matches, descriptor 7 is closed. -/
theorem attach_device_mismatch_no_close :
    c_string SYSFS_BUS_ID_SIZE (demo_reply "9-9").busid
      ≠ c_string SYSFS_BUS_ID_SIZE "1-2.3".data ∧
    (attach_device (demo_sys 0 (demo_reply "9-9")) demo_lib "/var/run/vhci_hcd" "3240" 3
      (some ["vhci_hcd.0"]) "server" "1-2.3" race_demo_state).1 = some (-1) ∧
    (attach_device (demo_sys 0 (demo_reply "9-9")) demo_lib "/var/run/vhci_hcd" "3240" 3
      (some ["vhci_hcd.0"]) "server" "1-2.3" race_demo_state).2.1
      = [attach_call.tcp_connect "server" "3240" 7,
         attach_call.send_op_common 7 OP_REQ_IMPORT 0 0,
         attach_call.send 7 (request_busid "1-2.3") 0,
         attach_call.recv_op_common 7 0 0,
         attach_call.recv 7 0 (demo_reply "9-9")] ∧
    attach_call.libc_close 7 ∉
      (attach_device (demo_sys 0 (demo_reply "9-9")) demo_lib "/var/run/vhci_hcd" "3240" 3
        (some ["vhci_hcd.0"]) "server" "1-2.3" race_demo_state).2.1 ∧
    (attach_device (demo_sys 0 (demo_reply "1-2.3")) demo_lib "/var/run/vhci_hcd" "3240" 3
      (some ["vhci_hcd.0"]) "server" "1-2.3" race_demo_state).1 = some 0 ∧
    attach_call.libc_close 7 ∈
      (attach_device (demo_sys 0 (demo_reply "1-2.3")) demo_lib "/var/run/vhci_hcd" "3240" 3
        (some ["vhci_hcd.0"]) "server" "1-2.3" race_demo_state).2.1 := by
  decide

/-! ## The ledger record -/

/-- A text of less than `size` characters is not cut by `snprintf`. -/
theorem snprintf_fits (size : Nat) (text : String) (h : text.length ≤ size - 1) :
    snprintf size text = text := by
  unfold snprintf
  have h' : text.data.length ≤ size - 1 := h
  rw [List.take_of_length_le h']

/-- Whatever the C library answers: when `record_connection` reports
success, its last three calls are the `open` of the file of the port, one
`write` of the buffer, complete, and the `close`; the file is named
`port<vhci_ix>-<rhport>` in the state directory and the buffer holds the
first `MAX_BUFF - 1` characters of `"<host> <port> <busid>\n"`. -/
theorem record_connection_success {σ : Type} (S : usbip_sys_lib σ) (VHCI_STATE_PATH : String)
    (host port busid : String) (vhci_ix rhport : Int) (s : σ)
    (h : (record_connection S VHCI_STATE_PATH host port busid vhci_ix rhport s).1 = 0) :
    ∃ pre fd,
      (record_connection S VHCI_STATE_PATH host port busid vhci_ix rhport s).2.1 =
        pre ++
          [attach_call.libc_open
            (snprintf PATH_MAX
              (VHCI_STATE_PATH ++ "/port" ++ sprintf_d vhci_ix ++ "-" ++ sprintf_d rhport)) fd,
           attach_call.libc_write fd
            (snprintf MAX_BUFF (host ++ " " ++ port ++ " " ++ busid ++ "\n"))
            ((snprintf MAX_BUFF (host ++ " " ++ port ++ " " ++ busid ++ "\n")).length : Int),
           attach_call.libc_close fd] ∧
      0 ≤ fd := by
  have hfile : ∀ (calls : List attach_call) (s' : σ),
      (record_connection_file S VHCI_STATE_PATH host port busid vhci_ix rhport calls s').1 = 0 →
      ∃ fd,
        (record_connection_file S VHCI_STATE_PATH host port busid vhci_ix rhport calls s').2.1 =
          calls ++
            [attach_call.libc_open
              (snprintf PATH_MAX
                (VHCI_STATE_PATH ++ "/port" ++ sprintf_d vhci_ix ++ "-" ++ sprintf_d rhport)) fd,
             attach_call.libc_write fd
              (snprintf MAX_BUFF (host ++ " " ++ port ++ " " ++ busid ++ "\n"))
              ((snprintf MAX_BUFF (host ++ " " ++ port ++ " " ++ busid ++ "\n")).length : Int),
             attach_call.libc_close fd] ∧
        0 ≤ fd := by
    intro calls s' h0
    simp only [record_connection_file] at h0 ⊢
    split at h0
    · simp at h0
    · rename_i hfd
      rw [if_neg hfd]
      split at h0
      · simp at h0
      · rename_i hw
        rw [if_neg hw]
        have hw' := not_not.1 hw
        refine ⟨(S.libc_open (snprintf PATH_MAX
          (VHCI_STATE_PATH ++ "/port" ++ sprintf_d vhci_ix ++ "-" ++ sprintf_d rhport)) s').1,
          ?_, by omega⟩
        simp only [hw']
  simp only [record_connection] at h ⊢
  split at h
  · rename_i hm
    rw [if_pos hm]
    split at h
    · rename_i he
      rw [if_pos he]
      split at h
      · simp at h
      · rename_i hs
        rw [if_neg hs]
        split at h
        · simp at h
        · rename_i hd
          rw [if_neg hd]
          obtain ⟨fd, e, hfd⟩ := hfile _ _ h
          exact ⟨_, fd, e, hfd⟩
    · simp at h
  · rename_i hm
    rw [if_neg hm]
    obtain ⟨fd, e, hfd⟩ := hfile _ _ h
    exact ⟨_, fd, e, hfd⟩

set_option maxRecDepth 40000 in
/-- C13, at the failing input: for a host name of 100 characters, service
port `3240`, bus id `1-2.3`, controller 0 and port 3, on a C library where
every call succeeds, `record_connection` writes to `port0-3` the first 99
characters of the host name, with no space, service port, bus id or newline
after them, and reports success; the record `"<host> 3240 1-2.3\n"` has 112
characters. -/
theorem record_connection_truncates :
    long_host.length = 100 ∧
    (record_connection (demo_sys 0 (demo_reply "1-2.3")) "/var/run/vhci_hcd" long_host "3240"
      "1-2.3" 0 3 idle_state).1 = 0 ∧
    (record_connection (demo_sys 0 (demo_reply "1-2.3")) "/var/run/vhci_hcd" long_host "3240"
      "1-2.3" 0 3 idle_state).2.1
      = [attach_call.libc_mkdir "/var/run/vhci_hcd" 0 0,
         attach_call.libc_open "/var/run/vhci_hcd/port0-3" 3,
         attach_call.libc_write 3 (String.mk (List.replicate 99 'a')) 99,
         attach_call.libc_close 3] ∧
    String.mk (List.replicate 99 'a') ≠ long_host ++ " 3240 1-2.3\n" ∧
    (long_host ++ " 3240 1-2.3\n").length = 112 := by
  decide

/-! ## Detach -/

/-- Whatever the library answers: when the controller can be opened and the
port is absent from its port list or listed as NULL, `detach_port` removes
no ledger record, makes one detach request for the port, closes the
controller and returns the result of that request. -/
theorem detach_port_not_attached {σ : Type} (D : usbip_detach_lib σ) (VHCI_STATE_PATH : String)
    (vhci_ix port : Int) (s : σ)
    (hopen : ¬ (D.usbip_vhci_driver_open s).1 < 0)
    (hcheck : check_port (D.vhci_driver_idev (D.usbip_vhci_driver_open s).2) port
      ≠ port_check.attached) :
    detach_port D VHCI_STATE_PATH vhci_ix port s =
      ((D.usbip_vhci_detach_device (u8_of_int port) (D.usbip_vhci_driver_open s).2).1,
        [detach_call.driver_open (D.usbip_vhci_driver_open s).1,
         detach_call.detach_device (u8_of_int port)
          (D.usbip_vhci_detach_device (u8_of_int port) (D.usbip_vhci_driver_open s).2).1,
         detach_call.driver_close],
        D.usbip_vhci_driver_close
          (D.usbip_vhci_detach_device (u8_of_int port) (D.usbip_vhci_driver_open s).2).2) := by
  unfold detach_port
  rw [if_neg hopen]
  cases hc : check_port (D.vhci_driver_idev (D.usbip_vhci_driver_open s).2) port with
  | attached => exact absurd hc hcheck
  | not_found => rfl
  | already_detached => rfl

/-- Whatever the library answers: when the controller can be opened and the
port is listed with a state other than NULL, `detach_port` removes the
ledger record `port<vhci_ix>-<port>`, opens controller `vhci_ix` and makes
two detach requests for the port, the second under the label
`call_driver_close`; it returns the result of the second. -/
theorem detach_port_attached {σ : Type} (D : usbip_detach_lib σ) (VHCI_STATE_PATH : String)
    (vhci_ix port : Int) (s : σ)
    (hopen : ¬ (D.usbip_vhci_driver_open s).1 < 0)
    (hcheck : check_port (D.vhci_driver_idev (D.usbip_vhci_driver_open s).2) port
      = port_check.attached) :
    ∃ rc_ix rc_first,
      (detach_port D VHCI_STATE_PATH vhci_ix port s).2.1 =
        [detach_call.driver_open (D.usbip_vhci_driver_open s).1,
         detach_call.libc_remove (snprintf PATH_MAX
          (VHCI_STATE_PATH ++ "/port" ++ sprintf_d vhci_ix ++ "-" ++ sprintf_d port)),
         detach_call.libc_rmdir VHCI_STATE_PATH,
         detach_call.driver_open_ix vhci_ix rc_ix,
         detach_call.detach_device (u8_of_int port) rc_first,
         detach_call.detach_device (u8_of_int port)
          (detach_port D VHCI_STATE_PATH vhci_ix port s).1,
         detach_call.driver_close] := by
  simp only [detach_port, if_neg hopen, hcheck]
  refine ⟨(D.usbip_vhci_driver_open_ix vhci_ix
    (D.libc_rmdir VHCI_STATE_PATH (D.libc_remove (snprintf PATH_MAX
      (VHCI_STATE_PATH ++ "/port" ++ sprintf_d vhci_ix ++ "-" ++ sprintf_d port))
      (D.usbip_vhci_driver_open s).2))).1, _, rfl⟩

/-- C14, at the failing input: on a controller with 2 ports per hub, all
NULL, `detach_port(0, 1)` finds port 1 listed as NULL and `detach_port(0, 9)`
finds no port 9; in both cases it removes no ledger record but still sends a
detach request for the port, which the controller refuses. With another
process attaching port 0 in between, `detach_port(0, 0)` finds port 0 listed
as NULL, sends the request all the same, and the request is accepted. -/
theorem detach_port_sends_request_when_idle :
    check_port (snapshot 2 vhci_init) 1 = port_check.already_detached ∧
    (detach_port (kernel_detach_lib 2 2) "/var/run/vhci_hcd" 0 1 idle_state).2.1
      = [detach_call.driver_open 0, detach_call.detach_device 1 (-1),
         detach_call.driver_close] ∧
    (detach_port (kernel_detach_lib 2 2) "/var/run/vhci_hcd" 0 1 idle_state).1 = -1 ∧
    check_port (snapshot 2 vhci_init) 9 = port_check.not_found ∧
    (detach_port (kernel_detach_lib 2 2) "/var/run/vhci_hcd" 0 9 idle_state).2.1
      = [detach_call.driver_open 0, detach_call.detach_device 9 (-1),
         detach_call.driver_close] ∧
    (detach_port (kernel_detach_lib 2 2) "/var/run/vhci_hcd" 0 0 race_demo_state).2.1
      = [detach_call.driver_open 0, detach_call.detach_device 0 0,
         detach_call.driver_close] ∧
    (detach_port (kernel_detach_lib 2 2) "/var/run/vhci_hcd" 0 0 race_demo_state).1 = 0 := by
  decide

end Usbip
